import Mathlib

/-!
# LoRaWAN energy model: energy source, radio energy model, consumption model

Shallow embedding of `lora-energy-source.cc`, `lora-radio-energy-model.cc` and
`lora-consumption-model.cc`.

Conventions of the embedding
* `double` values are exact rationals (`ℚ`): the development is about the arithmetic the
  code writes down, not about IEEE rounding.
* `ns3::Time` is a signed count of nanoseconds (`Int`); the 64-bit range is not modelled.
* `NS_ASSERT`, `NS_FATAL_ERROR` and an access outside a `std::vector` end the call with an
  `Error`; every operation returns `Except Error _`.
* `Simulator::Now ()` and `Simulator::IsFinished ()` are arguments `now` and `finished` of
  the operations that read them.
* A `World` is one `LoraEnergySource` together with the radio energy models installed on
  it (`LoraRadioEnergyModelHelper::DoInstall`: `SetEnergySource` on the model and
  `AppendDeviceEnergyModel` on the source), the pending refresh events of the scheduler and
  the list of notifications the source has emitted so far.
-/

namespace ns3

/-- Ways in which a call ends without returning. -/
inductive Error
  /-- An `NS_ASSERT` whose condition is false. -/
  | assertFailed
  /-- An `NS_FATAL_ERROR`. -/
  | fatalError
  /-- An index outside a `std::vector` (undefined behaviour in the C++ code). -/
  | outOfBounds
  /-- A model index that names no installed model. -/
  | noSuchModel
  deriving DecidableEq, Repr

/-! ## `ns3::Time`

A value of `ns3::Time` is written as the `Int` of its nanoseconds. -/

/-- The accessor `Time::GetSeconds`: the time as a `double` number of seconds. -/
def Time.GetSeconds (t : Int) : ℚ := (t : ℚ) / 1000000000

/-- The accessor `Time::GetNanoSeconds`. -/
def Time.GetNanoSeconds (t : Int) : Int := t

/-- The test `Time::IsPositive`: the time is zero or more. -/
def Time.IsPositive (t : Int) : Bool := decide (0 ≤ t)

/-! ## `EndDeviceLoraPhy::State` -/

namespace EndDeviceLoraPhy

/-- Modelled from the spec: the enumeration `EndDeviceLoraPhy::State` is declared in
`end-device-lora-phy.h`, which is not among the sources; the spec names its four modes
`{TRANSMIT, RECEIVE, STANDBY, SLEEP}`. A state variable is the underlying integer, so that
`static_cast<EndDeviceLoraPhy::State>(newState)` of any `int` can be stored. The four
enumerators are given distinct values; nothing below depends on which ones. -/
abbrev State := Int

/-- The enumerator `SLEEP`. -/
def SLEEP : State := 0
/-- The enumerator `STANDBY`. -/
def STANDBY : State := 1
/-- The enumerator `TX`. -/
def TX : State := 2
/-- The enumerator `RX`. -/
def RX : State := 3

/-- One of the four enumerators. -/
def isMode (s : State) : Prop := s = TX ∨ s = RX ∨ s = STANDBY ∨ s = SLEEP

instance (s : State) : Decidable (isMode s) := by
  unfold isMode; infer_instance

end EndDeviceLoraPhy

open EndDeviceLoraPhy (SLEEP STANDBY TX RX isMode)

/-! ## `InterpolatedLoraConsumptionModel` -/

namespace InterpolatedLoraConsumptionModel

/-- The local `power_dBm_lookup_table` of `CalcTxCurrent`. -/
def power_dBm_lookup_table : List ℚ := [7, 13, 17, 20]

/-- The local `curruent_ma_lookup_table` of `CalcTxCurrent` (spelling of the source). -/
def curruent_ma_lookup_table : List ℚ := [18, 28, 90, 125]

/-- Element access `v[i]` of a `std::vector<double>`. -/
def vectorAt (v : List ℚ) (i : Nat) : Except Error ℚ :=
  match v[i]? with
  | some x => .ok x
  | none => .error .outOfBounds

/-- The loop `while (power_dBm > power_dBm_lookup_table[index + 1]) index++;` started at
`index`; it returns the final index, or fails when it reads past the table. -/
def scanIndex (power_dBm : ℚ) (index : Nat) : Except Error Nat :=
  if h : index + 1 < power_dBm_lookup_table.length then
    if power_dBm > power_dBm_lookup_table[index + 1] then
      scanIndex power_dBm (index + 1)
    else
      .ok index
  else
    .error .outOfBounds
termination_by power_dBm_lookup_table.length - index

/-- The condition of the `NS_ASSERT` of `CalcTxCurrent`:
`power_dBm < power_dBm_lookup_table[n_elements - 1] || power_dBm > power_dBm_lookup_table[0]`. -/
def rangeAssertion (power_dBm : ℚ) : Bool :=
  let n_elements := power_dBm_lookup_table.length
  match power_dBm_lookup_table[n_elements - 1]?, power_dBm_lookup_table[0]? with
  | some last, some first => decide (power_dBm < last) || decide (power_dBm > first)
  | _, _ => false

/-- The function `InterpolatedLoraConsumptionModel::CalcTxCurrent`. -/
def CalcTxCurrent (power_dBm : ℚ) : Except Error ℚ :=
  if rangeAssertion power_dBm = false then .error .assertFailed else
  match scanIndex power_dBm 0 with
  | .error e => .error e
  | .ok index =>
    match vectorAt curruent_ma_lookup_table index, vectorAt power_dBm_lookup_table index,
          vectorAt curruent_ma_lookup_table (index + 1),
          vectorAt power_dBm_lookup_table (index + 1) with
    | .ok current_ma_L, .ok power_dBm_L, .ok current_ma_R, .ok power_dBm_R =>
      let current_ma_interpolated :=
        current_ma_L
          + (current_ma_R - current_ma_L) / (power_dBm_R - power_dBm_L)
            * (power_dBm - power_dBm_L)
      .ok (current_ma_interpolated / 1000)
    | _, _, _, _ => .error .outOfBounds

end InterpolatedLoraConsumptionModel

/-- The consumption models a radio energy model can point to; the repository has one
concrete subclass of `LoraConsumptionModel`. -/
inductive LoraConsumptionModel
  | Interpolated
  deriving DecidableEq, Repr

/-- The virtual call `m_consumptionModel->CalcTxCurrent (txPowerDbm)`. -/
def LoraConsumptionModel.CalcTxCurrent : LoraConsumptionModel → ℚ → Except Error ℚ
  | .Interpolated, p => InterpolatedLoraConsumptionModel.CalcTxCurrent p

/-! ## State of the two classes -/

/-- The handle `ns3::EventId`: the identifier of a scheduled event, or none for a default
constructed handle. -/
abbrev EventId := Option Nat

/-- The data members of `LoraEnergySource`. -/
structure LoraEnergySource where
  m_initialEnergyJ : ℚ
  m_initialChargemAh : ℚ
  m_supplyVoltageV : ℚ
  m_lowBatteryTh : ℚ
  m_highBatteryTh : ℚ
  m_depleted : Bool
  m_remainingEnergyJ : ℚ
  m_remainingChargemAh : ℚ
  m_energyUpdateEvent : EventId
  m_lastUpdateTime : Int
  m_energyUpdateInterval : Int
  deriving DecidableEq, Repr

/-- The data members of `LoraRadioEnergyModel`. The three observer callbacks
(`m_energyDepletionCB`, `m_energyRechargedCB`, `m_energyChangedCB`) are left out: they are
null unless an observer is registered, and an observer does not act on the model. The
pointer `m_source` is the source of the `World` the model is installed in. -/
structure LoraRadioEnergyModel where
  m_consumptionModel : Option LoraConsumptionModel
  m_txCurrentA : ℚ
  m_rxCurrentA : ℚ
  m_standbyCurrentA : ℚ
  m_sleepCurrentA : ℚ
  m_totalEnergyConsumption : ℚ
  m_txEnergyConsumption : ℚ
  m_rxEnergyConsumption : ℚ
  m_standbyEnergyConsumption : ℚ
  m_sleepEnergyConsumption : ℚ
  m_currentState : EndDeviceLoraPhy.State
  m_lastStampTime : Int
  m_energyDepleted : Bool
  m_totalTxTime : Int
  m_totalRxTime : Int
  m_totalStandbyTime : Int
  m_totalSleepTime : Int
  deriving DecidableEq, Repr

/-- The three notifications of an energy source. -/
inductive Notification
  | DEPLETED
  | RECHARGED
  | CHANGED
  deriving DecidableEq, Repr

/-- Modelled from the spec: the scheduler is an external collaborator (`ns3::Simulator` is
not among the sources) that offers "schedule callback at future time, return cancellable
handle". Only the refresh events of the source are kept: `pending` lists the identifier
and the due time of every scheduled event that has neither run nor been cancelled. -/
structure Simulator where
  nextUid : Nat
  pending : List (Nat × Int)
  deriving DecidableEq, Repr

/-- Modelled from the spec: `EventId::Cancel`; the event named by the handle, if still
pending, will not run. -/
def Simulator.Cancel (sim : Simulator) (ev : EventId) : Simulator :=
  match ev with
  | none => sim
  | some uid => { sim with pending := sim.pending.filter (fun e => decide (e.1 ≠ uid)) }

/-- Modelled from the spec: `Simulator::Schedule (delay, ...)` at time `now`; a new event
due at `now + delay` and its handle. The delay is taken as it is given. -/
def Simulator.Schedule (sim : Simulator) (now delay : Int) : Simulator × EventId :=
  ({ nextUid := sim.nextUid + 1, pending := sim.pending ++ [(sim.nextUid, now + delay)] },
   some sim.nextUid)

/-- One energy source with the models installed on it. -/
structure World where
  sim : Simulator
  source : LoraEnergySource
  models : List LoraRadioEnergyModel
  emitted : List Notification
  deriving DecidableEq, Repr

/-! ## `LoraRadioEnergyModel`: construction, accessors, handlers -/

namespace LoraRadioEnergyModel

/-- The constructor `LoraRadioEnergyModel::LoraRadioEnergyModel` followed by the attribute
initialisation of the four currents and of the consumption model pointer. -/
def new (txCurrentA rxCurrentA standbyCurrentA sleepCurrentA : ℚ)
    (consumptionModel : Option LoraConsumptionModel) : LoraRadioEnergyModel :=
  { m_consumptionModel := consumptionModel
    m_txCurrentA := txCurrentA
    m_rxCurrentA := rxCurrentA
    m_standbyCurrentA := standbyCurrentA
    m_sleepCurrentA := sleepCurrentA
    m_currentState := SLEEP
    m_txEnergyConsumption := 0
    m_rxEnergyConsumption := 0
    m_standbyEnergyConsumption := 0
    m_sleepEnergyConsumption := 0
    m_totalEnergyConsumption := 0
    m_totalTxTime := 0
    m_totalRxTime := 0
    m_totalStandbyTime := 0
    m_totalSleepTime := 0
    m_lastStampTime := 0
    m_energyDepleted := false }

/-- The accessor `GetTotalTxTime`. -/
def GetTotalTxTime (m : LoraRadioEnergyModel) : Int := m.m_totalTxTime
/-- The accessor `GetTotalRxTime`. -/
def GetTotalRxTime (m : LoraRadioEnergyModel) : Int := m.m_totalRxTime
/-- The accessor `GetTotalStandbyTime`. -/
def GetTotalStandbyTime (m : LoraRadioEnergyModel) : Int := m.m_totalStandbyTime
/-- The accessor `GetTotalSleepTime`. -/
def GetTotalSleepTime (m : LoraRadioEnergyModel) : Int := m.m_totalSleepTime
/-- The accessor `GetTxEnergyConsumption`. -/
def GetTxEnergyConsumption (m : LoraRadioEnergyModel) : ℚ := m.m_txEnergyConsumption
/-- The accessor `GetRxEnergyConsumption`. -/
def GetRxEnergyConsumption (m : LoraRadioEnergyModel) : ℚ := m.m_rxEnergyConsumption
/-- The accessor `GetStandbyEnergyConsumption`. -/
def GetStandbyEnergyConsumption (m : LoraRadioEnergyModel) : ℚ :=
  m.m_standbyEnergyConsumption
/-- The accessor `GetSleepEnergyConsumption`. -/
def GetSleepEnergyConsumption (m : LoraRadioEnergyModel) : ℚ := m.m_sleepEnergyConsumption
/-- The accessor `GetTotalEnergyConsumption`. -/
def GetTotalEnergyConsumption (m : LoraRadioEnergyModel) : ℚ := m.m_totalEnergyConsumption
/-- The accessor `GetCurrentState`. -/
def GetCurrentState (m : LoraRadioEnergyModel) : EndDeviceLoraPhy.State := m.m_currentState

/-- The function `LoraRadioEnergyModel::DoGetCurrentA`. -/
def DoGetCurrentA (m : LoraRadioEnergyModel) : Except Error ℚ :=
  if m.m_currentState = TX then .ok m.m_txCurrentA
  else if m.m_currentState = RX then .ok m.m_rxCurrentA
  else if m.m_currentState = STANDBY then .ok m.m_standbyCurrentA
  else if m.m_currentState = SLEEP then .ok m.m_sleepCurrentA
  else .error .fatalError

/-- The function `LoraRadioEnergyModel::HandleEnergyDepletion`. -/
def HandleEnergyDepletion (m : LoraRadioEnergyModel) : LoraRadioEnergyModel :=
  { m with m_energyDepleted := true }

/-- The function `LoraRadioEnergyModel::HandleEnergyRecharged`: it only calls the observer. -/
def HandleEnergyRecharged (m : LoraRadioEnergyModel) : LoraRadioEnergyModel := m

/-- The function `LoraRadioEnergyModel::HandleEnergyChanged`: it only calls the observer. -/
def HandleEnergyChanged (m : LoraRadioEnergyModel) : LoraRadioEnergyModel := m

/-- The function `LoraRadioEnergyModel::SetLoraPhyState`. -/
def SetLoraPhyState (m : LoraRadioEnergyModel) (state : EndDeviceLoraPhy.State) :
    LoraRadioEnergyModel :=
  { m with m_currentState := state }

/-- The function `LoraRadioEnergyModel::CalcTxCurrentFromModel`. -/
def CalcTxCurrentFromModel (m : LoraRadioEnergyModel) (txPowerDbm : ℚ) :
    Except Error LoraRadioEnergyModel :=
  match m.m_consumptionModel with
  | none => .error .assertFailed
  | some c =>
    match c.CalcTxCurrent txPowerDbm with
    | .error e => .error e
    | .ok i => .ok { m with m_txCurrentA := i }

/-- The `switch (m_currentState)` of `ChangeState`: the time and the energy of the interval
that ends are added to the accumulators of the current state; the result is the model and
the local `energyDecrement`. -/
def closeInterval (m : LoraRadioEnergyModel) (duration : Int) (supplyVoltage : ℚ) :
    Except Error (LoraRadioEnergyModel × ℚ) :=
  if m.m_currentState = TX then
    let energyDecrement := Time.GetSeconds duration * m.m_txCurrentA * supplyVoltage
    .ok ({ m with m_totalTxTime := m.m_totalTxTime + duration
                  m_txEnergyConsumption := m.m_txEnergyConsumption + energyDecrement },
         energyDecrement)
  else if m.m_currentState = RX then
    let energyDecrement := Time.GetSeconds duration * m.m_rxCurrentA * supplyVoltage
    .ok ({ m with m_totalRxTime := m.m_totalRxTime + duration
                  m_rxEnergyConsumption := m.m_rxEnergyConsumption + energyDecrement },
         energyDecrement)
  else if m.m_currentState = STANDBY then
    let energyDecrement := Time.GetSeconds duration * m.m_standbyCurrentA * supplyVoltage
    .ok ({ m with m_totalStandbyTime := m.m_totalStandbyTime + duration
                  m_standbyEnergyConsumption :=
                    m.m_standbyEnergyConsumption + energyDecrement },
         energyDecrement)
  else if m.m_currentState = SLEEP then
    let energyDecrement := Time.GetSeconds duration * m.m_sleepCurrentA * supplyVoltage
    .ok ({ m with m_totalSleepTime := m.m_totalSleepTime + duration
                  m_sleepEnergyConsumption := m.m_sleepEnergyConsumption + energyDecrement },
         energyDecrement)
  else .error .fatalError

end LoraRadioEnergyModel

/-! ## `LoraEnergySource` -/

namespace LoraEnergySource

/-- The constructor `LoraEnergySource::LoraEnergySource` followed by the attribute
initialisation (`SetInitialEnergy`, `SetInitialCharge`, `SetSupplyVoltage`, the two
thresholds and `SetEnergyUpdateInterval`), for values that the setters accept. -/
def new (initialEnergyJ initialChargemAh supplyVoltageV lowBatteryTh highBatteryTh : ℚ)
    (energyUpdateInterval : Int) : LoraEnergySource :=
  { m_lastUpdateTime := 0
    m_depleted := false
    m_initialEnergyJ := initialEnergyJ
    m_remainingEnergyJ := initialEnergyJ
    m_initialChargemAh := initialChargemAh
    m_remainingChargemAh := initialChargemAh
    m_supplyVoltageV := supplyVoltageV
    m_lowBatteryTh := lowBatteryTh
    m_highBatteryTh := highBatteryTh
    m_energyUpdateInterval := energyUpdateInterval
    m_energyUpdateEvent := none }

/-- The accessor `GetSupplyVoltage`. -/
def GetSupplyVoltage (s : LoraEnergySource) : ℚ := s.m_supplyVoltageV

/-- The local `energyToDecreaseJ` of `CalculateRemaining`:
`(totalCurrentA * m_supplyVoltageV * Time.GetNanoSeconds duration ()) / 1e9`. -/
def energyToDecreaseJ (s : LoraEnergySource) (totalCurrentA : ℚ) (duration : Int) : ℚ :=
  (totalCurrentA * s.m_supplyVoltageV * (Time.GetNanoSeconds duration : ℚ)) / 1000000000

/-- The last lines of `CalculateRemaining`: the `if` that sets `m_remainingEnergyJ` to
`0.0`, the statement `m_remainingEnergyJ -= energyToDecreaseJ` that follows it in every
case, and the new `m_remainingChargemAh`. -/
def deduct (s : LoraEnergySource) (energyToDecreaseJ : ℚ) : LoraEnergySource :=
  let remaining0 : ℚ := if s.m_remainingEnergyJ ≤ energyToDecreaseJ then 0 else s.m_remainingEnergyJ
  let remaining1 : ℚ := remaining0 - energyToDecreaseJ
  { s with m_remainingEnergyJ := remaining1
           m_remainingChargemAh := (remaining1 / s.m_supplyVoltageV) * 1000 }

/-- The accessor `GetInitialEnergy`. -/
def GetInitialEnergy (s : LoraEnergySource) : ℚ := s.m_initialEnergyJ

/-- The function `LoraEnergySource::SetInitialEnergy`. -/
def SetInitialEnergy (s : LoraEnergySource) (initialEnergyJ : ℚ) : Except Error LoraEnergySource :=
  if decide (initialEnergyJ ≥ 0) = false then .error .assertFailed else
  .ok { s with m_initialEnergyJ := initialEnergyJ, m_remainingEnergyJ := initialEnergyJ }

end LoraEnergySource

namespace World

/-- Modelled from the spec: `EnergySource::CalculateTotalCurrent` of the base class, which
is not among the sources: "Sum instantaneous current draw across all attached models". The
accumulator `totalCurrentA` starts at `acc`. -/
def CalculateTotalCurrent (acc : ℚ) : List LoraRadioEnergyModel → Except Error ℚ
  | [] => .ok acc
  | m :: ms =>
    match m.DoGetCurrentA with
    | .error e => .error e
    | .ok c => CalculateTotalCurrent (acc + c) ms

/-- Modelled from the spec: `EnergySource::NotifyEnergyDrained` of the base class: every
installed model receives `HandleEnergyDepletion`. -/
def NotifyEnergyDrained (w : World) : World :=
  { w with models := w.models.map LoraRadioEnergyModel.HandleEnergyDepletion
           emitted := w.emitted ++ [Notification.DEPLETED] }

/-- Modelled from the spec: `EnergySource::NotifyEnergyRecharged` of the base class: every
installed model receives `HandleEnergyRecharged`. -/
def NotifyEnergyRecharged (w : World) : World :=
  { w with models := w.models.map LoraRadioEnergyModel.HandleEnergyRecharged
           emitted := w.emitted ++ [Notification.RECHARGED] }

/-- Modelled from the spec: `EnergySource::NotifyEnergyChanged` of the base class: every
installed model receives `HandleEnergyChanged`. -/
def NotifyEnergyChanged (w : World) : World :=
  { w with models := w.models.map LoraRadioEnergyModel.HandleEnergyChanged
           emitted := w.emitted ++ [Notification.CHANGED] }

/-- The function `LoraEnergySource::HandleEnergyDrainedEvent`. -/
def HandleEnergyDrainedEvent (w : World) : World := w.NotifyEnergyDrained

/-- The function `LoraEnergySource::HandleEnergyRechargedEvent`. -/
def HandleEnergyRechargedEvent (w : World) : World := w.NotifyEnergyRecharged

/-- The function `LoraEnergySource::CalculateRemaining`. -/
def CalculateRemaining (w : World) (now : Int) : Except Error World :=
  match CalculateTotalCurrent 0 w.models with
  | .error e => .error e
  | .ok totalCurrentA =>
    let duration : Int := now - w.source.m_lastUpdateTime
    if Time.IsPositive duration = false then .error .assertFailed else
    .ok { w with source := w.source.deduct (w.source.energyToDecreaseJ totalCurrentA duration) }

/-- The function `LoraEnergySource::UpdateEnergySource`. -/
def UpdateEnergySource (w : World) (now : Int) (finished : Bool) : Except Error World :=
  if finished then .ok w else
  let w1 : World := { w with sim := w.sim.Cancel w.source.m_energyUpdateEvent }
  let remainingEnergy := w1.source.m_remainingEnergyJ
  match w1.CalculateRemaining now with
  | .error e => .error e
  | .ok w2 =>
    let w3 : World := { w2 with source := { w2.source with m_lastUpdateTime := now } }
    let w4 : World :=
      if w3.source.m_depleted = false
          ∧ w3.source.m_remainingEnergyJ ≤ w3.source.m_lowBatteryTh * w3.source.m_initialEnergyJ
      then
        HandleEnergyDrainedEvent { w3 with source := { w3.source with m_depleted := true } }
      else if w3.source.m_depleted = true
          ∧ w3.source.m_remainingEnergyJ > w3.source.m_highBatteryTh * w3.source.m_initialEnergyJ
      then
        HandleEnergyRechargedEvent { w3 with source := { w3.source with m_depleted := false } }
      else if w3.source.m_remainingEnergyJ ≠ remainingEnergy then
        NotifyEnergyChanged w3
      else w3
    let scheduled := w4.sim.Schedule now w4.source.m_energyUpdateInterval
    .ok { w4 with sim := scheduled.1
                  source := { w4.source with m_energyUpdateEvent := scheduled.2 } }

/-- The function `LoraEnergySource::GetRemainingEnergy`: the world after the call and the
value returned. -/
def GetRemainingEnergy (w : World) (now : Int) (finished : Bool) : Except Error (World × ℚ) :=
  match w.UpdateEnergySource now finished with
  | .error e => .error e
  | .ok w1 => .ok (w1, w1.source.m_remainingEnergyJ)

/-- The function `LoraRadioEnergyModel::ChangeState` called on the model at position `i`. -/
def ChangeState (w : World) (i : Nat) (newState : Int) (now : Int) (finished : Bool) :
    Except Error World :=
  match w.models[i]? with
  | none => .error .noSuchModel
  | some m =>
    let duration : Int := now - m.m_lastStampTime
    if Time.IsPositive duration = false then .error .assertFailed else
    let supplyVoltage := w.source.GetSupplyVoltage
    match m.closeInterval duration supplyVoltage with
    | .error e => .error e
    | .ok (m1, energyDecrement) =>
      let m2 : LoraRadioEnergyModel :=
        { m1 with m_totalEnergyConsumption := m1.m_totalEnergyConsumption + energyDecrement
                  m_lastStampTime := now }
      match UpdateEnergySource { w with models := w.models.set i m2 } now finished with
      | .error e => .error e
      | .ok w1 =>
        match w1.models[i]? with
        | none => .error .noSuchModel
        | some m3 =>
          if m3.m_energyDepleted = false then
            .ok { w1 with models := w1.models.set i (m3.SetLoraPhyState newState) }
          else .ok w1

/-- The call `CalcTxCurrentFromModel` on the model at position `i`. -/
def CalcTxCurrentFromModel (w : World) (i : Nat) (txPowerDbm : ℚ) : Except Error World :=
  match w.models[i]? with
  | none => .error .noSuchModel
  | some m =>
    match m.CalcTxCurrentFromModel txPowerDbm with
    | .error e => .error e
    | .ok m1 => .ok { w with models := w.models.set i m1 }

/-! ### `LoraEnergyPhyListener`

The listener of the model at position `i`; its two callbacks are bound by the constructor of
the model to `ChangeState` and `CalcTxCurrentFromModel` of that model. -/

/-- The function `LoraEnergyPhyListener::NotifyRxStart`. -/
def NotifyRxStart (w : World) (i : Nat) (now : Int) (finished : Bool) : Except Error World :=
  w.ChangeState i RX now finished

/-- The function `LoraEnergyPhyListener::NotifyTxStart`. -/
def NotifyTxStart (w : World) (i : Nat) (txPowerDbm : ℚ) (now : Int) (finished : Bool) :
    Except Error World :=
  match w.CalcTxCurrentFromModel i txPowerDbm with
  | .error e => .error e
  | .ok w1 => w1.ChangeState i TX now finished

/-- The function `LoraEnergyPhyListener::NotifySleep`. -/
def NotifySleep (w : World) (i : Nat) (now : Int) (finished : Bool) : Except Error World :=
  w.ChangeState i SLEEP now finished

/-- The function `LoraEnergyPhyListener::NotifyStandby`. -/
def NotifyStandby (w : World) (i : Nat) (now : Int) (finished : Bool) : Except Error World :=
  w.ChangeState i STANDBY now finished

/-- A source and the models installed on it before the simulation starts. -/
def install (source : LoraEnergySource) (models : List LoraRadioEnergyModel) : World :=
  { sim := { nextUid := 0, pending := [] }
    source := source
    models := models
    emitted := [] }

end World

/-! ## Runs -/

/-- The calls that the scheduler and the radio layer make on a world. -/
inductive Action
  /-- A call of `UpdateEnergySource`: the periodic refresh event, or `DoInitialize`. -/
  | UpdateEnergySource
  /-- A call of `GetRemainingEnergy` (the value read is dropped). -/
  | GetRemainingEnergy
  /-- A call of `ChangeState (newState)` on the model at position `i`. -/
  | ChangeState (i : Nat) (newState : Int)
  /-- A call of `CalcTxCurrentFromModel (txPowerDbm)` on the model at position `i`. -/
  | CalcTxCurrentFromModel (i : Nat) (txPowerDbm : ℚ)
  /-- The listener of the model at position `i` is told a transmission starts. -/
  | NotifyTxStart (i : Nat) (txPowerDbm : ℚ)
  /-- The listener of the model at position `i` is told a reception starts. -/
  | NotifyRxStart (i : Nat)
  /-- The listener of the model at position `i` is told the radio sleeps. -/
  | NotifySleep (i : Nat)
  /-- The listener of the model at position `i` is told the radio is in standby. -/
  | NotifyStandby (i : Nat)
  deriving DecidableEq, Repr

/-- A call together with the simulated time and the value of `Simulator::IsFinished ()` at
which it is made. -/
structure Event where
  now : Int
  finished : Bool
  action : Action
  deriving DecidableEq, Repr

namespace World

/-- One call on a world. -/
def step (w : World) (e : Event) : Except Error World :=
  match e.action with
  | .UpdateEnergySource => w.UpdateEnergySource e.now e.finished
  | .GetRemainingEnergy =>
    match w.GetRemainingEnergy e.now e.finished with
    | .error x => .error x
    | .ok r => .ok r.1
  | .ChangeState i newState => w.ChangeState i newState e.now e.finished
  | .CalcTxCurrentFromModel i txPowerDbm => w.CalcTxCurrentFromModel i txPowerDbm
  | .NotifyTxStart i txPowerDbm => w.NotifyTxStart i txPowerDbm e.now e.finished
  | .NotifyRxStart i => w.NotifyRxStart i e.now e.finished
  | .NotifySleep i => w.NotifySleep i e.now e.finished
  | .NotifyStandby i => w.NotifyStandby i e.now e.finished

/-- The calls of a list made one after the other; the run stops at the first call that
fails. -/
def run (w : World) : List Event → Except Error World
  | [] => .ok w
  | e :: es =>
    match w.step e with
    | .error x => .error x
    | .ok w1 => w1.run es

end World

/-! ## Configuration, further getters and disposal -/

namespace LoraEnergySource

/-- The function `LoraEnergySource::SetInitialCharge`. -/
def SetInitialCharge (s : LoraEnergySource) (initialChargemAh : ℚ) : Except Error LoraEnergySource :=
  if decide (initialChargemAh ≥ 0) = false then .error .assertFailed else
  .ok { s with m_initialChargemAh := initialChargemAh, m_remainingChargemAh := initialChargemAh }

/-- The function `LoraEnergySource::SetSupplyVoltage`. -/
def SetSupplyVoltage (s : LoraEnergySource) (supplyVoltageV : ℚ) : Except Error LoraEnergySource :=
  .ok { s with m_supplyVoltageV := supplyVoltageV }

/-- The function `LoraEnergySource::SetEnergyUpdateInterval`. -/
def SetEnergyUpdateInterval (s : LoraEnergySource) (interval : Int) : Except Error LoraEnergySource :=
  .ok { s with m_energyUpdateInterval := interval }

/-- The attribute `LoraEnergyLowBatteryThreshold` of `GetTypeId`: a direct accessor of
`m_lowBatteryTh` with `MakeDoubleChecker<double> ()`, a checker without bounds. -/
def SetLowBatteryThreshold (s : LoraEnergySource) (lowBatteryTh : ℚ) : Except Error LoraEnergySource :=
  .ok { s with m_lowBatteryTh := lowBatteryTh }

/-- The attribute `LoraEnergyHighBatteryThreshold` of `GetTypeId`: a direct accessor of
`m_highBatteryTh` with `MakeDoubleChecker<double> ()`, a checker without bounds. -/
def SetHighBatteryThreshold (s : LoraEnergySource) (highBatteryTh : ℚ) :
    Except Error LoraEnergySource :=
  .ok { s with m_highBatteryTh := highBatteryTh }

end LoraEnergySource

namespace LoraRadioEnergyModel

/-- The function `LoraRadioEnergyModel::SetTxCurrentA`. -/
def SetTxCurrentA (m : LoraRadioEnergyModel) (txCurrentA : ℚ) : Except Error LoraRadioEnergyModel :=
  .ok { m with m_txCurrentA := txCurrentA }

/-- The function `LoraRadioEnergyModel::SetRxCurrentA`. -/
def SetRxCurrentA (m : LoraRadioEnergyModel) (rxCurrentA : ℚ) : Except Error LoraRadioEnergyModel :=
  .ok { m with m_rxCurrentA := rxCurrentA }

/-- The function `LoraRadioEnergyModel::SetStandbyCurrentA`. -/
def SetStandbyCurrentA (m : LoraRadioEnergyModel) (idleCurrentA : ℚ) :
    Except Error LoraRadioEnergyModel :=
  .ok { m with m_standbyCurrentA := idleCurrentA }

/-- The function `LoraRadioEnergyModel::SetSleepCurrentA`. -/
def SetSleepCurrentA (m : LoraRadioEnergyModel) (sleepCurrentA : ℚ) :
    Except Error LoraRadioEnergyModel :=
  .ok { m with m_sleepCurrentA := sleepCurrentA }

/-- The accessor `GetTxCurrentA`. -/
def GetTxCurrentA (m : LoraRadioEnergyModel) : ℚ := m.m_txCurrentA

end LoraRadioEnergyModel

namespace World

/-- The function `LoraEnergySource::GetRemainingCharge`: the world after the call and the
value returned. -/
def GetRemainingCharge (w : World) (now : Int) (finished : Bool) : Except Error (World × ℚ) :=
  match w.UpdateEnergySource now finished with
  | .error e => .error e
  | .ok w1 => .ok (w1, w1.source.m_remainingChargemAh)

/-- The function `LoraEnergySource::GetEnergyFraction`: the world after the call and the
value returned. -/
def GetEnergyFraction (w : World) (now : Int) (finished : Bool) : Except Error (World × ℚ) :=
  match w.UpdateEnergySource now finished with
  | .error e => .error e
  | .ok w1 => .ok (w1, w1.source.m_remainingEnergyJ / w1.source.m_initialEnergyJ)

/-- Modelled from the spec: `EnergySource::BreakDeviceEnergyModelRefCycle` of the base
class, which is not among the sources: the source owns "a list of attached device energy
models" as back-references, and the call drops them. -/
def BreakDeviceEnergyModelRefCycle (w : World) : World :=
  { w with models := [] }

/-- The function `LoraEnergySource::DoDispose`. -/
def DoDispose (w : World) : World := w.BreakDeviceEnergyModelRefCycle

/-- The refresh events that are pending: scheduled, not run and not cancelled. -/
def pendingRefreshes (w : World) : List (Nat × Int) := w.sim.pending

end World

/-! ## The transmit-start notification in the words of the spec -/

namespace World

/-- The operation `notifyTransmitStart (powerDbm, now)` in the words of the spec: "if a
ConsumptionModel is attached, `txCurrentA := consumptionModel.currentForPower (powerDbm)`;
then proceeds as `notifyModeChange (TRANSMIT, now)`", on the model at position `i`. -/
def specNotifyTransmitStart (w : World) (i : Nat) (powerDbm : ℚ) (now : Int)
    (finished : Bool) : Except Error World :=
  match w.models[i]? with
  | none => .error .noSuchModel
  | some m =>
    match m.m_consumptionModel with
    | none => w.ChangeState i TX now finished
    | some cm =>
      match cm.CalcTxCurrent powerDbm with
      | .error e => .error e
      | .ok c =>
        ChangeState { w with models := w.models.set i { m with m_txCurrentA := c } } i TX now
          finished

end World

/-! ## Quantities the statements speak of -/

namespace LoraRadioEnergyModel

/-- The duration accumulator of a mode. -/
def timeIn (m : LoraRadioEnergyModel) (s : EndDeviceLoraPhy.State) : Int :=
  if s = TX then m.GetTotalTxTime
  else if s = RX then m.GetTotalRxTime
  else if s = STANDBY then m.GetTotalStandbyTime
  else if s = SLEEP then m.GetTotalSleepTime
  else 0

/-- The energy accumulator of a mode. -/
def energyIn (m : LoraRadioEnergyModel) (s : EndDeviceLoraPhy.State) : ℚ :=
  if s = TX then m.GetTxEnergyConsumption
  else if s = RX then m.GetRxEnergyConsumption
  else if s = STANDBY then m.GetStandbyEnergyConsumption
  else if s = SLEEP then m.GetSleepEnergyConsumption
  else 0

/-- The sum of the four duration accumulators. -/
def sumTimes (m : LoraRadioEnergyModel) : Int :=
  m.GetTotalTxTime + m.GetTotalRxTime + m.GetTotalStandbyTime + m.GetTotalSleepTime

/-- The sum of the four energy accumulators. -/
def sumEnergies (m : LoraRadioEnergyModel) : ℚ :=
  m.GetTxEnergyConsumption + m.GetRxEnergyConsumption + m.GetStandbyEnergyConsumption
    + m.GetSleepEnergyConsumption

/-- The model after the accounting part of `ChangeState` (the `switch`, the total and the
time stamp), for the current `c` of the state that ends. -/
structure Accounted (m m2 : LoraRadioEnergyModel) (now : Int) (supplyVoltage c : ℚ) : Prop where
  current : m.DoGetCurrentA = .ok c
  state : m2.m_currentState = m.m_currentState
  depleted : m2.m_energyDepleted = m.m_energyDepleted
  stamp : m2.m_lastStampTime = now
  consumption : m2.m_consumptionModel = m.m_consumptionModel
  tx : m2.m_txCurrentA = m.m_txCurrentA
  rx : m2.m_rxCurrentA = m.m_rxCurrentA
  standby : m2.m_standbyCurrentA = m.m_standbyCurrentA
  sleep : m2.m_sleepCurrentA = m.m_sleepCurrentA
  total : m2.m_totalEnergyConsumption = m.m_totalEnergyConsumption
    + Time.GetSeconds (now - m.m_lastStampTime) * c * supplyVoltage
  time : ∀ s, m2.timeIn s = m.timeIn s + if s = m.m_currentState then now - m.m_lastStampTime else 0
  energy : ∀ s, m2.energyIn s = m.energyIn s
    + if s = m.m_currentState then Time.GetSeconds (now - m.m_lastStampTime) * c * supplyVoltage
      else 0
  sumTimes : m2.sumTimes = m.sumTimes + (now - m.m_lastStampTime)
  sumEnergies : m2.sumEnergies = m.sumEnergies
    + Time.GetSeconds (now - m.m_lastStampTime) * c * supplyVoltage

end LoraRadioEnergyModel

/-- The two conservation equations of a model: the durations add up to the last time stamp
and the energies add up to the total. -/
def LoraRadioEnergyModel.Balanced (m : LoraRadioEnergyModel) : Prop :=
  m.sumTimes = m.m_lastStampTime ∧ m.sumEnergies = m.m_totalEnergyConsumption

/-- A call of `ChangeState` on one of `n` installed models with one of the four modes. -/
def Event.isChangeStateCall (n : Nat) (e : Event) : Prop :=
  ∃ i newState, e.action = Action.ChangeState i newState ∧ i < n ∧ isMode newState

/-- A call of `ChangeState` with one of the four modes, or a call of
`CalcTxCurrentFromModel` with a power of at most 20 dBm, on one of `n` installed models. -/
def Event.isAccountingCall (n : Nat) (e : Event) : Prop :=
  (∃ i newState, e.action = Action.ChangeState i newState ∧ i < n ∧ isMode newState) ∨
  (∃ i p, e.action = Action.CalcTxCurrentFromModel i p ∧ i < n ∧ p ≤ 20)

/-- The notifications `tr` are what a source emits while its depleted flag goes from `d` to
`d'`: DEPLETED is emitted with the flag clear and sets it, RECHARGED is emitted with the flag
set and clears it, CHANGED leaves it. -/
def Notification.follows : Bool → List Notification → Bool → Prop
  | d, [], d' => d = d'
  | d, Notification.DEPLETED :: t, d' => d = false ∧ Notification.follows true t d'
  | d, Notification.RECHARGED :: t, d' => d = true ∧ Notification.follows false t d'
  | d, Notification.CHANGED :: t, d' => Notification.follows d t d'

namespace InterpolatedLoraConsumptionModel

/-- The calibration table as pairs (power in dBm, current in mA). -/
def calibrationTable : List (ℚ × ℚ) := power_dBm_lookup_table.zip curruent_ma_lookup_table

/-- The segments of the calibration table: pairs of neighbouring entries
`((p_L, c_L), (p_R, c_R))`. -/
def segments : List ((ℚ × ℚ) × (ℚ × ℚ)) := calibrationTable.zip calibrationTable.tail

end InterpolatedLoraConsumptionModel

/-- The transition that a call makes on the model at position `i`: the time of the call and
the mode asked for; `none` for the calls that are not a mode change of that model. -/
def Event.transition? (i : Nat) (e : Event) : Option (Int × EndDeviceLoraPhy.State) :=
  match e.action with
  | Action.ChangeState j newState => if j = i then some (e.now, newState) else none
  | Action.NotifyTxStart j _ => if j = i then some (e.now, TX) else none
  | Action.NotifyRxStart j => if j = i then some (e.now, RX) else none
  | Action.NotifySleep j => if j = i then some (e.now, SLEEP) else none
  | Action.NotifyStandby j => if j = i then some (e.now, STANDBY) else none
  | Action.UpdateEnergySource => none
  | Action.GetRemainingEnergy => none
  | Action.CalcTxCurrentFromModel _ _ => none

/-- The transitions that the calls of a list make on the model at position `i`. -/
def transitionsOf (i : Nat) (es : List Event) : List (Int × EndDeviceLoraPhy.State) :=
  es.filterMap (Event.transition? i)

/-- The total length of the closed intervals spent in mode `s` by a radio that is in mode
`cur` since time `last` and then makes the transitions of the list: every transition at time
`t` closes the interval from `last` to `t` in the mode `cur`. -/
def spentIn (s : EndDeviceLoraPhy.State) :
    EndDeviceLoraPhy.State → Int → List (Int × EndDeviceLoraPhy.State) → Int
  | _, _, [] => 0
  | cur, last, (t, newState) :: rest =>
    (if s = cur then t - last else 0) + spentIn s newState t rest

/-- A refresh of the source (the periodic event or `DoInitialize`) or a read of the
remaining energy. -/
def Event.isRefresh (e : Event) : Prop :=
  e.action = Action.UpdateEnergySource ∨ e.action = Action.GetRemainingEnergy

/-- One of the four notifications of the listener of the model at position `i`. -/
def Event.isNotificationOf (i : Nat) (e : Event) : Prop :=
  (∃ p, e.action = Action.NotifyTxStart i p) ∨ e.action = Action.NotifyRxStart i ∨
    e.action = Action.NotifySleep i ∨ e.action = Action.NotifyStandby i

/-- One of the four notifications of the listener of some model. -/
def Event.isNotification (e : Event) : Prop := ∃ i, e.isNotificationOf i

/-- At most one refresh event is pending; it is the one that the handle of the source
names, and its identifier is older than the next one of the scheduler. -/
def World.OneRefresh (w : World) : Prop :=
  w.pendingRefreshes = [] ∨
    ∃ uid due, w.pendingRefreshes = [(uid, due)] ∧ w.source.m_energyUpdateEvent = some uid ∧
      uid < w.sim.nextUid

/-- The four per-mode currents of a model are not negative. -/
def LoraRadioEnergyModel.currentsNonneg (m : LoraRadioEnergyModel) : Prop :=
  0 ≤ m.m_txCurrentA ∧ 0 ≤ m.m_rxCurrentA ∧ 0 ≤ m.m_standbyCurrentA ∧ 0 ≤ m.m_sleepCurrentA

/-- A call that stores no negative transmit current: the power that comes with
`CalcTxCurrentFromModel` or `NotifyTxStart` is at least -3.8 dBm, the power at which the
first segment of the calibration table crosses 0 mA. -/
def Event.keepsCurrents (e : Event) : Prop :=
  ∀ i p, (e.action = Action.CalcTxCurrentFromModel i p ∨ e.action = Action.NotifyTxStart i p) →
    -19 / 5 ≤ p

/-- A source with a non-negative initial energy, thresholds `0 < low < high` and a
non-negative supply voltage, whose remaining energy is at most `high * initialEnergy` when
it is depleted, that is depleted if it has emitted DEPLETED, and that has not emitted
RECHARGED. -/
def World.NeverRecharged (w : World) : Prop :=
  0 ≤ w.source.m_initialEnergyJ ∧ 0 < w.source.m_lowBatteryTh ∧
    w.source.m_lowBatteryTh < w.source.m_highBatteryTh ∧ 0 ≤ w.source.m_supplyVoltageV ∧
    (w.source.m_depleted = true →
      w.source.m_remainingEnergyJ ≤ w.source.m_highBatteryTh * w.source.m_initialEnergyJ) ∧
    (Notification.DEPLETED ∈ w.emitted → w.source.m_depleted = true) ∧
    Notification.RECHARGED ∉ w.emitted

/-- The energy drawn from the source of a world with one model is the total energy of the
model plus the energy of its present current from its last time stamp to the last refresh
of the source. -/
def World.Conserved (w : World) : Prop :=
  ∃ m, w.models = [m] ∧ ∀ c, m.DoGetCurrentA = .ok c →
    w.source.m_initialEnergyJ - w.source.m_remainingEnergyJ
      = m.GetTotalEnergyConsumption
        + c * w.source.GetSupplyVoltage
          * Time.GetSeconds (w.source.m_lastUpdateTime - m.m_lastStampTime)

/-- The calls that the conservation statement speaks of, on a world with one model: the
call is made while the simulation is not finished; it is a refresh, a read of the remaining
energy or a notification of the listener of the model; the remaining energy exceeds the
energy that the refresh of the call deducts; and a transmit-start notification arrives while
the model is not in TX. -/
def World.inScope (w : World) (e : Event) : Prop :=
  e.finished = false ∧ (e.isRefresh ∨ e.isNotificationOf 0) ∧
    (∀ m c, w.models = [m] → m.DoGetCurrentA = .ok c →
      w.source.m_remainingEnergyJ
        > c * w.source.GetSupplyVoltage
          * Time.GetSeconds (e.now - w.source.m_lastUpdateTime)) ∧
    (∀ m p, w.models = [m] → e.action = Action.NotifyTxStart 0 p → m.GetCurrentState ≠ TX)

/-- Every call of the list is in the scope of the conservation statement on the world it is
made on. -/
def World.runInScope : World → List Event → Prop
  | _, [] => True
  | w, e :: es => w.inScope e ∧ ∀ w1, w.step e = .ok w1 → World.runInScope w1 es

/-! ## Worlds used as examples -/

/-- The source of the test suite: 5.55 J, 3.7 V, thresholds 0.10 and 0.15, refresh every
second. -/
def testSource : LoraEnergySource :=
  LoraEnergySource.new (555 / 100) 1500 (37 / 10) (1 / 10) (15 / 100) 1000000000

/-- The radio of the test suite with the default currents and the interpolated consumption
model. -/
def testModel : LoraRadioEnergyModel :=
  LoraRadioEnergyModel.new (435 / 10000) (112 / 10000) (14 / 10000) (18 / 10000000)
    (some LoraConsumptionModel.Interpolated)

/-- A source of 10 J at 1 V with the default thresholds 0.10 and 0.15 and a refresh every
second. -/
def tenJouleSource : LoraEnergySource :=
  LoraEnergySource.new 10 1500 1 (1 / 10) (15 / 100) 1000000000

/-- A radio that draws 9 A in every mode and has no consumption model. -/
def nineAmpereModel : LoraRadioEnergyModel := LoraRadioEnergyModel.new 9 9 9 9 none

/-- The radio `nineAmpereModel` installed on `tenJouleSource`. -/
def drainWorld : World := World.install tenJouleSource [nineAmpereModel]

/-- The world `drainWorld` after a refresh at 2 s. -/
def drainWorldAt2 : World :=
  { sim := { nextUid := 1, pending := [(0, 3000000000)] }
    source := { tenJouleSource with m_remainingEnergyJ := -18, m_remainingChargemAh := -18000,
                                    m_depleted := true, m_lastUpdateTime := 2000000000,
                                    m_energyUpdateEvent := some 0 }
    models := [nineAmpereModel.HandleEnergyDepletion]
    emitted := [Notification.DEPLETED] }

/-- The world `drainWorldAt2` after a second refresh at 2 s. -/
def drainWorldAt2Again : World :=
  { sim := { nextUid := 2, pending := [(1, 3000000000)] }
    source := { drainWorldAt2.source with m_remainingEnergyJ := 0
                                          m_remainingChargemAh := 0
                                          m_energyUpdateEvent := some 1 }
    models := drainWorldAt2.models
    emitted := [Notification.DEPLETED, Notification.CHANGED] }

/-- The world `drainWorld` after a refresh at 1 s: 1 J is left and the source is depleted. -/
def drainWorldAt1 : World :=
  { sim := { nextUid := 1, pending := [(0, 2000000000)] }
    source := { tenJouleSource with m_remainingEnergyJ := 1, m_remainingChargemAh := 1000,
                                    m_depleted := true, m_lastUpdateTime := 1000000000,
                                    m_energyUpdateEvent := some 0 }
    models := [nineAmpereModel.HandleEnergyDepletion]
    emitted := [Notification.DEPLETED] }

/-- The source of `drainWorldAt1` after `SetInitialEnergy (10)`. -/
def refilledSource : LoraEnergySource :=
  { drainWorldAt1.source with m_initialEnergyJ := 10, m_remainingEnergyJ := 10 }

/-- The world `drainWorldAt1` with the refilled source, after a refresh at 1 s: the source
is recharged and every model has received `HandleEnergyRecharged`. -/
def rechargedWorld : World :=
  { sim := { nextUid := 2, pending := [(1, 2000000000)] }
    source := { refilledSource with m_remainingChargemAh := 10000, m_depleted := false,
                                    m_energyUpdateEvent := some 1 }
    models := [nineAmpereModel.HandleEnergyDepletion.HandleEnergyRecharged]
    emitted := [Notification.DEPLETED, Notification.RECHARGED] }

/-- The world `rechargedWorld` after `ChangeState (RX)` at 1.1 s. -/
def rechargedWorldAfterChangeState : World :=
  { sim := { nextUid := 3, pending := [(2, 2100000000)] }
    source := { rechargedWorld.source with m_remainingEnergyJ := 91 / 10
                                           m_remainingChargemAh := 9100
                                           m_lastUpdateTime := 1100000000
                                           m_energyUpdateEvent := some 2 }
    models := [{ nineAmpereModel with m_energyDepleted := true
                                      m_totalSleepTime := 1100000000
                                      m_sleepEnergyConsumption := 99 / 10
                                      m_totalEnergyConsumption := 99 / 10
                                      m_lastStampTime := 1100000000 }]
    emitted := [Notification.DEPLETED, Notification.RECHARGED, Notification.CHANGED] }

/-- The world `drainWorld` after `HandleEnergyDepletion` has been delivered to its radio. -/
def deliveredWorld : World :=
  { drainWorld with models := drainWorld.models.set 0 nineAmpereModel.HandleEnergyDepletion }

/-- The radio `testModel` installed on `testSource`: the set-up of the test suite. -/
def testWorld : World := World.install testSource [testModel]

/-- The first four calls of the test suite on the listener of the radio: `NotifyTxStart`
with 14 dBm at 0 s, `NotifyRxStart` at 1 s, `NotifyStandby` at 2.25 s and `NotifySleep` at
3.75 s. -/
def testCalls : List Event :=
  [{ now := 0, finished := false, action := Action.NotifyTxStart 0 14 },
   { now := 1000000000, finished := false, action := Action.NotifyRxStart 0 },
   { now := 2250000000, finished := false, action := Action.NotifyStandby 0 },
   { now := 3750000000, finished := false, action := Action.NotifySleep 0 }]

/-- The last call of the test suite on the listener: `NotifyStandby` at the stop time
5.5 s. -/
def closingCall : Event :=
  { now := 5500000000, finished := false, action := Action.NotifyStandby 0 }

/-- The test set-up after `NotifyTxStart (14.0)` at 0 s. -/
def testWorldAt0 : World :=
  { sim := { nextUid := 1, pending := [(0, 1000000000)] }
    source := { testSource with m_energyUpdateEvent := some 0 }
    models := [{ testModel with m_currentState := TX }]
    emitted := [] }

/-- The test set-up after the call at 1 s: one second of transmission is accounted. -/
def testWorldAt1 : World :=
  { sim := { nextUid := 2, pending := [(1, 2000000000)] }
    source := { testSource with m_remainingEnergyJ := 107781 / 20000
                                m_remainingChargemAh := 2913 / 2
                                m_lastUpdateTime := 1000000000
                                m_energyUpdateEvent := some 1 }
    models := [{ testModel with m_currentState := RX
                                m_lastStampTime := 1000000000
                                m_totalTxTime := 1000000000
                                m_txEnergyConsumption := 3219 / 20000
                                m_totalEnergyConsumption := 3219 / 20000 }]
    emitted := [Notification.CHANGED] }

/-- The test set-up after the call at 2.25 s: 1.25 s of reception are accounted. -/
def testWorldAt2 : World :=
  { sim := { nextUid := 3, pending := [(2, 3250000000)] }
    source := { testSource with m_remainingEnergyJ := 21349 / 4000
                                m_remainingChargemAh := 2885 / 2
                                m_lastUpdateTime := 2250000000
                                m_energyUpdateEvent := some 2 }
    models := [{ testModel with m_currentState := STANDBY
                                m_lastStampTime := 2250000000
                                m_totalTxTime := 1000000000
                                m_totalRxTime := 1250000000
                                m_txEnergyConsumption := 3219 / 20000
                                m_rxEnergyConsumption := 259 / 5000
                                m_totalEnergyConsumption := 851 / 4000 }]
    emitted := [Notification.CHANGED, Notification.CHANGED] }

/-- The radio of the test set-up after the call at 3.75 s: 1.5 s of standby are accounted
and the sleep interval that starts at 3.75 s is open. -/
def testModelAt3 : LoraRadioEnergyModel :=
  { testModel with m_currentState := SLEEP
                   m_lastStampTime := 3750000000
                   m_totalTxTime := 1000000000
                   m_totalRxTime := 1250000000
                   m_totalStandbyTime := 1500000000
                   m_txEnergyConsumption := 3219 / 20000
                   m_rxEnergyConsumption := 259 / 5000
                   m_standbyEnergyConsumption := 777 / 100000
                   m_totalEnergyConsumption := 5513 / 25000 }

/-- The test set-up after the call at 3.75 s. -/
def testWorldAt3 : World :=
  { sim := { nextUid := 4, pending := [(3, 4750000000)] }
    source := { testSource with m_remainingEnergyJ := 133237 / 25000
                                m_remainingChargemAh := 7202 / 5
                                m_lastUpdateTime := 3750000000
                                m_energyUpdateEvent := some 3 }
    models := [testModelAt3]
    emitted := [Notification.CHANGED, Notification.CHANGED, Notification.CHANGED] }

/-- The radio of the test set-up after the closing call at 5.5 s: 1.75 s of sleep are
accounted. -/
def testModelAtStop : LoraRadioEnergyModel :=
  { testModelAt3 with m_currentState := STANDBY
                      m_lastStampTime := 5500000000
                      m_totalSleepTime := 1750000000
                      m_sleepEnergyConsumption := 2331 / 200000000
                      m_totalEnergyConsumption := 44106331 / 200000000 }

/-- The test set-up after the closing call at 5.5 s. -/
def testWorldAtStop : World :=
  { sim := { nextUid := 5, pending := [(4, 6500000000)] }
    source := { testSource with m_remainingEnergyJ := 1065893669 / 200000000
                                m_remainingChargemAh := 28807937 / 20000
                                m_lastUpdateTime := 5500000000
                                m_energyUpdateEvent := some 4 }
    models := [testModelAtStop]
    emitted := [Notification.CHANGED, Notification.CHANGED, Notification.CHANGED,
                Notification.CHANGED] }

/-- The test set-up after `NotifyTxStart (-10.0)` at 0 s: the transmit current is the
value extrapolated from the first segment of the table. -/
def gainWorldAt0 : World :=
  { sim := { nextUid := 1, pending := [(0, 1000000000)] }
    source := { testSource with m_energyUpdateEvent := some 0 }
    models := [{ testModel with m_currentState := TX, m_txCurrentA := -31 / 3000 }]
    emitted := [] }

/-- The world `gainWorldAt0` after a refresh at 1 s. -/
def gainWorldAt1 : World :=
  { sim := { nextUid := 2, pending := [(1, 2000000000)] }
    source := { testSource with m_remainingEnergyJ := 167647 / 30000
                                m_remainingChargemAh := 4531 / 3
                                m_lastUpdateTime := 1000000000
                                m_energyUpdateEvent := some 1 }
    models := gainWorldAt0.models
    emitted := [Notification.CHANGED] }

/-- The test set-up in TX since 0 s, after the refresh at 1 s. -/
def overlapWorldAt1 : World :=
  { sim := { nextUid := 2, pending := [(1, 2000000000)] }
    source := { testSource with m_remainingEnergyJ := 107781 / 20000
                                m_remainingChargemAh := 2913 / 2
                                m_lastUpdateTime := 1000000000
                                m_energyUpdateEvent := some 1 }
    models := testWorldAt0.models
    emitted := [Notification.CHANGED] }

/-- The world `overlapWorldAt1` after `NotifyTxStart (20.0)` at 2 s: the two seconds in TX
are accounted at the current of 20 dBm. -/
def overlapWorldAt2 : World :=
  { sim := { nextUid := 3, pending := [(2, 3000000000)] }
    source := { testSource with m_remainingEnergyJ := 98531 / 20000
                                m_remainingChargemAh := 2663 / 2
                                m_lastUpdateTime := 2000000000
                                m_energyUpdateEvent := some 2 }
    models := [{ testModel with m_currentState := TX
                                m_txCurrentA := 1 / 8
                                m_lastStampTime := 2000000000
                                m_totalTxTime := 2000000000
                                m_txEnergyConsumption := 37 / 40
                                m_totalEnergyConsumption := 37 / 40 }]
    emitted := [Notification.CHANGED, Notification.CHANGED] }

/-! ## Lemmas on the consumption model -/

namespace InterpolatedLoraConsumptionModel

theorem rangeAssertion_true (p : ℚ) : rangeAssertion p = true := by
  simp only [rangeAssertion, power_dBm_lookup_table]
  simp
  by_cases h : p < 20
  · exact Or.inl h
  · right; linarith [not_lt.mp h]

theorem scanIndex_two (p : ℚ) (h : p ≤ 20) : scanIndex p 2 = .ok 2 := by
  rw [scanIndex]
  simp [power_dBm_lookup_table, not_lt.mpr h]

theorem scanIndex_two_gt (p : ℚ) (h : 20 < p) : scanIndex p 2 = .error .outOfBounds := by
  rw [scanIndex]
  simp only [power_dBm_lookup_table]
  simp [h]
  rw [scanIndex]
  simp [power_dBm_lookup_table]

theorem scanIndex_one (p : ℚ) (h : p ≤ 17) : scanIndex p 1 = .ok 1 := by
  rw [scanIndex]
  simp [power_dBm_lookup_table, not_lt.mpr h]

theorem scanIndex_one_gt (p : ℚ) (h : 17 < p) : scanIndex p 1 = scanIndex p 2 := by
  rw [scanIndex]
  simp [power_dBm_lookup_table, h]

theorem scanIndex_zero (p : ℚ) (h : p ≤ 13) : scanIndex p 0 = .ok 0 := by
  rw [scanIndex]
  simp [power_dBm_lookup_table, not_lt.mpr h]

theorem scanIndex_zero_gt (p : ℚ) (h : 13 < p) : scanIndex p 0 = scanIndex p 1 := by
  rw [scanIndex]
  simp [power_dBm_lookup_table, h]

theorem CalcTxCurrent_low (p : ℚ) (h : p ≤ 13) :
    CalcTxCurrent p = .ok ((18 + (28 - 18) / (13 - 7) * (p - 7)) / 1000) := by
  simp [CalcTxCurrent, rangeAssertion_true, scanIndex_zero p h, vectorAt,
    power_dBm_lookup_table, curruent_ma_lookup_table]

theorem CalcTxCurrent_mid (p : ℚ) (h : 13 < p) (h2 : p ≤ 17) :
    CalcTxCurrent p = .ok ((28 + (90 - 28) / (17 - 13) * (p - 13)) / 1000) := by
  simp [CalcTxCurrent, rangeAssertion_true, scanIndex_zero_gt p h, scanIndex_one p h2, vectorAt,
    power_dBm_lookup_table, curruent_ma_lookup_table]

theorem CalcTxCurrent_high (p : ℚ) (h : 17 < p) (h2 : p ≤ 20) :
    CalcTxCurrent p = .ok ((90 + (125 - 90) / (20 - 17) * (p - 17)) / 1000) := by
  have h13 : (13:ℚ) < p := by linarith
  simp [CalcTxCurrent, rangeAssertion_true, scanIndex_zero_gt p h13, scanIndex_one_gt p h,
    scanIndex_two p h2, vectorAt, power_dBm_lookup_table, curruent_ma_lookup_table]

theorem CalcTxCurrent_above (p : ℚ) (h : 20 < p) :
    CalcTxCurrent p = .error .outOfBounds := by
  have h13 : (13:ℚ) < p := by linarith
  have h17 : (17:ℚ) < p := by linarith
  simp [CalcTxCurrent, rangeAssertion_true, scanIndex_zero_gt p h13, scanIndex_one_gt p h17,
    scanIndex_two_gt p h]

end InterpolatedLoraConsumptionModel

/-! ## Lemmas on the refresh of the source -/

section RefreshLemmas

open World LoraRadioEnergyModel

theorem DoGetCurrentA_ok (m : LoraRadioEnergyModel) (h : isMode m.m_currentState) :
    ∃ c, m.DoGetCurrentA = .ok c := by
  unfold DoGetCurrentA
  rcases h with h | h | h | h <;> simp [h, TX, RX, STANDBY, SLEEP]

theorem CalculateTotalCurrent_ok (ms : List LoraRadioEnergyModel) :
    ∀ acc, (∀ m ∈ ms, isMode m.m_currentState) → ∃ t, CalculateTotalCurrent acc ms = .ok t := by
  induction ms with
  | nil => intro acc _; exact ⟨acc, rfl⟩
  | cons m ms ih =>
    intro acc h
    obtain ⟨c, hc⟩ := DoGetCurrentA_ok m (h m (List.mem_cons_self _ _))
    obtain ⟨t, ht⟩ := ih (acc + c) (fun x hx => h x (List.mem_cons_of_mem _ hx))
    exact ⟨t, by simp [CalculateTotalCurrent, hc, ht]⟩

@[simp] theorem Simulator.Cancel_nextUid (sim : Simulator) (ev : EventId) :
    (sim.Cancel ev).nextUid = sim.nextUid := by
  cases ev <;> rfl

@[simp] theorem map_HandleEnergyRecharged (ms : List LoraRadioEnergyModel) :
    ms.map HandleEnergyRecharged = ms := by
  show ms.map id = ms
  exact List.map_id ms

@[simp] theorem map_HandleEnergyChanged (ms : List LoraRadioEnergyModel) :
    ms.map HandleEnergyChanged = ms := by
  show ms.map id = ms
  exact List.map_id ms

/-- What a refresh that is not skipped does, case by case. -/
theorem UpdateEnergySource_cases (w w' : World) (now : Int)
    (h : w.UpdateEnergySource now false = .ok w') :
    ∃ tot s1, CalculateTotalCurrent 0 w.models = .ok tot ∧ w.source.m_lastUpdateTime ≤ now ∧
      s1 = w.source.deduct (w.source.energyToDecreaseJ tot (now - w.source.m_lastUpdateTime)) ∧
      w'.sim = ((w.sim.Cancel w.source.m_energyUpdateEvent).Schedule now
                  w.source.m_energyUpdateInterval).1 ∧
      ((w.source.m_depleted = false ∧
          s1.m_remainingEnergyJ ≤ w.source.m_lowBatteryTh * w.source.m_initialEnergyJ ∧
          w'.source = { s1 with m_lastUpdateTime := now, m_depleted := true,
                                m_energyUpdateEvent := some w.sim.nextUid } ∧
          w'.models = w.models.map HandleEnergyDepletion ∧
          w'.emitted = w.emitted ++ [Notification.DEPLETED])
       ∨ (¬ (w.source.m_depleted = false ∧
            s1.m_remainingEnergyJ ≤ w.source.m_lowBatteryTh * w.source.m_initialEnergyJ) ∧
          w.source.m_depleted = true ∧
          s1.m_remainingEnergyJ > w.source.m_highBatteryTh * w.source.m_initialEnergyJ ∧
          w'.source = { s1 with m_lastUpdateTime := now, m_depleted := false,
                                m_energyUpdateEvent := some w.sim.nextUid } ∧
          w'.models = w.models ∧
          w'.emitted = w.emitted ++ [Notification.RECHARGED])
       ∨ (¬ (w.source.m_depleted = false ∧
            s1.m_remainingEnergyJ ≤ w.source.m_lowBatteryTh * w.source.m_initialEnergyJ) ∧
          ¬ (w.source.m_depleted = true ∧
            s1.m_remainingEnergyJ > w.source.m_highBatteryTh * w.source.m_initialEnergyJ) ∧
          s1.m_remainingEnergyJ ≠ w.source.m_remainingEnergyJ ∧
          w'.source = { s1 with m_lastUpdateTime := now,
                                m_energyUpdateEvent := some w.sim.nextUid } ∧
          w'.models = w.models ∧
          w'.emitted = w.emitted ++ [Notification.CHANGED])
       ∨ (¬ (w.source.m_depleted = false ∧
            s1.m_remainingEnergyJ ≤ w.source.m_lowBatteryTh * w.source.m_initialEnergyJ) ∧
          ¬ (w.source.m_depleted = true ∧
            s1.m_remainingEnergyJ > w.source.m_highBatteryTh * w.source.m_initialEnergyJ) ∧
          s1.m_remainingEnergyJ = w.source.m_remainingEnergyJ ∧
          w'.source = { s1 with m_lastUpdateTime := now,
                                m_energyUpdateEvent := some w.sim.nextUid } ∧
          w'.models = w.models ∧
          w'.emitted = w.emitted)) := by
  unfold UpdateEnergySource at h
  simp only [Bool.false_eq_true, if_false] at h
  unfold CalculateRemaining at h
  simp only at h
  cases htot : CalculateTotalCurrent 0 w.models with
  | error e => rw [htot] at h; simp at h
  | ok tot =>
    rw [htot] at h
    simp only [Time.IsPositive] at h
    by_cases hnow : w.source.m_lastUpdateTime ≤ now
    · have hd : (0:Int) ≤ now - w.source.m_lastUpdateTime := by omega
      simp only [hd, decide_True, Bool.true_eq_false, if_false] at h
      refine ⟨tot, _, rfl, hnow, rfl, ?_⟩
      split_ifs at h with c1 c2 c3
      · injection h with h; subst h
        refine ⟨rfl, Or.inl ⟨c1.1, c1.2, ?_, rfl, rfl⟩⟩
        simp [HandleEnergyDrainedEvent, NotifyEnergyDrained, Simulator.Schedule]
      · injection h with h; subst h
        refine ⟨rfl, Or.inr (Or.inl ⟨c1, c2.1, c2.2, ?_, ?_, rfl⟩)⟩
        · simp [HandleEnergyRechargedEvent, NotifyEnergyRecharged, Simulator.Schedule]
        · simp [HandleEnergyRechargedEvent, NotifyEnergyRecharged]
      · injection h with h; subst h
        refine ⟨rfl, Or.inr (Or.inr (Or.inl ⟨c1, c2, c3, ?_, ?_, rfl⟩))⟩
        · simp [NotifyEnergyChanged, Simulator.Schedule]
        · simp [NotifyEnergyChanged]
      · injection h with h; subst h
        refine ⟨rfl, Or.inr (Or.inr (Or.inr ⟨c1, c2, not_not.mp c3, ?_, rfl, rfl⟩))⟩
        simp [Simulator.Schedule]
    · have hd : ¬ (0:Int) ≤ now - w.source.m_lastUpdateTime := by omega
      simp [hd] at h

end RefreshLemmas

/-! ## Lemmas on `ChangeState` -/

namespace LoraRadioEnergyModel

theorem closeInterval_fatal (m : LoraRadioEnergyModel) (d : Int) (v : ℚ)
    (h : ¬ isMode m.m_currentState) : m.closeInterval d v = .error .fatalError := by
  unfold isMode at h
  push_neg at h
  simp [closeInterval, h.1, h.2.1, h.2.2.1, h.2.2.2]

theorem closeInterval_accounted (m m1 : LoraRadioEnergyModel) (now : Int) (v e : ℚ)
    (h : m.closeInterval (now - m.m_lastStampTime) v = .ok (m1, e)) :
    ∃ c, e = Time.GetSeconds (now - m.m_lastStampTime) * c * v ∧ isMode m.m_currentState ∧
      Accounted m
        { m1 with m_totalEnergyConsumption := m1.m_totalEnergyConsumption + e
                  m_lastStampTime := now } now v c := by
  by_cases hm : isMode m.m_currentState
  · rcases hm with hs | hs | hs | hs
    all_goals
      simp only [closeInterval, hs, TX, RX, STANDBY, SLEEP] at h
      simp at h
      obtain ⟨h1, h2⟩ := h
      subst h1; subst h2
    · refine ⟨m.m_txCurrentA, rfl, Or.inl hs, ?_⟩
      constructor <;> simp [DoGetCurrentA, hs, timeIn, energyIn, sumTimes, sumEnergies,
        GetTotalTxTime, GetTotalRxTime, GetTotalStandbyTime, GetTotalSleepTime,
        GetTxEnergyConsumption, GetRxEnergyConsumption, GetStandbyEnergyConsumption,
        GetSleepEnergyConsumption, TX, RX, STANDBY, SLEEP] <;>
        first
          | (intro s; split_ifs <;> first | omega | linarith)
          | ring
    · refine ⟨m.m_rxCurrentA, rfl, Or.inr (Or.inl hs), ?_⟩
      constructor <;> simp [DoGetCurrentA, hs, timeIn, energyIn, sumTimes, sumEnergies,
        GetTotalTxTime, GetTotalRxTime, GetTotalStandbyTime, GetTotalSleepTime,
        GetTxEnergyConsumption, GetRxEnergyConsumption, GetStandbyEnergyConsumption,
        GetSleepEnergyConsumption, TX, RX, STANDBY, SLEEP] <;>
        first
          | (intro s; split_ifs <;> first | omega | linarith)
          | ring
    · refine ⟨m.m_standbyCurrentA, rfl, Or.inr (Or.inr (Or.inl hs)), ?_⟩
      constructor <;> simp [DoGetCurrentA, hs, timeIn, energyIn, sumTimes, sumEnergies,
        GetTotalTxTime, GetTotalRxTime, GetTotalStandbyTime, GetTotalSleepTime,
        GetTxEnergyConsumption, GetRxEnergyConsumption, GetStandbyEnergyConsumption,
        GetSleepEnergyConsumption, TX, RX, STANDBY, SLEEP] <;>
        first
          | (intro s; split_ifs <;> first | omega | linarith)
          | ring
    · refine ⟨m.m_sleepCurrentA, rfl, Or.inr (Or.inr (Or.inr hs)), ?_⟩
      constructor <;> simp [DoGetCurrentA, hs, timeIn, energyIn, sumTimes, sumEnergies,
        GetTotalTxTime, GetTotalRxTime, GetTotalStandbyTime, GetTotalSleepTime,
        GetTxEnergyConsumption, GetRxEnergyConsumption, GetStandbyEnergyConsumption,
        GetSleepEnergyConsumption, TX, RX, STANDBY, SLEEP] <;>
        first
          | (intro s; split_ifs <;> first | omega | linarith)
          | ring
  · rw [closeInterval_fatal m _ v hm] at h
    cases h

end LoraRadioEnergyModel

section ChangeStateLemmas

open World LoraRadioEnergyModel

theorem UpdateEnergySource_finished (w : World) (now : Int) :
    w.UpdateEnergySource now true = .ok w := by
  simp [UpdateEnergySource]

theorem UpdateEnergySource_ok (w : World) (now : Int) (finished : Bool)
    (hvalid : ∀ m ∈ w.models, isMode m.m_currentState)
    (hnow : finished = true ∨ w.source.m_lastUpdateTime ≤ now) :
    ∃ w', w.UpdateEnergySource now finished = .ok w' := by
  cases finished with
  | true => exact ⟨w, UpdateEnergySource_finished w now⟩
  | false =>
    obtain ⟨t, ht⟩ := CalculateTotalCurrent_ok w.models 0 hvalid
    have hn : w.source.m_lastUpdateTime ≤ now := by simpa using hnow
    have hd : (0:Int) ≤ now - w.source.m_lastUpdateTime := by omega
    simp [UpdateEnergySource, CalculateRemaining, ht, Time.IsPositive, hd]

/-- The models after a refresh: all of them have received `HandleEnergyDepletion` when the
refresh emitted DEPLETED, and they are untouched otherwise. -/
theorem UpdateEnergySource_models (w w' : World) (now : Int) (finished : Bool)
    (h : w.UpdateEnergySource now finished = .ok w') :
    (w'.models = w.models.map HandleEnergyDepletion ∧
        w'.emitted = w.emitted ++ [Notification.DEPLETED] ∧ finished = false ∧
        w.source.m_depleted = false ∧ w'.source.m_depleted = true)
      ∨ (w'.models = w.models ∧ w'.emitted ≠ w.emitted ++ [Notification.DEPLETED]) := by
  cases finished with
  | true =>
    rw [UpdateEnergySource_finished] at h
    injection h with h; subst h
    right; simp
  | false =>
    obtain ⟨tot, s1, -, -, -, -, hc⟩ := UpdateEnergySource_cases w w' now h
    rcases hc with ⟨hd, -, hs, hm, he⟩ | ⟨-, -, -, -, hm, he⟩ | ⟨-, -, -, -, hm, he⟩ |
      ⟨-, -, -, -, hm, he⟩
    · left; exact ⟨hm, he, rfl, hd, by rw [hs]⟩
    · right; exact ⟨hm, by rw [he]; simp⟩
    · right; exact ⟨hm, by rw [he]; simp⟩
    · right; exact ⟨hm, by rw [he]; simp⟩

theorem ChangeState_cases (w w' : World) (i : Nat) (newState now : Int) (finished : Bool)
    (h : w.ChangeState i newState now finished = .ok w') :
    ∃ m m2 c w1, w.models[i]? = some m ∧ m.m_lastStampTime ≤ now ∧ isMode m.m_currentState ∧
      Accounted m m2 now w.source.m_supplyVoltageV c ∧
      UpdateEnergySource { w with models := w.models.set i m2 } now finished = .ok w1 ∧
      w'.source = w1.source ∧ w'.sim = w1.sim ∧ w'.emitted = w1.emitted ∧
      ((w'.models = (w.models.set i m2).map HandleEnergyDepletion ∧
          w'.emitted = w.emitted ++ [Notification.DEPLETED])
        ∨ (w'.models = w.models.set i m2 ∧ m.m_energyDepleted = true ∧
            w'.emitted ≠ w.emitted ++ [Notification.DEPLETED])
        ∨ (w'.models = w.models.set i (m2.SetLoraPhyState newState) ∧
            m.m_energyDepleted = false ∧
            w'.emitted ≠ w.emitted ++ [Notification.DEPLETED])) := by
  unfold ChangeState at h
  cases hm : w.models[i]? with
  | none => rw [hm] at h; cases h
  | some m =>
    rw [hm] at h
    simp only [Time.IsPositive] at h
    have hi : i < w.models.length := by
      by_contra hcon
      rw [List.getElem?_eq_none (by omega)] at hm
      cases hm
    by_cases hnow : m.m_lastStampTime ≤ now
    · have hd : (0:Int) ≤ now - m.m_lastStampTime := by omega
      simp only [hd, decide_True, Bool.true_eq_false, if_false] at h
      cases hci : m.closeInterval (now - m.m_lastStampTime) w.source.GetSupplyVoltage with
      | error e => rw [hci] at h; cases h
      | ok r =>
        obtain ⟨m1, e⟩ := r
        rw [hci] at h
        simp only at h
        obtain ⟨c, he, hmode, hacc⟩ := closeInterval_accounted m m1 now _ e hci
        generalize hm2 : ({ m1 with m_totalEnergyConsumption := m1.m_totalEnergyConsumption + e
                                    m_lastStampTime := now } : LoraRadioEnergyModel) = m2
          at h hacc
        cases hu : UpdateEnergySource { w with models := w.models.set i m2 } now finished with
        | error x => rw [hu] at h; cases h
        | ok w1 =>
          rw [hu] at h
          simp only at h
          refine ⟨m, m2, c, w1, rfl, hnow, hmode, hacc, hu, ?_⟩
          have hdep := hacc.depleted
          rcases UpdateEnergySource_models _ _ _ _ hu with ⟨hm1, he1, -, -, -⟩ | ⟨hm1, he1⟩
          · simp only at hm1 he1
            have h3 : w1.models[i]? = some (HandleEnergyDepletion m2) := by
              rw [hm1]; simp [hi]
            rw [h3] at h
            simp [HandleEnergyDepletion] at h
            subst h
            exact ⟨rfl, rfl, rfl, Or.inl ⟨hm1, he1⟩⟩
          · simp only at hm1 he1
            have h3 : w1.models[i]? = some m2 := by
              rw [hm1]; simp [hi]
            rw [h3] at h
            simp only at h
            cases hdm : m.m_energyDepleted with
            | true =>
              rw [hdm] at hdep
              simp [hdep] at h
              subst h
              exact ⟨rfl, rfl, rfl, Or.inr (Or.inl ⟨hm1, rfl, he1⟩)⟩
            | false =>
              rw [hdm] at hdep
              simp [hdep] at h
              subst h
              refine ⟨rfl, rfl, rfl, Or.inr (Or.inr ⟨?_, rfl, he1⟩)⟩
              simp [hm1]
    · have hd : ¬ (0:Int) ≤ now - m.m_lastStampTime := by omega
      simp [hd] at h

end ChangeStateLemmas

/-! ## Lemmas on runs -/

section RunLemmas

open World LoraRadioEnergyModel

theorem closeInterval_ok (m : LoraRadioEnergyModel) (d : Int) (v : ℚ)
    (h : isMode m.m_currentState) : ∃ r, m.closeInterval d v = .ok r := by
  rcases h with hs | hs | hs | hs <;> simp [closeInterval, hs, TX, RX, STANDBY, SLEEP]

theorem mem_of_getElem? {α : Type} (l : List α) (i : Nat) (a : α) (h : l[i]? = some a) :
    a ∈ l := by
  rw [List.getElem?_eq_some] at h
  obtain ⟨hi, rfl⟩ := h
  exact List.getElem_mem _

theorem ChangeState_ok (w : World) (i : Nat) (newState now : Int) (finished : Bool)
    (m : LoraRadioEnergyModel) (hm : w.models[i]? = some m) (hnow : m.m_lastStampTime ≤ now)
    (hvalid : ∀ x ∈ w.models, isMode x.m_currentState)
    (hsrc : finished = true ∨ w.source.m_lastUpdateTime ≤ now) :
    ∃ w', w.ChangeState i newState now finished = .ok w' := by
  have hmode := hvalid m (mem_of_getElem? _ _ _ hm)
  obtain ⟨⟨m1, e⟩, hci⟩ := closeInterval_ok m (now - m.m_lastStampTime)
    w.source.GetSupplyVoltage hmode
  obtain ⟨c, -, -, hacc⟩ := closeInterval_accounted m m1 now _ e hci
  generalize hm2 : ({ m1 with m_totalEnergyConsumption := m1.m_totalEnergyConsumption + e
                              m_lastStampTime := now } : LoraRadioEnergyModel) = m2 at hacc
  have hi : i < w.models.length := by
    by_contra hcon
    rw [List.getElem?_eq_none (by omega)] at hm
    cases hm
  have hvalid2 : ∀ x ∈ w.models.set i m2, isMode x.m_currentState := by
    intro x hx
    rcases List.mem_or_eq_of_mem_set hx with hx | hx
    · exact hvalid x hx
    · rw [hx, hacc.state]; exact hmode
  obtain ⟨w1, hu⟩ := UpdateEnergySource_ok { w with models := w.models.set i m2 } now finished
    hvalid2 hsrc
  have hd : (0:Int) ≤ now - m.m_lastStampTime := by omega
  have hlen : i < w1.models.length := by
    rcases UpdateEnergySource_models _ _ _ _ hu with ⟨h1, -⟩ | ⟨h1, -⟩ <;> rw [h1] <;> simp [hi]
  obtain ⟨m3, hm3⟩ : ∃ m3, w1.models[i]? = some m3 := ⟨_, List.getElem?_eq_getElem hlen⟩
  unfold ChangeState
  rw [hm]
  simp only [Time.IsPositive, hd, decide_True, Bool.true_eq_false, if_false, hci, hm2, hu, hm3]
  split_ifs <;> exact ⟨_, rfl⟩

/-- A property of the models that the accounting of `ChangeState`, the depletion handler
and the switch to the new state carry from `P` to `Q` holds of all models after
`ChangeState`. -/
theorem ChangeState_forall (P Q : LoraRadioEnergyModel → Prop) (w w' : World) (i : Nat)
    (newState now : Int) (finished : Bool)
    (h : w.ChangeState i newState now finished = .ok w')
    (hPQ : ∀ m, P m → Q m)
    (hAcc : ∀ m m2 c, P m → Accounted m m2 now w.source.m_supplyVoltageV c → Q m2)
    (hDep : ∀ m, Q m → Q (HandleEnergyDepletion m))
    (hSet : ∀ m, Q m → Q (m.SetLoraPhyState newState))
    (hP : ∀ m ∈ w.models, P m) : ∀ m ∈ w'.models, Q m := by
  obtain ⟨m, m2, c, w1, hm, -, -, hacc, -, -, -, -, hc⟩ := ChangeState_cases w w' i newState now
    finished h
  have hQ2 : Q m2 := hAcc m m2 c (hP m (mem_of_getElem? _ _ _ hm)) hacc
  intro x hx
  rcases hc with ⟨hm', -⟩ | ⟨hm', -, -⟩ | ⟨hm', -, -⟩
  · rw [hm', List.mem_map] at hx
    obtain ⟨y, hy, rfl⟩ := hx
    apply hDep
    rcases List.mem_or_eq_of_mem_set hy with hy | hy
    · exact hPQ y (hP y hy)
    · rw [hy]; exact hQ2
  · rw [hm'] at hx
    rcases List.mem_or_eq_of_mem_set hx with hx | hx
    · exact hPQ x (hP x hx)
    · rw [hx]; exact hQ2
  · rw [hm'] at hx
    rcases List.mem_or_eq_of_mem_set hx with hx | hx
    · exact hPQ x (hP x hx)
    · rw [hx]; exact hSet m2 hQ2

theorem ChangeState_length (w w' : World) (i : Nat) (newState now : Int) (finished : Bool)
    (h : w.ChangeState i newState now finished = .ok w') :
    w'.models.length = w.models.length := by
  obtain ⟨m, m2, c, w1, -, -, -, -, -, -, -, -, hc⟩ := ChangeState_cases w w' i newState now
    finished h
  rcases hc with ⟨hm', -⟩ | ⟨hm', -, -⟩ | ⟨hm', -, -⟩ <;> rw [hm'] <;> simp

/-- After `ChangeState` the time stamp of the model is the time of the call. -/
theorem ChangeState_stamp (w w' : World) (i : Nat) (newState now : Int) (finished : Bool)
    (h : w.ChangeState i newState now finished = .ok w') :
    ∃ m', w'.models[i]? = some m' ∧ m'.m_lastStampTime = now := by
  obtain ⟨m, m2, c, w1, hm, -, -, hacc, -, -, -, -, hc⟩ := ChangeState_cases w w' i newState now
    finished h
  have hi : i < w.models.length := by
    by_contra hcon
    rw [List.getElem?_eq_none (by omega)] at hm
    cases hm
  rcases hc with ⟨hm', -⟩ | ⟨hm', -, -⟩ | ⟨hm', -, -⟩
  · exact ⟨HandleEnergyDepletion m2, by rw [hm']; simp [hi], hacc.stamp⟩
  · exact ⟨m2, by rw [hm']; simp [hi], hacc.stamp⟩
  · exact ⟨m2.SetLoraPhyState newState, by rw [hm']; simp [hi], hacc.stamp⟩

theorem ChangeState_lastUpdate (w w' : World) (i : Nat) (newState now T : Int)
    (finished : Bool) (h : w.ChangeState i newState now finished = .ok w')
    (hT : w.source.m_lastUpdateTime ≤ T) (hnow : T ≤ now) :
    w'.source.m_lastUpdateTime ≤ now := by
  obtain ⟨m, m2, c, w1, -, -, -, -, hu, hs, -, -, -⟩ := ChangeState_cases w w' i newState now
    finished h
  rw [hs]
  cases finished with
  | true =>
    rw [UpdateEnergySource_finished] at hu
    injection hu with hu
    rw [← hu]; simp; omega
  | false =>
    obtain ⟨tot, s1, -, -, -, -, hc⟩ := UpdateEnergySource_cases _ w1 now hu
    rcases hc with ⟨-, -, hs1, -, -⟩ | ⟨-, -, -, hs1, -, -⟩ | ⟨-, -, -, hs1, -, -⟩ |
      ⟨-, -, -, hs1, -, -⟩ <;> rw [hs1]

theorem Balanced_accounted (m m2 : LoraRadioEnergyModel) (now : Int) (v c : ℚ)
    (hb : m.Balanced) (h : Accounted m m2 now v c) : m2.Balanced := by
  constructor
  · rw [h.sumTimes, hb.1, h.stamp]; omega
  · rw [h.sumEnergies, hb.2, h.total]

theorem UpdateEnergySource_forall (Q : LoraRadioEnergyModel → Prop) (w w' : World)
    (now : Int) (finished : Bool) (h : w.UpdateEnergySource now finished = .ok w')
    (hDep : ∀ m, Q m → Q (HandleEnergyDepletion m))
    (hQ : ∀ m ∈ w.models, Q m) : ∀ m ∈ w'.models, Q m := by
  intro x hx
  rcases UpdateEnergySource_models w w' now finished h with ⟨hm, -⟩ | ⟨hm, -⟩
  · rw [hm, List.mem_map] at hx
    obtain ⟨y, hy, rfl⟩ := hx
    exact hDep y (hQ y hy)
  · rw [hm] at hx; exact hQ x hx

theorem LoraRadioEnergyModel.CalcTxCurrentFromModel_eq (m m1 : LoraRadioEnergyModel) (p : ℚ)
    (h : m.CalcTxCurrentFromModel p = .ok m1) :
    ∃ cm c, m.m_consumptionModel = some cm ∧ cm.CalcTxCurrent p = .ok c ∧
      m1 = { m with m_txCurrentA := c } := by
  unfold LoraRadioEnergyModel.CalcTxCurrentFromModel at h
  split at h
  · cases h
  · rename_i cm hcm
    split at h
    · cases h
    · rename_i c hc
      injection h with h
      exact ⟨cm, c, hcm, hc, h.symm⟩

theorem CalcTxCurrentFromModel_cases (w w' : World) (i : Nat) (p : ℚ)
    (h : w.CalcTxCurrentFromModel i p = .ok w') :
    ∃ m cm c, w.models[i]? = some m ∧ m.m_consumptionModel = some cm ∧
      cm.CalcTxCurrent p = .ok c ∧
      w' = { w with models := w.models.set i { m with m_txCurrentA := c } } := by
  unfold World.CalcTxCurrentFromModel at h
  cases hm : w.models[i]? with
  | none => rw [hm] at h; cases h
  | some m =>
    rw [hm] at h
    simp only at h
    cases hc : m.CalcTxCurrentFromModel p with
    | error e => rw [hc] at h; cases h
    | ok m1 =>
      rw [hc] at h
      injection h with h
      obtain ⟨cm, c, h1, h2, h3⟩ := LoraRadioEnergyModel.CalcTxCurrentFromModel_eq m m1 p hc
      subst h3
      exact ⟨m, cm, c, rfl, h1, h2, h.symm⟩

theorem CalcTxCurrentFromModel_forall (Q : LoraRadioEnergyModel → Prop) (w w' : World)
    (i : Nat) (p : ℚ) (h : w.CalcTxCurrentFromModel i p = .ok w')
    (hTx : ∀ (m : LoraRadioEnergyModel) c, Q m → Q { m with m_txCurrentA := c })
    (hQ : ∀ m ∈ w.models, Q m) : ∀ m ∈ w'.models, Q m := by
  obtain ⟨m, cm, c, hm, -, -, hw⟩ := CalcTxCurrentFromModel_cases w w' i p h
  subst hw
  intro x hx
  rcases List.mem_or_eq_of_mem_set hx with hx | hx
  · exact hQ x hx
  · rw [hx]; exact hTx m c (hQ m (mem_of_getElem? _ _ _ hm))

theorem Balanced_depletion (m : LoraRadioEnergyModel) (h : m.Balanced) :
    (HandleEnergyDepletion m).Balanced := h

theorem Balanced_setState (s : Int) (m : LoraRadioEnergyModel) (h : m.Balanced) :
    (m.SetLoraPhyState s).Balanced := h

theorem Balanced_txCurrent (m : LoraRadioEnergyModel) (c : ℚ) (h : m.Balanced) :
    ({ m with m_txCurrentA := c } : LoraRadioEnergyModel).Balanced := h

theorem ChangeState_balanced (w w' : World) (i : Nat) (newState now : Int) (finished : Bool)
    (h : w.ChangeState i newState now finished = .ok w')
    (hb : ∀ m ∈ w.models, m.Balanced) : ∀ m ∈ w'.models, m.Balanced :=
  ChangeState_forall Balanced Balanced w w' i newState now finished h (fun _ hm => hm)
    (fun m m2 c hm hacc => Balanced_accounted m m2 now _ c hm hacc)
    Balanced_depletion (Balanced_setState newState) hb

/-- Every call keeps the two conservation equations of every model. -/
theorem step_balanced (w w' : World) (e : Event) (h : w.step e = .ok w')
    (hb : ∀ m ∈ w.models, m.Balanced) : ∀ m ∈ w'.models, m.Balanced := by
  unfold step at h
  cases ha : e.action with
  | UpdateEnergySource =>
    rw [ha] at h
    exact UpdateEnergySource_forall Balanced w w' _ _ h Balanced_depletion hb
  | GetRemainingEnergy =>
    rw [ha] at h
    simp only [GetRemainingEnergy] at h
    cases hu : w.UpdateEnergySource e.now e.finished with
    | error x => rw [hu] at h; cases h
    | ok w1 =>
      rw [hu] at h
      injection h with h
      subst h
      exact UpdateEnergySource_forall Balanced w w1 _ _ hu Balanced_depletion hb
  | ChangeState i newState =>
    rw [ha] at h
    exact ChangeState_balanced w w' i newState _ _ h hb
  | CalcTxCurrentFromModel i p =>
    rw [ha] at h
    exact CalcTxCurrentFromModel_forall Balanced w w' i p h Balanced_txCurrent hb
  | NotifyTxStart i p =>
    rw [ha] at h
    simp only [NotifyTxStart] at h
    cases hc : w.CalcTxCurrentFromModel i p with
    | error x => rw [hc] at h; cases h
    | ok w1 =>
      rw [hc] at h
      exact ChangeState_balanced w1 w' i _ _ _ h
        (CalcTxCurrentFromModel_forall Balanced w w1 i p hc Balanced_txCurrent hb)
  | NotifyRxStart i =>
    rw [ha] at h
    exact ChangeState_balanced w w' i _ _ _ h hb
  | NotifySleep i =>
    rw [ha] at h
    exact ChangeState_balanced w w' i _ _ _ h hb
  | NotifyStandby i =>
    rw [ha] at h
    exact ChangeState_balanced w w' i _ _ _ h hb

theorem run_balanced (es : List Event) : ∀ (w w' : World), w.run es = .ok w' →
    (∀ m ∈ w.models, m.Balanced) → ∀ m ∈ w'.models, m.Balanced := by
  induction es with
  | nil =>
    intro w w' h hb
    simp only [run] at h
    injection h with h
    subst h
    exact hb
  | cons e es ih =>
    intro w w' h hb
    simp only [run] at h
    cases hs : w.step e with
    | error x => rw [hs] at h; cases h
    | ok w1 =>
      rw [hs] at h
      exact ih w1 w' h (step_balanced w w1 e hs hb)

theorem Balanced_new (tx rx sb sl : ℚ) (cm : Option LoraConsumptionModel) :
    (LoraRadioEnergyModel.new tx rx sb sl cm).Balanced := by
  constructor <;> simp [LoraRadioEnergyModel.new, sumTimes, sumEnergies, GetTotalTxTime,
    GetTotalRxTime, GetTotalStandbyTime, GetTotalSleepTime, GetTxEnergyConsumption,
    GetRxEnergyConsumption, GetStandbyEnergyConsumption, GetSleepEnergyConsumption]

/-- A run of `ChangeState` calls at non-decreasing times returns, and the model of the last
call carries the time of that call as its time stamp. -/
theorem run_changeState_calls (n : Nat) : ∀ (calls : List Event) (w : World) (T : Int),
    w.models.length = n →
    (∀ m ∈ w.models, isMode m.m_currentState ∧ m.m_lastStampTime ≤ T) →
    w.source.m_lastUpdateTime ≤ T →
    List.Chain (fun a b => a ≤ b) T (calls.map (fun e => e.now)) →
    (∀ e ∈ calls, e.isChangeStateCall n) →
    ∃ w', w.run calls = .ok w' ∧
      ∀ e, calls.getLast? = some e → ∀ i newState, e.action = Action.ChangeState i newState →
        ∃ m, w'.models[i]? = some m ∧ m.m_lastStampTime = e.now := by
  intro calls
  induction calls with
  | nil =>
    intro w T _ _ _ _ _
    exact ⟨w, rfl, by simp⟩
  | cons e es ih =>
    intro w T hlen hvalid hsrc hchain hcalls
    simp only [List.map_cons, List.chain_cons] at hchain
    obtain ⟨hTe, hchain⟩ := hchain
    obtain ⟨i, ns, ha, hi, hns⟩ := hcalls e (List.mem_cons_self _ _)
    obtain ⟨m, hm⟩ : ∃ m, w.models[i]? = some m :=
      ⟨_, List.getElem?_eq_getElem (by omega)⟩
    have hmT := (hvalid m (mem_of_getElem? _ _ _ hm)).2
    obtain ⟨w1, h1⟩ := ChangeState_ok w i ns e.now e.finished m hm (by omega)
      (fun x hx => (hvalid x hx).1) (Or.inr (by omega))
    have hstep : w.step e = .ok w1 := by
      unfold step; rw [ha]; exact h1
    have hvalid1 : ∀ x ∈ w1.models, isMode x.m_currentState ∧ x.m_lastStampTime ≤ e.now :=
      ChangeState_forall (fun x => isMode x.m_currentState ∧ x.m_lastStampTime ≤ T)
        (fun x => isMode x.m_currentState ∧ x.m_lastStampTime ≤ e.now) w w1 i ns e.now
        e.finished h1 (fun x hx => ⟨hx.1, by omega⟩)
        (fun x x2 c hx hacc => ⟨by rw [hacc.state]; exact hx.1, by rw [hacc.stamp]⟩)
        (fun x hx => hx) (fun x hx => ⟨hns, hx.2⟩) hvalid
    have hlen1 : w1.models.length = n := by
      rw [ChangeState_length w w1 i ns e.now e.finished h1]; exact hlen
    have hsrc1 := ChangeState_lastUpdate w w1 i ns e.now T e.finished h1 hsrc hTe
    obtain ⟨w', hrun, hlast⟩ := ih w1 e.now hlen1 hvalid1 hsrc1 hchain
      (fun x hx => hcalls x (List.mem_cons_of_mem _ hx))
    refine ⟨w', by simp only [run, hstep]; exact hrun, ?_⟩
    intro e' he' i' ns' ha'
    cases es with
    | nil =>
      simp only [List.getLast?_singleton, Option.some.injEq] at he'
      subst he'
      simp only [run] at hrun
      injection hrun with hrun
      subst hrun
      rw [ha] at ha'
      injection ha' with hi' _
      subst hi'
      exact ChangeState_stamp w w1 i ns e.now e.finished h1
    | cons e2 es2 =>
      rw [List.getLast?_cons_cons] at he'
      exact hlast e' he' i' ns' ha'

end RunLemmas

/-! ## Lemmas on the notifications of a run -/

section TraceLemmas

open World LoraRadioEnergyModel

theorem follows_append (t1 : List Notification) : ∀ (d d1 d2 : Bool) (t2 : List Notification),
    Notification.follows d t1 d1 → Notification.follows d1 t2 d2 →
    Notification.follows d (t1 ++ t2) d2 := by
  induction t1 with
  | nil =>
    intro d d1 d2 t2 h1 h2
    simp only [Notification.follows] at h1
    subst h1
    simpa using h2
  | cons x t ih =>
    intro d d1 d2 t2 h1 h2
    cases x with
    | DEPLETED =>
      simp only [Notification.follows, List.cons_append] at h1 ⊢
      exact ⟨h1.1, ih _ _ _ _ h1.2 h2⟩
    | RECHARGED =>
      simp only [Notification.follows, List.cons_append] at h1 ⊢
      exact ⟨h1.1, ih _ _ _ _ h1.2 h2⟩
    | CHANGED =>
      simp only [Notification.follows, List.cons_append] at h1 ⊢
      exact ih _ _ _ _ h1 h2

/-- With the flag set, a DEPLETED notification comes only after a RECHARGED one. -/
theorem follows_depleted_after_recharged (tr : List Notification) :
    ∀ (d' : Bool) (j : Nat), Notification.follows true tr d' →
      tr[j]? = some Notification.DEPLETED →
      ∃ k, k < j ∧ tr[k]? = some Notification.RECHARGED := by
  induction tr with
  | nil => intro d' j _ hj; simp at hj
  | cons x t ih =>
    intro d' j h hj
    cases x with
    | DEPLETED => simp [Notification.follows] at h
    | RECHARGED =>
      cases j with
      | zero => simp at hj
      | succ j => exact ⟨0, by omega, by simp⟩
    | CHANGED =>
      cases j with
      | zero => simp at hj
      | succ j =>
        simp only [Notification.follows] at h
        simp only [List.getElem?_cons_succ] at hj
        obtain ⟨k, hk, hr⟩ := ih d' j h hj
        exact ⟨k + 1, by omega, by simpa using hr⟩

/-- Between two DEPLETED notifications there is a RECHARGED one. -/
theorem follows_recharged_between (tr : List Notification) :
    ∀ (d d' : Bool) (i j : Nat), Notification.follows d tr d' → i < j →
      tr[i]? = some Notification.DEPLETED → tr[j]? = some Notification.DEPLETED →
      ∃ k, i < k ∧ k < j ∧ tr[k]? = some Notification.RECHARGED := by
  induction tr with
  | nil => intro d d' i j _ _ hi; simp at hi
  | cons x t ih =>
    intro d d' i j h hij hi hj
    cases j with
    | zero => omega
    | succ j =>
      simp only [List.getElem?_cons_succ] at hj
      cases i with
      | zero =>
        simp only [List.getElem?_cons_zero, Option.some.injEq] at hi
        subst hi
        simp only [Notification.follows] at h
        obtain ⟨k, hk, hr⟩ := follows_depleted_after_recharged t d' j h.2 hj
        exact ⟨k + 1, by omega, by omega, by simpa using hr⟩
      | succ i =>
        simp only [List.getElem?_cons_succ] at hi
        have ht : ∃ d1, Notification.follows d1 t d' := by
          cases x with
          | DEPLETED => exact ⟨true, h.2⟩
          | RECHARGED => exact ⟨false, h.2⟩
          | CHANGED => exact ⟨d, h⟩
        obtain ⟨d1, hd1⟩ := ht
        obtain ⟨k, hk1, hk2, hr⟩ := ih d1 d' i j hd1 (by omega) hi hj
        exact ⟨k + 1, by omega, by omega, by simpa using hr⟩

/-- The notifications of one refresh and the flag. -/
theorem UpdateEnergySource_follows (w w' : World) (now : Int) (finished : Bool)
    (h : w.UpdateEnergySource now finished = .ok w') :
    ∃ tr, w'.emitted = w.emitted ++ tr ∧
      Notification.follows w.source.m_depleted tr w'.source.m_depleted := by
  cases finished with
  | true =>
    rw [UpdateEnergySource_finished] at h
    injection h with h
    subst h
    exact ⟨[], by simp, rfl⟩
  | false =>
    obtain ⟨tot, s1, -, -, hs1, -, hc⟩ := UpdateEnergySource_cases w w' now h
    have hdep : s1.m_depleted = w.source.m_depleted := by rw [hs1]; rfl
    rcases hc with ⟨c1a, -, hs, -, he⟩ | ⟨-, c2a, -, hs, -, he⟩ | ⟨-, -, -, hs, -, he⟩ |
      ⟨-, -, -, hs, -, he⟩
    · exact ⟨[Notification.DEPLETED], he, by rw [hs]; exact ⟨c1a, rfl⟩⟩
    · exact ⟨[Notification.RECHARGED], he, by rw [hs]; exact ⟨c2a, rfl⟩⟩
    · refine ⟨[Notification.CHANGED], he, ?_⟩
      rw [hs]
      simp only [Notification.follows]
      exact hdep.symm
    · refine ⟨[], by simpa using he, ?_⟩
      rw [hs]
      simp only [Notification.follows]
      exact hdep.symm

theorem ChangeState_follows (w w' : World) (i : Nat) (newState now : Int) (finished : Bool)
    (h : w.ChangeState i newState now finished = .ok w') :
    ∃ tr, w'.emitted = w.emitted ++ tr ∧
      Notification.follows w.source.m_depleted tr w'.source.m_depleted := by
  obtain ⟨m, m2, c, w1, -, -, -, -, hu, hs, -, he, -⟩ := ChangeState_cases w w' i newState now
    finished h
  obtain ⟨tr, h1, h2⟩ := UpdateEnergySource_follows _ w1 now finished hu
  exact ⟨tr, by rw [he, h1], by rw [hs]; exact h2⟩

theorem step_follows (w w' : World) (e : Event) (h : w.step e = .ok w') :
    ∃ tr, w'.emitted = w.emitted ++ tr ∧
      Notification.follows w.source.m_depleted tr w'.source.m_depleted := by
  unfold step at h
  cases ha : e.action with
  | UpdateEnergySource =>
    rw [ha] at h
    exact UpdateEnergySource_follows w w' _ _ h
  | GetRemainingEnergy =>
    rw [ha] at h
    simp only [GetRemainingEnergy] at h
    cases hu : w.UpdateEnergySource e.now e.finished with
    | error x => rw [hu] at h; cases h
    | ok w1 =>
      rw [hu] at h
      injection h with h
      subst h
      exact UpdateEnergySource_follows w w1 _ _ hu
  | ChangeState i newState =>
    rw [ha] at h
    exact ChangeState_follows w w' i newState _ _ h
  | CalcTxCurrentFromModel i p =>
    rw [ha] at h
    obtain ⟨m, cm, c, -, -, -, hw⟩ := CalcTxCurrentFromModel_cases w w' i p h
    subst hw
    exact ⟨[], by simp, rfl⟩
  | NotifyTxStart i p =>
    rw [ha] at h
    simp only [NotifyTxStart] at h
    cases hc : w.CalcTxCurrentFromModel i p with
    | error x => rw [hc] at h; cases h
    | ok w1 =>
      rw [hc] at h
      simp only at h
      obtain ⟨m, cm, c, -, -, -, hw⟩ := CalcTxCurrentFromModel_cases w w1 i p hc
      obtain ⟨tr, h1, h2⟩ := ChangeState_follows w1 w' i _ _ _ h
      subst hw
      exact ⟨tr, h1, h2⟩
  | NotifyRxStart i =>
    rw [ha] at h
    exact ChangeState_follows w w' i _ _ _ h
  | NotifySleep i =>
    rw [ha] at h
    exact ChangeState_follows w w' i _ _ _ h
  | NotifyStandby i =>
    rw [ha] at h
    exact ChangeState_follows w w' i _ _ _ h

theorem run_follows (es : List Event) : ∀ (w w' : World), w.run es = .ok w' →
    ∃ tr, w'.emitted = w.emitted ++ tr ∧
      Notification.follows w.source.m_depleted tr w'.source.m_depleted := by
  induction es with
  | nil =>
    intro w w' h
    simp only [run] at h
    injection h with h
    subst h
    exact ⟨[], by simp, rfl⟩
  | cons e es ih =>
    intro w w' h
    simp only [run] at h
    cases hs : w.step e with
    | error x => rw [hs] at h; cases h
    | ok w1 =>
      rw [hs] at h
      obtain ⟨t1, h1, f1⟩ := step_follows w w1 e hs
      obtain ⟨t2, h2, f2⟩ := ih w1 w' h
      exact ⟨t1 ++ t2, by rw [h2, h1, List.append_assoc], follows_append t1 _ _ _ t2 f1 f2⟩

end TraceLemmas

/-! ## Lemmas on the depletion flag of a model -/

section DepletedLemmas

open World LoraRadioEnergyModel

theorem getElem?_lt {α : Type} (l : List α) (i : Nat) (a : α) (h : l[i]? = some a) :
    i < l.length := by
  by_contra hcon
  rw [List.getElem?_eq_none (by omega)] at h
  cases h

theorem UpdateEnergySource_depleted_persists (w w' : World) (now : Int) (finished : Bool)
    (j : Nat) (x : LoraRadioEnergyModel) (h : w.UpdateEnergySource now finished = .ok w')
    (hj : w.models[j]? = some x) (hd : x.m_energyDepleted = true) :
    ∃ x', w'.models[j]? = some x' ∧ x'.m_energyDepleted = true := by
  rcases UpdateEnergySource_models w w' now finished h with ⟨hm, -⟩ | ⟨hm, -⟩
  · exact ⟨HandleEnergyDepletion x, by rw [hm]; simp [hj], rfl⟩
  · exact ⟨x, by rw [hm]; exact hj, hd⟩

theorem ChangeState_depleted_persists (w w' : World) (i : Nat) (newState now : Int)
    (finished : Bool) (j : Nat) (x : LoraRadioEnergyModel)
    (h : w.ChangeState i newState now finished = .ok w')
    (hj : w.models[j]? = some x) (hd : x.m_energyDepleted = true) :
    ∃ x', w'.models[j]? = some x' ∧ x'.m_energyDepleted = true := by
  obtain ⟨m, m2, c, w1, hm, -, -, hacc, -, -, -, -, hc⟩ := ChangeState_cases w w' i newState now
    finished h
  have hjl := getElem?_lt _ _ _ hj
  by_cases hij : i = j
  · subst hij
    rw [hm] at hj
    injection hj with hj
    subst hj
    have hd2 : m2.m_energyDepleted = true := by rw [hacc.depleted]; exact hd
    rcases hc with ⟨hm', -⟩ | ⟨hm', -, -⟩ | ⟨hm', hdf, -⟩
    · exact ⟨HandleEnergyDepletion m2, by rw [hm']; simp [hjl], rfl⟩
    · exact ⟨m2, by rw [hm']; simp [hjl], hd2⟩
    · rw [hd] at hdf; cases hdf
  · rcases hc with ⟨hm', -⟩ | ⟨hm', -, -⟩ | ⟨hm', -, -⟩
    · exact ⟨HandleEnergyDepletion x, by rw [hm']; simp [List.getElem?_set_ne hij, hj], rfl⟩
    · exact ⟨x, by rw [hm', List.getElem?_set_ne hij]; exact hj, hd⟩
    · exact ⟨x, by rw [hm', List.getElem?_set_ne hij]; exact hj, hd⟩

theorem CalcTxCurrentFromModel_depleted_persists (w w' : World) (i : Nat) (p : ℚ)
    (j : Nat) (x : LoraRadioEnergyModel)
    (h : w.CalcTxCurrentFromModel i p = .ok w')
    (hj : w.models[j]? = some x) (hd : x.m_energyDepleted = true) :
    ∃ x', w'.models[j]? = some x' ∧ x'.m_energyDepleted = true := by
  obtain ⟨m, cm, c, hm, -, -, hw⟩ := CalcTxCurrentFromModel_cases w w' i p h
  subst hw
  have hjl := getElem?_lt _ _ _ hj
  by_cases hij : i = j
  · subst hij
    rw [hm] at hj
    injection hj with hj
    subst hj
    exact ⟨{ m with m_txCurrentA := c }, by simp [hjl], hd⟩
  · exact ⟨x, by simp only [List.getElem?_set_ne hij]; exact hj, hd⟩

/-- No call clears the flag `m_energyDepleted` of a model. -/
theorem step_depleted_persists (w w' : World) (e : Event) (j : Nat) (x : LoraRadioEnergyModel)
    (h : w.step e = .ok w') (hj : w.models[j]? = some x) (hd : x.m_energyDepleted = true) :
    ∃ x', w'.models[j]? = some x' ∧ x'.m_energyDepleted = true := by
  unfold step at h
  cases ha : e.action with
  | UpdateEnergySource =>
    rw [ha] at h
    exact UpdateEnergySource_depleted_persists w w' _ _ j x h hj hd
  | GetRemainingEnergy =>
    rw [ha] at h
    simp only [GetRemainingEnergy] at h
    cases hu : w.UpdateEnergySource e.now e.finished with
    | error y => rw [hu] at h; cases h
    | ok w1 =>
      rw [hu] at h
      injection h with h
      subst h
      exact UpdateEnergySource_depleted_persists w w1 _ _ j x hu hj hd
  | ChangeState i newState =>
    rw [ha] at h
    exact ChangeState_depleted_persists w w' i newState _ _ j x h hj hd
  | CalcTxCurrentFromModel i p =>
    rw [ha] at h
    exact CalcTxCurrentFromModel_depleted_persists w w' i p j x h hj hd
  | NotifyTxStart i p =>
    rw [ha] at h
    simp only [NotifyTxStart] at h
    cases hc : w.CalcTxCurrentFromModel i p with
    | error y => rw [hc] at h; cases h
    | ok w1 =>
      rw [hc] at h
      simp only at h
      obtain ⟨x1, hj1, hd1⟩ := CalcTxCurrentFromModel_depleted_persists w w1 i p j x hc hj hd
      exact ChangeState_depleted_persists w1 w' i _ _ _ j x1 h hj1 hd1
  | NotifyRxStart i =>
    rw [ha] at h
    exact ChangeState_depleted_persists w w' i _ _ _ j x h hj hd
  | NotifySleep i =>
    rw [ha] at h
    exact ChangeState_depleted_persists w w' i _ _ _ j x h hj hd
  | NotifyStandby i =>
    rw [ha] at h
    exact ChangeState_depleted_persists w w' i _ _ _ j x h hj hd

theorem run_depleted_persists (es : List Event) : ∀ (w w' : World) (j : Nat)
    (x : LoraRadioEnergyModel), w.run es = .ok w' → w.models[j]? = some x →
    x.m_energyDepleted = true → ∃ x', w'.models[j]? = some x' ∧ x'.m_energyDepleted = true := by
  induction es with
  | nil =>
    intro w w' j x h hj hd
    simp only [run] at h
    injection h with h
    subst h
    exact ⟨x, hj, hd⟩
  | cons e es ih =>
    intro w w' j x h hj hd
    simp only [run] at h
    cases hs : w.step e with
    | error y => rw [hs] at h; cases h
    | ok w1 =>
      rw [hs] at h
      obtain ⟨x1, hj1, hd1⟩ := step_depleted_persists w w1 e j x hs hj hd
      exact ih w1 w' j x1 h hj1 hd1

/-- The model on which `ChangeState` is called, after the call. -/
theorem ChangeState_model (w w' : World) (i : Nat) (newState now : Int) (finished : Bool)
    (m : LoraRadioEnergyModel) (hm : w.models[i]? = some m)
    (h : w.ChangeState i newState now finished = .ok w') :
    ∃ m' c, w'.models[i]? = some m' ∧
      Accounted m { m' with m_currentState := m.m_currentState
                            m_energyDepleted := m.m_energyDepleted }
        now w.source.m_supplyVoltageV c ∧
      ((m.m_energyDepleted = true ∨ w'.emitted = w.emitted ++ [Notification.DEPLETED]) →
        m'.m_currentState = m.m_currentState ∧ m'.m_energyDepleted = true) ∧
      (m.m_energyDepleted = false → w'.emitted ≠ w.emitted ++ [Notification.DEPLETED] →
        m'.m_currentState = newState ∧ m'.m_energyDepleted = false) := by
  obtain ⟨m0, m2, c, w1, hm0, -, -, hacc, -, -, -, -, hc⟩ := ChangeState_cases w w' i newState
    now finished h
  rw [hm] at hm0
  injection hm0 with hm0
  subst hm0
  have hi := getElem?_lt _ _ _ hm
  have hst := hacc.state
  have hdp := hacc.depleted
  have key : ∀ m' : LoraRadioEnergyModel,
      ({ m' with m_currentState := m.m_currentState
                 m_energyDepleted := m.m_energyDepleted } : LoraRadioEnergyModel) = m2 →
      Accounted m { m' with m_currentState := m.m_currentState
                            m_energyDepleted := m.m_energyDepleted }
        now w.source.m_supplyVoltageV c := by
    intro m' h'
    rw [h']; exact hacc
  rcases hc with ⟨hm', he⟩ | ⟨hm', hd, he⟩ | ⟨hm', hd, he⟩
  · refine ⟨HandleEnergyDepletion m2, c, by rw [hm']; simp [hi], key _ ?_, ?_, ?_⟩
    · cases m2; simp_all [HandleEnergyDepletion]
    · intro _; exact ⟨hst, rfl⟩
    · intro _ hne; exact absurd he hne
  · refine ⟨m2, c, by rw [hm']; simp [hi], key _ ?_, ?_, ?_⟩
    · cases m2; simp_all
    · intro _; exact ⟨hst, by rw [hdp]; exact hd⟩
    · intro hf; rw [hd] at hf; cases hf
  · refine ⟨m2.SetLoraPhyState newState, c, by rw [hm']; simp [hi], key _ ?_, ?_, ?_⟩
    · cases m2; simp_all [SetLoraPhyState]
    · intro hor
      rcases hor with hor | hor
      · rw [hd] at hor; cases hor
      · exact absurd hor he
    · intro _ _; exact ⟨rfl, by rw [← hd]; exact hdp⟩

end DepletedLemmas

/-! ## Lemmas on single refreshes -/

section EmittedLemmas

open World LoraRadioEnergyModel

/-- The notification of one refresh, with what it says about the flag and the energy. -/
theorem UpdateEnergySource_emitted (w w' : World) (now : Int) (finished : Bool)
    (h : w.UpdateEnergySource now finished = .ok w') :
    w'.source.m_initialEnergyJ = w.source.m_initialEnergyJ ∧
    w'.source.m_lowBatteryTh = w.source.m_lowBatteryTh ∧
    w'.source.m_highBatteryTh = w.source.m_highBatteryTh ∧
    ((w'.emitted = w.emitted ++ [Notification.DEPLETED] ∧ w.source.m_depleted = false ∧
        w'.source.m_depleted = true ∧ finished = false ∧
        w'.source.m_remainingEnergyJ ≤ w.source.m_lowBatteryTh * w.source.m_initialEnergyJ)
      ∨ (w'.emitted = w.emitted ++ [Notification.RECHARGED] ∧ w.source.m_depleted = true ∧
        w'.source.m_depleted = false ∧ finished = false ∧
        w'.source.m_remainingEnergyJ > w.source.m_highBatteryTh * w.source.m_initialEnergyJ)
      ∨ (w'.emitted = w.emitted ++ [Notification.CHANGED] ∧
        w'.source.m_depleted = w.source.m_depleted ∧ finished = false ∧
        ¬ (w.source.m_depleted = false ∧
          w'.source.m_remainingEnergyJ ≤ w.source.m_lowBatteryTh * w.source.m_initialEnergyJ) ∧
        ¬ (w.source.m_depleted = true ∧
          w'.source.m_remainingEnergyJ > w.source.m_highBatteryTh * w.source.m_initialEnergyJ))
      ∨ (w'.emitted = w.emitted ∧ w'.source.m_depleted = w.source.m_depleted ∧
        (finished = true ∨
          (¬ (w.source.m_depleted = false ∧
            w'.source.m_remainingEnergyJ ≤ w.source.m_lowBatteryTh * w.source.m_initialEnergyJ) ∧
          ¬ (w.source.m_depleted = true ∧
            w'.source.m_remainingEnergyJ
              > w.source.m_highBatteryTh * w.source.m_initialEnergyJ))))) := by
  cases finished with
  | true =>
    rw [UpdateEnergySource_finished] at h
    injection h with h
    subst h
    exact ⟨rfl, rfl, rfl, Or.inr (Or.inr (Or.inr ⟨rfl, rfl, Or.inl rfl⟩))⟩
  | false =>
    obtain ⟨tot, s1, -, -, hs1, -, hc⟩ := UpdateEnergySource_cases w w' now h
    have hlow : s1.m_lowBatteryTh = w.source.m_lowBatteryTh := by rw [hs1]; rfl
    have hhigh : s1.m_highBatteryTh = w.source.m_highBatteryTh := by rw [hs1]; rfl
    have hinit : s1.m_initialEnergyJ = w.source.m_initialEnergyJ := by rw [hs1]; rfl
    have hdep : s1.m_depleted = w.source.m_depleted := by rw [hs1]; rfl
    rcases hc with ⟨c1a, c1b, hs, -, he⟩ | ⟨c1, c2a, c2b, hs, -, he⟩ | ⟨c1, c2, c3, hs, -, he⟩ |
      ⟨c1, c2, c3, hs, -, he⟩
    · have hR : w'.source.m_remainingEnergyJ = s1.m_remainingEnergyJ := by rw [hs]
      refine ⟨by rw [hs]; exact hinit, by rw [hs]; exact hlow, by rw [hs]; exact hhigh, ?_⟩
      exact Or.inl ⟨he, c1a, by rw [hs], rfl, by rw [hR]; exact c1b⟩
    · have hR : w'.source.m_remainingEnergyJ = s1.m_remainingEnergyJ := by rw [hs]
      refine ⟨by rw [hs]; exact hinit, by rw [hs]; exact hlow, by rw [hs]; exact hhigh, ?_⟩
      exact Or.inr (Or.inl ⟨he, c2a, by rw [hs], rfl, by rw [hR]; exact c2b⟩)
    · have hR : w'.source.m_remainingEnergyJ = s1.m_remainingEnergyJ := by rw [hs]
      refine ⟨by rw [hs]; exact hinit, by rw [hs]; exact hlow, by rw [hs]; exact hhigh, ?_⟩
      exact Or.inr (Or.inr (Or.inl ⟨he, by rw [hs]; exact hdep, rfl, by rw [hR]; exact c1,
        by rw [hR]; exact c2⟩))
    · have hR : w'.source.m_remainingEnergyJ = s1.m_remainingEnergyJ := by rw [hs]
      refine ⟨by rw [hs]; exact hinit, by rw [hs]; exact hlow, by rw [hs]; exact hhigh, ?_⟩
      exact Or.inr (Or.inr (Or.inr ⟨he, by rw [hs]; exact hdep,
        Or.inr ⟨by rw [hR]; exact c1, by rw [hR]; exact c2⟩⟩))

theorem drainWorld_refresh_at2 :
    drainWorld.UpdateEnergySource 2000000000 false = .ok drainWorldAt2 := by
  simp [drainWorld, drainWorldAt2, UpdateEnergySource, CalculateRemaining, CalculateTotalCurrent,
    install, tenJouleSource, nineAmpereModel, LoraEnergySource.new, LoraRadioEnergyModel.new,
    DoGetCurrentA, SLEEP, TX, RX, STANDBY, Time.IsPositive, Time.GetNanoSeconds,
    LoraEnergySource.deduct, LoraEnergySource.energyToDecreaseJ, HandleEnergyDrainedEvent,
    NotifyEnergyDrained, Simulator.Cancel, Simulator.Schedule, HandleEnergyDepletion]
  norm_num

theorem drainWorldAt2_refresh :
    drainWorldAt2.UpdateEnergySource 2000000000 false = .ok drainWorldAt2Again := by
  norm_num [drainWorldAt2, drainWorldAt2Again, UpdateEnergySource, CalculateRemaining, CalculateTotalCurrent,
    tenJouleSource, nineAmpereModel, LoraEnergySource.new, LoraRadioEnergyModel.new,
    DoGetCurrentA, SLEEP, TX, RX, STANDBY, Time.IsPositive, Time.GetNanoSeconds,
    LoraEnergySource.deduct, LoraEnergySource.energyToDecreaseJ, HandleEnergyRechargedEvent,
    NotifyEnergyRecharged, NotifyEnergyChanged, Simulator.Cancel, Simulator.Schedule,
    HandleEnergyDepletion, HandleEnergyChanged]

theorem drainWorld_refresh_at1 :
    drainWorld.UpdateEnergySource 1000000000 false = .ok drainWorldAt1 := by
  norm_num [drainWorld, drainWorldAt1, UpdateEnergySource, CalculateRemaining,
    CalculateTotalCurrent, install, tenJouleSource, nineAmpereModel, LoraEnergySource.new,
    LoraRadioEnergyModel.new, DoGetCurrentA, SLEEP, TX, RX, STANDBY, Time.IsPositive,
    Time.GetNanoSeconds, LoraEnergySource.deduct, LoraEnergySource.energyToDecreaseJ,
    HandleEnergyDrainedEvent, NotifyEnergyDrained, Simulator.Cancel, Simulator.Schedule,
    HandleEnergyDepletion]

theorem refilled_refresh :
    ({ drainWorldAt1 with source := refilledSource } : World).UpdateEnergySource 1000000000 false
      = .ok rechargedWorld := by
  norm_num [drainWorldAt1, refilledSource, rechargedWorld, UpdateEnergySource,
    CalculateRemaining, CalculateTotalCurrent, tenJouleSource, nineAmpereModel,
    LoraEnergySource.new, LoraRadioEnergyModel.new, DoGetCurrentA, SLEEP, TX, RX, STANDBY,
    Time.IsPositive, Time.GetNanoSeconds, LoraEnergySource.deduct,
    LoraEnergySource.energyToDecreaseJ, HandleEnergyRechargedEvent, NotifyEnergyRecharged,
    Simulator.Cancel, Simulator.Schedule, HandleEnergyDepletion, HandleEnergyRecharged]

theorem recharged_changeState :
    rechargedWorld.ChangeState 0 RX 1100000000 false = .ok rechargedWorldAfterChangeState := by
  norm_num [rechargedWorld, rechargedWorldAfterChangeState, refilledSource, drainWorldAt1,
    ChangeState, closeInterval, UpdateEnergySource, CalculateRemaining, CalculateTotalCurrent,
    tenJouleSource, nineAmpereModel, LoraEnergySource.new, LoraRadioEnergyModel.new,
    DoGetCurrentA, SLEEP, TX, RX, STANDBY, Time.IsPositive, Time.GetNanoSeconds,
    Time.GetSeconds, LoraEnergySource.GetSupplyVoltage, LoraEnergySource.deduct,
    LoraEnergySource.energyToDecreaseJ, NotifyEnergyChanged, Simulator.Cancel,
    Simulator.Schedule, HandleEnergyDepletion, HandleEnergyRecharged, HandleEnergyChanged,
    SetLoraPhyState]

theorem InterpolatedLoraConsumptionModel.CalcTxCurrent_ok (p : ℚ) (h : p ≤ 20) :
    ∃ c, CalcTxCurrent p = .ok c := by
  by_cases h13 : p ≤ 13
  · exact ⟨_, CalcTxCurrent_low p h13⟩
  · by_cases h17 : p ≤ 17
    · exact ⟨_, CalcTxCurrent_mid p (not_le.mp h13) h17⟩
    · exact ⟨_, CalcTxCurrent_high p (not_le.mp h17) h⟩

theorem CalcTxCurrentFromModel_ok (w : World) (i : Nat) (p : ℚ) (m : LoraRadioEnergyModel)
    (hm : w.models[i]? = some m) (hc : m.m_consumptionModel = some LoraConsumptionModel.Interpolated)
    (hp : p ≤ 20) : ∃ w', w.CalcTxCurrentFromModel i p = .ok w' := by
  obtain ⟨c, hcur⟩ := InterpolatedLoraConsumptionModel.CalcTxCurrent_ok p hp
  unfold World.CalcTxCurrentFromModel
  rw [hm]
  simp [LoraRadioEnergyModel.CalcTxCurrentFromModel, hc, LoraConsumptionModel.CalcTxCurrent, hcur]

theorem CalcTxCurrentFromModel_length (w w' : World) (i : Nat) (p : ℚ)
    (h : w.CalcTxCurrentFromModel i p = .ok w') : w'.models.length = w.models.length := by
  obtain ⟨m, cm, c, -, -, -, hw⟩ := CalcTxCurrentFromModel_cases w w' i p h
  subst hw
  simp

/-- A run of `ChangeState` and `CalcTxCurrentFromModel` calls at non-decreasing times on
models that have the interpolated consumption model returns. -/
theorem run_accounting_calls (n : Nat) : ∀ (calls : List Event) (w : World) (T : Int),
    w.models.length = n →
    (∀ m ∈ w.models, isMode m.m_currentState ∧ m.m_lastStampTime ≤ T ∧
      m.m_consumptionModel = some LoraConsumptionModel.Interpolated) →
    w.source.m_lastUpdateTime ≤ T →
    List.Chain (fun a b => a ≤ b) T (calls.map (fun e => e.now)) →
    (∀ e ∈ calls, e.isAccountingCall n) →
    ∃ w', w.run calls = .ok w' := by
  intro calls
  induction calls with
  | nil =>
    intro w T _ _ _ _ _
    exact ⟨w, rfl⟩
  | cons e es ih =>
    intro w T hlen hvalid hsrc hchain hcalls
    simp only [List.map_cons, List.chain_cons] at hchain
    obtain ⟨hTe, hchain⟩ := hchain
    rcases hcalls e (List.mem_cons_self _ _) with ⟨i, ns, ha, hi, hns⟩ | ⟨i, p, ha, hi, hp⟩
    · obtain ⟨m, hm⟩ : ∃ m, w.models[i]? = some m :=
        ⟨_, List.getElem?_eq_getElem (by omega)⟩
      have hmT := (hvalid m (mem_of_getElem? _ _ _ hm)).2.1
      obtain ⟨w1, h1⟩ := ChangeState_ok w i ns e.now e.finished m hm (by omega)
        (fun x hx => (hvalid x hx).1) (Or.inr (by omega))
      have hstep : w.step e = .ok w1 := by
        unfold step; rw [ha]; exact h1
      have hvalid1 : ∀ x ∈ w1.models, isMode x.m_currentState ∧ x.m_lastStampTime ≤ e.now ∧
          x.m_consumptionModel = some LoraConsumptionModel.Interpolated :=
        ChangeState_forall
          (fun x => isMode x.m_currentState ∧ x.m_lastStampTime ≤ T ∧
            x.m_consumptionModel = some LoraConsumptionModel.Interpolated)
          (fun x => isMode x.m_currentState ∧ x.m_lastStampTime ≤ e.now ∧
            x.m_consumptionModel = some LoraConsumptionModel.Interpolated) w w1 i ns e.now
          e.finished h1 (fun x hx => ⟨hx.1, by omega, hx.2.2⟩)
          (fun x x2 c hx hacc => ⟨by rw [hacc.state]; exact hx.1, by rw [hacc.stamp],
            by rw [hacc.consumption]; exact hx.2.2⟩)
          (fun x hx => hx) (fun x hx => ⟨hns, hx.2⟩) hvalid
      have hlen1 : w1.models.length = n := by
        rw [ChangeState_length w w1 i ns e.now e.finished h1]; exact hlen
      have hsrc1 := ChangeState_lastUpdate w w1 i ns e.now T e.finished h1 hsrc hTe
      obtain ⟨w', hrun⟩ := ih w1 e.now hlen1 hvalid1 hsrc1 hchain
        (fun x hx => hcalls x (List.mem_cons_of_mem _ hx))
      exact ⟨w', by simp only [run, hstep]; exact hrun⟩
    · obtain ⟨m, hm⟩ : ∃ m, w.models[i]? = some m :=
        ⟨_, List.getElem?_eq_getElem (by omega)⟩
      obtain ⟨w1, h1⟩ := CalcTxCurrentFromModel_ok w i p m hm
        (hvalid m (mem_of_getElem? _ _ _ hm)).2.2 hp
      have hstep : w.step e = .ok w1 := by
        unfold step; rw [ha]; exact h1
      have hvalid1 : ∀ x ∈ w1.models, isMode x.m_currentState ∧ x.m_lastStampTime ≤ e.now ∧
          x.m_consumptionModel = some LoraConsumptionModel.Interpolated :=
        CalcTxCurrentFromModel_forall
          (fun x => isMode x.m_currentState ∧ x.m_lastStampTime ≤ e.now ∧
            x.m_consumptionModel = some LoraConsumptionModel.Interpolated) w w1 i p h1
          (fun x c hx => hx)
          (fun x hx => ⟨(hvalid x hx).1, by have := (hvalid x hx).2.1; omega,
            (hvalid x hx).2.2⟩)
      have hlen1 : w1.models.length = n := by
        rw [CalcTxCurrentFromModel_length w w1 i p h1]; exact hlen
      have hsrc1 : w1.source.m_lastUpdateTime ≤ e.now := by
        obtain ⟨m0, cm, c, -, -, -, hw⟩ := CalcTxCurrentFromModel_cases w w1 i p h1
        subst hw
        simp only
        omega
      obtain ⟨w', hrun⟩ := ih w1 e.now hlen1 hvalid1 hsrc1 hchain
        (fun x hx => hcalls x (List.mem_cons_of_mem _ hx))
      exact ⟨w', by simp only [run, hstep]; exact hrun⟩

end EmittedLemmas

/-! ## Lemmas on rejected calls -/

section RejectionLemmas

open World LoraRadioEnergyModel

/-- A refresh before the time of the last refresh fails the assertion of
`CalculateRemaining`. -/
theorem UpdateEnergySource_rejected (w : World) (now : Int)
    (hvalid : ∀ m ∈ w.models, isMode m.m_currentState)
    (hnow : now < w.source.m_lastUpdateTime) :
    w.UpdateEnergySource now false = .error Error.assertFailed := by
  obtain ⟨t, ht⟩ := CalculateTotalCurrent_ok w.models 0 hvalid
  have hd : ¬ (0:Int) ≤ now - w.source.m_lastUpdateTime := by omega
  simp [UpdateEnergySource, CalculateRemaining, ht, Time.IsPositive, hd]

/-- A call of `ChangeState` before the last transition of the model fails the assertion of
`ChangeState`. -/
theorem ChangeState_rejected_stamp (w : World) (i : Nat) (newState now : Int)
    (finished : Bool) (m : LoraRadioEnergyModel) (hm : w.models[i]? = some m)
    (hnow : now < m.m_lastStampTime) :
    w.ChangeState i newState now finished = .error Error.assertFailed := by
  have hd : ¬ (0:Int) ≤ now - m.m_lastStampTime := by omega
  unfold ChangeState
  rw [hm]
  simp [Time.IsPositive, hd]

/-- A call of `ChangeState` not before the last transition of the model, but before the
last refresh of the source, fails the assertion of `CalculateRemaining`. -/
theorem ChangeState_rejected_source (w : World) (i : Nat) (newState now : Int)
    (m : LoraRadioEnergyModel) (hm : w.models[i]? = some m)
    (hvalid : ∀ x ∈ w.models, isMode x.m_currentState)
    (hstamp : m.m_lastStampTime ≤ now) (hnow : now < w.source.m_lastUpdateTime) :
    w.ChangeState i newState now false = .error Error.assertFailed := by
  have hmode := hvalid m (mem_of_getElem? _ _ _ hm)
  obtain ⟨⟨m1, e⟩, hci⟩ := closeInterval_ok m (now - m.m_lastStampTime)
    w.source.GetSupplyVoltage hmode
  obtain ⟨c, -, -, hacc⟩ := closeInterval_accounted m m1 now _ e hci
  generalize hm2 : ({ m1 with m_totalEnergyConsumption := m1.m_totalEnergyConsumption + e
                              m_lastStampTime := now } : LoraRadioEnergyModel) = m2 at hacc
  have hvalid2 : ∀ x ∈ w.models.set i m2, isMode x.m_currentState := by
    intro x hx
    rcases List.mem_or_eq_of_mem_set hx with hx | hx
    · exact hvalid x hx
    · rw [hx, hacc.state]; exact hmode
  have hu := UpdateEnergySource_rejected { w with models := w.models.set i m2 } now hvalid2 hnow
  have hd : (0:Int) ≤ now - m.m_lastStampTime := by omega
  unfold ChangeState
  rw [hm]
  simp only [Time.IsPositive, hd, decide_True, Bool.true_eq_false, if_false, hci, hm2, hu]

/-- When `ChangeState` fails, for models in valid modes. -/
theorem ChangeState_error_iff (w : World) (i : Nat) (newState now : Int) (finished : Bool)
    (m : LoraRadioEnergyModel) (hm : w.models[i]? = some m)
    (hvalid : ∀ x ∈ w.models, isMode x.m_currentState) :
    (∃ e, w.ChangeState i newState now finished = .error e) ↔
      (now < m.m_lastStampTime ∨ (finished = false ∧ now < w.source.m_lastUpdateTime)) := by
  constructor
  · rintro ⟨e, he⟩
    by_contra hcon
    push_neg at hcon
    obtain ⟨h1, h2⟩ := hcon
    have hsrc : finished = true ∨ w.source.m_lastUpdateTime ≤ now := by
      cases finished with
      | true => exact Or.inl rfl
      | false => exact Or.inr (h2 rfl)
    obtain ⟨w', hw'⟩ := ChangeState_ok w i newState now finished m hm h1 hvalid hsrc
    rw [hw'] at he
    cases he
  · rintro (h | ⟨hf, h⟩)
    · exact ⟨_, ChangeState_rejected_stamp w i newState now finished m hm h⟩
    · subst hf
      by_cases hs : now < m.m_lastStampTime
      · exact ⟨_, ChangeState_rejected_stamp w i newState now false m hm hs⟩
      · exact ⟨_, ChangeState_rejected_source w i newState now m hm hvalid (by omega) h⟩

theorem UpdateEnergySource_error_iff (w : World) (now : Int)
    (hvalid : ∀ m ∈ w.models, isMode m.m_currentState) :
    (∃ e, w.UpdateEnergySource now false = .error e) ↔ now < w.source.m_lastUpdateTime := by
  constructor
  · rintro ⟨e, he⟩
    by_contra hcon
    obtain ⟨w', hw'⟩ := UpdateEnergySource_ok w now false hvalid (Or.inr (by omega))
    rw [hw'] at he
    cases he
  · intro h
    exact ⟨_, UpdateEnergySource_rejected w now hvalid h⟩

/-- The energy a refresh leaves, and the charge it stores. -/
theorem UpdateEnergySource_source (w w' : World) (now : Int)
    (h : w.UpdateEnergySource now false = .ok w') :
    ∃ tot, CalculateTotalCurrent 0 w.models = .ok tot ∧
      w'.source.m_remainingEnergyJ
        = (w.source.deduct (w.source.energyToDecreaseJ tot
            (now - w.source.m_lastUpdateTime))).m_remainingEnergyJ ∧
      w'.source.m_remainingChargemAh
        = w'.source.m_remainingEnergyJ / w.source.m_supplyVoltageV * 1000 ∧
      w'.source.m_supplyVoltageV = w.source.m_supplyVoltageV ∧
      w'.source.m_initialEnergyJ = w.source.m_initialEnergyJ ∧
      w'.source.m_lastUpdateTime = now ∧
      w'.source.m_energyUpdateInterval = w.source.m_energyUpdateInterval ∧
      w'.source.m_energyUpdateEvent = some w.sim.nextUid := by
  obtain ⟨tot, s1, htot, -, hs1, -, hc⟩ := UpdateEnergySource_cases w w' now h
  refine ⟨tot, htot, ?_⟩
  rcases hc with ⟨-, -, hs, -, -⟩ | ⟨-, -, -, hs, -, -⟩ | ⟨-, -, -, hs, -, -⟩ |
    ⟨-, -, -, hs, -, -⟩ <;>
  · rw [hs, hs1]
    simp [LoraEnergySource.deduct]

end RejectionLemmas

/-! ## Lemmas on the test set-up, the transmit current and the pending events -/

section SetupLemmas

open World LoraRadioEnergyModel InterpolatedLoraConsumptionModel

theorem testWorld_valid : ∀ m ∈ testWorld.models, isMode m.m_currentState := by
  intro m hm
  simp only [testWorld, install, List.mem_singleton] at hm
  subst hm
  exact Or.inr (Or.inr (Or.inr rfl))

theorem drainWorld_valid : ∀ m ∈ drainWorld.models, isMode m.m_currentState := by
  intro m hm
  simp only [drainWorld, install, List.mem_singleton] at hm
  subst hm
  exact Or.inr (Or.inr (Or.inr rfl))

theorem CalcTxCurrent_14 : CalcTxCurrent 14 = .ok (435 / 10000) := by
  rw [CalcTxCurrent_mid 14 (by norm_num) (by norm_num)]
  norm_num

/-- Without a consumption model the transmit-start notification fails the assertion of
`CalcTxCurrentFromModel`. -/
theorem NotifyTxStart_without_model (w : World) (i : Nat) (m : LoraRadioEnergyModel) (p : ℚ)
    (now : Int) (finished : Bool) (hm : w.models[i]? = some m)
    (hc : m.m_consumptionModel = none) :
    w.NotifyTxStart i p now finished = .error Error.assertFailed := by
  simp [NotifyTxStart, World.CalcTxCurrentFromModel, hm,
    LoraRadioEnergyModel.CalcTxCurrentFromModel, hc]

/-- The transmit current of the model after a transmit-start notification is the one the
consumption model computes. -/
theorem NotifyTxStart_txCurrent (w w' : World) (i : Nat) (p : ℚ) (now : Int) (finished : Bool)
    (h : w.NotifyTxStart i p now finished = .ok w') :
    ∃ m cm c m', w.models[i]? = some m ∧ m.m_consumptionModel = some cm ∧
      cm.CalcTxCurrent p = .ok c ∧ w'.models[i]? = some m' ∧ m'.m_txCurrentA = c := by
  simp only [NotifyTxStart] at h
  cases hc : w.CalcTxCurrentFromModel i p with
  | error x => rw [hc] at h; cases h
  | ok w1 =>
    rw [hc] at h
    simp only at h
    obtain ⟨m, cm, c, hm, hcm, hcur, hw1⟩ := CalcTxCurrentFromModel_cases w w1 i p hc
    have hi := getElem?_lt _ _ _ hm
    have hm1 : w1.models[i]? = some { m with m_txCurrentA := c } := by
      rw [hw1]; simp [hi]
    obtain ⟨m', c', hm', hacc, -, -⟩ := ChangeState_model w1 w' i TX now finished _ hm1 h
    exact ⟨m, cm, c, m', hm, hcm, hcur, hm', hacc.tx⟩

theorem UpdateEnergySource_pending (w w' : World) (now : Int)
    (h : w.UpdateEnergySource now false = .ok w') :
    w'.sim.pending = (w.sim.Cancel w.source.m_energyUpdateEvent).pending
      ++ [(w.sim.nextUid, now + w.source.m_energyUpdateInterval)] ∧
    w'.sim.nextUid = w.sim.nextUid + 1 := by
  obtain ⟨tot, s1, -, -, -, hsim, -⟩ := UpdateEnergySource_cases w w' now h
  rw [hsim]
  simp [Simulator.Schedule]

end SetupLemmas

/-! ## The run of the test suite -/

section TestRunLemmas

open World LoraRadioEnergyModel InterpolatedLoraConsumptionModel

theorem testWorld_txStart : testWorld.NotifyTxStart 0 14 0 false = .ok testWorldAt0 := by
  have h1 : testWorld.CalcTxCurrentFromModel 0 14 = .ok testWorld := by
    simp [World.CalcTxCurrentFromModel, LoraRadioEnergyModel.CalcTxCurrentFromModel,
      LoraConsumptionModel.CalcTxCurrent, CalcTxCurrent_14, testWorld, install, testModel,
      LoraRadioEnergyModel.new]
  simp only [NotifyTxStart, h1]
  norm_num [testWorld, testWorldAt0, install, testSource, testModel,
    ChangeState, closeInterval, UpdateEnergySource, CalculateRemaining, CalculateTotalCurrent,
    LoraEnergySource.new, LoraRadioEnergyModel.new,
    DoGetCurrentA, SLEEP, TX, RX, STANDBY, Time.IsPositive, Time.GetNanoSeconds,
    Time.GetSeconds, LoraEnergySource.GetSupplyVoltage, LoraEnergySource.deduct,
    LoraEnergySource.energyToDecreaseJ, NotifyEnergyChanged, Simulator.Cancel,
    Simulator.Schedule, HandleEnergyDepletion, HandleEnergyRecharged, HandleEnergyChanged,
    SetLoraPhyState]

theorem testWorldAt0_rxStart :
    testWorldAt0.NotifyRxStart 0 1000000000 false = .ok testWorldAt1 := by
  norm_num [NotifyRxStart, testWorldAt0, testWorldAt1, testSource, testModel,
    ChangeState, closeInterval, UpdateEnergySource, CalculateRemaining, CalculateTotalCurrent,
    LoraEnergySource.new, LoraRadioEnergyModel.new,
    DoGetCurrentA, SLEEP, TX, RX, STANDBY, Time.IsPositive, Time.GetNanoSeconds,
    Time.GetSeconds, LoraEnergySource.GetSupplyVoltage, LoraEnergySource.deduct,
    LoraEnergySource.energyToDecreaseJ, NotifyEnergyChanged, Simulator.Cancel,
    Simulator.Schedule, HandleEnergyDepletion, HandleEnergyRecharged, HandleEnergyChanged,
    SetLoraPhyState]

theorem testWorldAt1_standby :
    testWorldAt1.NotifyStandby 0 2250000000 false = .ok testWorldAt2 := by
  norm_num [NotifyStandby, testWorldAt1, testWorldAt2, testSource, testModel,
    ChangeState, closeInterval, UpdateEnergySource, CalculateRemaining, CalculateTotalCurrent,
    LoraEnergySource.new, LoraRadioEnergyModel.new,
    DoGetCurrentA, SLEEP, TX, RX, STANDBY, Time.IsPositive, Time.GetNanoSeconds,
    Time.GetSeconds, LoraEnergySource.GetSupplyVoltage, LoraEnergySource.deduct,
    LoraEnergySource.energyToDecreaseJ, NotifyEnergyChanged, Simulator.Cancel,
    Simulator.Schedule, HandleEnergyDepletion, HandleEnergyRecharged, HandleEnergyChanged,
    SetLoraPhyState]

theorem testWorldAt2_sleep :
    testWorldAt2.NotifySleep 0 3750000000 false = .ok testWorldAt3 := by
  norm_num [NotifySleep, testWorldAt2, testWorldAt3, testModelAt3, testSource, testModel,
    ChangeState, closeInterval, UpdateEnergySource, CalculateRemaining, CalculateTotalCurrent,
    LoraEnergySource.new, LoraRadioEnergyModel.new,
    DoGetCurrentA, SLEEP, TX, RX, STANDBY, Time.IsPositive, Time.GetNanoSeconds,
    Time.GetSeconds, LoraEnergySource.GetSupplyVoltage, LoraEnergySource.deduct,
    LoraEnergySource.energyToDecreaseJ, NotifyEnergyChanged, Simulator.Cancel,
    Simulator.Schedule, HandleEnergyDepletion, HandleEnergyRecharged, HandleEnergyChanged,
    SetLoraPhyState]

theorem testWorldAt3_standby :
    testWorldAt3.NotifyStandby 0 5500000000 false = .ok testWorldAtStop := by
  norm_num [NotifyStandby, testWorldAt3, testWorldAtStop, testModelAt3, testModelAtStop,
    testSource, testModel,
    ChangeState, closeInterval, UpdateEnergySource, CalculateRemaining, CalculateTotalCurrent,
    LoraEnergySource.new, LoraRadioEnergyModel.new,
    DoGetCurrentA, SLEEP, TX, RX, STANDBY, Time.IsPositive, Time.GetNanoSeconds,
    Time.GetSeconds, LoraEnergySource.GetSupplyVoltage, LoraEnergySource.deduct,
    LoraEnergySource.energyToDecreaseJ, NotifyEnergyChanged, Simulator.Cancel,
    Simulator.Schedule, HandleEnergyDepletion, HandleEnergyRecharged, HandleEnergyChanged,
    SetLoraPhyState]

theorem testWorld_run_testCalls : testWorld.run testCalls = .ok testWorldAt3 := by
  simp only [testCalls, run, step, testWorld_txStart, testWorldAt0_rxStart,
    testWorldAt1_standby, testWorldAt2_sleep]

theorem testWorld_run_closed :
    testWorld.run (testCalls ++ [closingCall]) = .ok testWorldAtStop := by
  simp only [testCalls, closingCall, List.cons_append, List.nil_append, run, step,
    testWorld_txStart, testWorldAt0_rxStart, testWorldAt1_standby, testWorldAt2_sleep,
    testWorldAt3_standby]

end TestRunLemmas

/-! ## Lemmas on the durations along a run -/

section TrackLemmas

open World LoraRadioEnergyModel

theorem HandleEnergyDepletion_timeIn (m : LoraRadioEnergyModel) (s : EndDeviceLoraPhy.State) :
    (HandleEnergyDepletion m).timeIn s = m.timeIn s := rfl

/-- A refresh of the source leaves the duration accumulators, the mode and the time stamp of
every model as they were. -/
theorem UpdateEnergySource_timeIn (w w' : World) (now : Int) (finished : Bool) (i : Nat)
    (m m' : LoraRadioEnergyModel) (h : w.UpdateEnergySource now finished = .ok w')
    (hm : w.models[i]? = some m) (hm' : w'.models[i]? = some m') :
    (∀ s, m'.timeIn s = m.timeIn s) ∧ m'.m_currentState = m.m_currentState ∧
      m'.m_lastStampTime = m.m_lastStampTime ∧
      (m'.m_energyDepleted = false → m.m_energyDepleted = false) := by
  rcases UpdateEnergySource_models w w' now finished h with ⟨hmod, -⟩ | ⟨hmod, -⟩
  · rw [hmod, List.getElem?_map, hm] at hm'
    simp only [Option.map_some'] at hm'
    injection hm' with hm'
    subst hm'
    exact ⟨fun s => rfl, rfl, rfl, fun hd => by simp [HandleEnergyDepletion] at hd⟩
  · rw [hmod, hm] at hm'
    injection hm' with hm'
    subst hm'
    exact ⟨fun s => rfl, rfl, rfl, id⟩

/-- What `ChangeState` on the model at position `j` does to the model at position `i`, when
that model is not depleted afterwards. -/
theorem ChangeState_tracks (w w' : World) (j : Nat) (newState now : Int) (finished : Bool)
    (i : Nat) (m m' : LoraRadioEnergyModel)
    (h : w.ChangeState j newState now finished = .ok w')
    (hm : w.models[i]? = some m) (hm' : w'.models[i]? = some m')
    (hd : m'.m_energyDepleted = false) :
    m.m_energyDepleted = false ∧
    (j = i → (∀ s, m'.timeIn s
        = m.timeIn s + if s = m.m_currentState then now - m.m_lastStampTime else 0) ∧
      m'.m_currentState = newState ∧ m'.m_lastStampTime = now) ∧
    (j ≠ i → (∀ s, m'.timeIn s = m.timeIn s) ∧ m'.m_currentState = m.m_currentState ∧
      m'.m_lastStampTime = m.m_lastStampTime) := by
  by_cases hji : j = i
  · subst hji
    obtain ⟨m'', c, hm'', hacc, h3, h4⟩ := ChangeState_model w w' j newState now finished m hm h
    rw [hm'] at hm''
    injection hm'' with hm''
    subst hm''
    have hmd : m.m_energyDepleted = false := by
      cases hx : m.m_energyDepleted with
      | false => rfl
      | true => have := (h3 (Or.inl hx)).2; rw [hd] at this; cases this
    have hne : w'.emitted ≠ w.emitted ++ [Notification.DEPLETED] := by
      intro he
      have := (h3 (Or.inr he)).2
      rw [hd] at this
      cases this
    refine ⟨hmd, fun _ => ⟨hacc.time, (h4 hmd hne).1, hacc.stamp⟩, fun hx => absurd rfl hx⟩
  · obtain ⟨m0, m2, c, w1, -, -, -, -, -, -, -, -, hcase⟩ :=
      ChangeState_cases w w' j newState now finished h
    have key : m' = m ∨ m' = HandleEnergyDepletion m := by
      rcases hcase with ⟨hmod, -⟩ | ⟨hmod, -⟩ | ⟨hmod, -⟩
      · rw [hmod, List.getElem?_map, List.getElem?_set_ne hji, hm] at hm'
        simp only [Option.map_some'] at hm'
        injection hm' with hm'
        exact Or.inr hm'.symm
      · rw [hmod, List.getElem?_set_ne hji, hm] at hm'
        injection hm' with hm'
        exact Or.inl hm'.symm
      · rw [hmod, List.getElem?_set_ne hji, hm] at hm'
        injection hm' with hm'
        exact Or.inl hm'.symm
    rcases key with hk | hk
    · subst hk
      exact ⟨hd, fun hx => absurd hx hji, fun _ => ⟨fun s => rfl, rfl, rfl⟩⟩
    · subst hk
      simp [HandleEnergyDepletion] at hd

/-- The call `CalcTxCurrentFromModel` leaves the duration accumulators, the mode, the time
stamp and the depletion flag of every model as they were. -/
theorem CalcTxCurrentFromModel_tracks (w w' : World) (j : Nat) (p : ℚ) (i : Nat)
    (m m' : LoraRadioEnergyModel) (h : w.CalcTxCurrentFromModel j p = .ok w')
    (hm : w.models[i]? = some m) (hm' : w'.models[i]? = some m') :
    (∀ s, m'.timeIn s = m.timeIn s) ∧ m'.m_currentState = m.m_currentState ∧
      m'.m_lastStampTime = m.m_lastStampTime ∧ m'.m_energyDepleted = m.m_energyDepleted := by
  obtain ⟨m0, cm, c, hm0, -, -, hw'⟩ := CalcTxCurrentFromModel_cases w w' j p h
  subst hw'
  by_cases hji : j = i
  · subst hji
    rw [hm] at hm0
    injection hm0 with hm0
    subst hm0
    have hlt := getElem?_lt _ _ _ hm
    simp only [List.getElem?_set_self hlt] at hm'
    injection hm' with hm'
    subst hm'
    exact ⟨fun s => rfl, rfl, rfl, rfl⟩
  · simp only [List.getElem?_set_ne hji] at hm'
    rw [hm] at hm'
    injection hm' with hm'
    subst hm'
    exact ⟨fun s => rfl, rfl, rfl, rfl⟩

theorem step_length (w w' : World) (e : Event) (h : w.step e = .ok w') :
    w'.models.length = w.models.length := by
  have hU : ∀ (a b : World) (now : Int) (fin : Bool), a.UpdateEnergySource now fin = .ok b →
      b.models.length = a.models.length := by
    intro a b now fin hab
    rcases UpdateEnergySource_models a b now fin hab with ⟨hmod, -⟩ | ⟨hmod, -⟩
    · rw [hmod, List.length_map]
    · rw [hmod]
  rcases e with ⟨now, fin, a⟩
  cases a with
  | UpdateEnergySource => exact hU _ _ _ _ h
  | GetRemainingEnergy =>
    simp only [step, GetRemainingEnergy] at h
    cases hu : w.UpdateEnergySource now fin with
    | error x => rw [hu] at h; cases h
    | ok w1 =>
      rw [hu] at h
      simp only at h
      injection h with h
      subst h
      exact hU _ _ _ _ hu
  | ChangeState j ns => exact ChangeState_length _ _ _ _ _ _ h
  | CalcTxCurrentFromModel j p => exact CalcTxCurrentFromModel_length _ _ _ _ h
  | NotifyTxStart j p =>
    simp only [step, NotifyTxStart] at h
    cases hc : w.CalcTxCurrentFromModel j p with
    | error x => rw [hc] at h; cases h
    | ok w1 =>
      rw [hc] at h
      simp only at h
      rw [ChangeState_length _ _ _ _ _ _ h, CalcTxCurrentFromModel_length _ _ _ _ hc]
  | NotifyRxStart j => exact ChangeState_length _ _ _ _ _ _ h
  | NotifySleep j => exact ChangeState_length _ _ _ _ _ _ h
  | NotifyStandby j => exact ChangeState_length _ _ _ _ _ _ h

/-- What one call does to the model at position `i`, when that model is not depleted
afterwards: a transition of that model closes the interval that ends at the time of the
call and switches the mode; every other call leaves the durations, the mode and the time
stamp as they were. -/
theorem step_tracks (w w' : World) (e : Event) (i : Nat) (m m' : LoraRadioEnergyModel)
    (h : w.step e = .ok w') (hm : w.models[i]? = some m) (hm' : w'.models[i]? = some m')
    (hd : m'.m_energyDepleted = false) :
    m.m_energyDepleted = false ∧
    (∀ t newState, e.transition? i = some (t, newState) →
      (∀ s, m'.timeIn s
        = m.timeIn s + if s = m.m_currentState then t - m.m_lastStampTime else 0) ∧
      m'.m_currentState = newState ∧ m'.m_lastStampTime = t) ∧
    (e.transition? i = none → (∀ s, m'.timeIn s = m.timeIn s) ∧
      m'.m_currentState = m.m_currentState ∧ m'.m_lastStampTime = m.m_lastStampTime) := by
  have hC : ∀ (a : World) (x : LoraRadioEnergyModel) (j : Nat) (ns : Int),
      a.models[i]? = some x → a.ChangeState j ns e.now e.finished = .ok w' →
      x.m_energyDepleted = false ∧
      (∀ t newState, (if j = i then some (e.now, ns) else none) = some (t, newState) →
        (∀ s, m'.timeIn s
          = x.timeIn s + if s = x.m_currentState then t - x.m_lastStampTime else 0) ∧
        m'.m_currentState = newState ∧ m'.m_lastStampTime = t) ∧
      ((if j = i then some (e.now, ns) else none) = none → (∀ s, m'.timeIn s = x.timeIn s) ∧
        m'.m_currentState = x.m_currentState ∧ m'.m_lastStampTime = x.m_lastStampTime) := by
    intro a x j ns hx ha
    obtain ⟨h1, h2, h3⟩ := ChangeState_tracks a w' j ns e.now e.finished i x m' ha hx hm' hd
    refine ⟨h1, ?_, ?_⟩
    · intro t newState ht
      by_cases hji : j = i
      · rw [if_pos hji] at ht
        injection ht with ht
        injection ht with ht1 ht2
        subst ht1
        subst ht2
        exact h2 hji
      · rw [if_neg hji] at ht
        cases ht
    · intro hn
      by_cases hji : j = i
      · rw [if_pos hji] at hn
        cases hn
      · exact h3 hji
  rcases e with ⟨now, fin, a⟩
  cases a with
  | UpdateEnergySource =>
    obtain ⟨h1, h2, h3, h4⟩ := UpdateEnergySource_timeIn w w' now fin i m m' h hm hm'
    exact ⟨h4 hd, fun t ns ht => (by cases ht), fun _ => ⟨h1, h2, h3⟩⟩
  | GetRemainingEnergy =>
    simp only [step, GetRemainingEnergy] at h
    cases hu : w.UpdateEnergySource now fin with
    | error x => rw [hu] at h; cases h
    | ok w1 =>
      rw [hu] at h
      simp only at h
      injection h with h
      subst h
      obtain ⟨h1, h2, h3, h4⟩ := UpdateEnergySource_timeIn w w1 now fin i m m' hu hm hm'
      exact ⟨h4 hd, fun t ns ht => (by cases ht), fun _ => ⟨h1, h2, h3⟩⟩
  | ChangeState j ns => exact hC w m j ns hm h
  | CalcTxCurrentFromModel j p =>
    obtain ⟨h1, h2, h3, h4⟩ := CalcTxCurrentFromModel_tracks w w' j p i m m' h hm hm'
    exact ⟨h4 ▸ hd, fun t ns ht => (by cases ht), fun _ => ⟨h1, h2, h3⟩⟩
  | NotifyTxStart j p =>
    simp only [step, NotifyTxStart] at h
    cases hc : w.CalcTxCurrentFromModel j p with
    | error x => rw [hc] at h; cases h
    | ok w1 =>
      rw [hc] at h
      simp only at h
      have hlt : i < w1.models.length := by
        rw [CalcTxCurrentFromModel_length _ _ _ _ hc]
        exact getElem?_lt _ _ _ hm
      have hm1 : w1.models[i]? = some (w1.models.get ⟨i, hlt⟩) := List.getElem?_eq_getElem hlt
      obtain ⟨g1, g2, g3, g4⟩ :=
        CalcTxCurrentFromModel_tracks w w1 j p i m _ hc hm hm1
      obtain ⟨k1, k2, k3⟩ := hC w1 _ j TX hm1 h
      refine ⟨g4 ▸ k1, ?_, ?_⟩
      · intro t newState ht
        obtain ⟨a1, a2, a3⟩ := k2 t newState ht
        refine ⟨fun s => ?_, a2, a3⟩
        rw [a1 s, g1 s, g2, g3]
      · intro hn
        obtain ⟨a1, a2, a3⟩ := k3 hn
        exact ⟨fun s => by rw [a1 s, g1 s], a2.trans g2, a3.trans g3⟩
  | NotifyRxStart j => exact hC w m j RX hm h
  | NotifySleep j => exact hC w m j SLEEP hm h
  | NotifyStandby j => exact hC w m j STANDBY hm h

/-- The duration accumulators of a model that is not depleted at the end of a run have grown
by the total length of the closed intervals of the run. -/
theorem run_tracks (i : Nat) (es : List Event) : ∀ (w w' : World)
    (m m' : LoraRadioEnergyModel), w.run es = .ok w' → w.models[i]? = some m →
    w'.models[i]? = some m' → m'.m_energyDepleted = false →
    ∀ s, m'.timeIn s
      = m.timeIn s + spentIn s m.m_currentState m.m_lastStampTime (transitionsOf i es) := by
  induction es with
  | nil =>
    intro w w' m m' h hm hm' _ s
    simp only [run] at h
    injection h with h
    subst h
    rw [hm] at hm'
    injection hm' with hm'
    subst hm'
    simp [transitionsOf, spentIn]
  | cons e es ih =>
    intro w w' m m' h hm hm' hd s
    simp only [run] at h
    cases hs : w.step e with
    | error x => rw [hs] at h; cases h
    | ok w1 =>
      rw [hs] at h
      simp only at h
      have hlt : i < w1.models.length := by
        rw [step_length w w1 e hs]
        exact getElem?_lt _ _ _ hm
      have hm1 : w1.models[i]? = some (w1.models.get ⟨i, hlt⟩) := List.getElem?_eq_getElem hlt
      generalize w1.models.get ⟨i, hlt⟩ = m1 at hm1
      have hd1 : m1.m_energyDepleted = false := by
        cases hx : m1.m_energyDepleted with
        | false => rfl
        | true =>
          obtain ⟨x', hx', hdx⟩ := run_depleted_persists es w1 w' i m1 h hm1 hx
          rw [hm'] at hx'
          injection hx' with hx'
          subst hx'
          rw [hd] at hdx
          cases hdx
      obtain ⟨-, k2, k3⟩ := step_tracks w w1 e i m m1 hs hm hm1 hd1
      have hrest := ih w1 w' m1 m' h hm1 hm' hd s
      cases ht : e.transition? i with
      | none =>
        obtain ⟨a1, a2, a3⟩ := k3 ht
        have : transitionsOf i (e :: es) = transitionsOf i es := by
          simp [transitionsOf, List.filterMap_cons, ht]
        rw [this, hrest, a1 s, a2, a3]
      | some tr =>
        obtain ⟨t, newState⟩ := tr
        obtain ⟨a1, a2, a3⟩ := k2 t newState ht
        have : transitionsOf i (e :: es) = (t, newState) :: transitionsOf i es := by
          simp [transitionsOf, List.filterMap_cons, ht]
        rw [this, hrest, a1 s, a2, a3]
        simp only [spentIn]
        ring

theorem testWorldAt3_valid : ∀ m ∈ testWorldAt3.models, isMode m.m_currentState := by
  intro m hm
  simp only [testWorldAt3, List.mem_singleton] at hm
  subst hm
  exact Or.inr (Or.inr (Or.inr rfl))

theorem testWorldAt3_closing : testWorldAt3.step closingCall = .ok testWorldAtStop := by
  simp only [closingCall, step, testWorldAt3_standby]

end TrackLemmas

/-! ## Further lemmas on the consumption model -/

section SpanLemmas

open World LoraRadioEnergyModel InterpolatedLoraConsumptionModel

/-- The loop of `CalcTxCurrent` for a power of at most 20 dBm ends at an index of at most
2. -/
theorem scanIndex_le_two (p : ℚ) (hp : p ≤ 20) :
    (p ≤ 13 ∧ scanIndex p 0 = .ok 0) ∨ (13 < p ∧ p ≤ 17 ∧ scanIndex p 0 = .ok 1) ∨
      (17 < p ∧ scanIndex p 0 = .ok 2) := by
  by_cases h13 : p ≤ 13
  · exact Or.inl ⟨h13, scanIndex_zero p h13⟩
  · have h13' : 13 < p := not_le.mp h13
    by_cases h17 : p ≤ 17
    · exact Or.inr (Or.inl ⟨h13', h17, by rw [scanIndex_zero_gt p h13', scanIndex_one p h17]⟩)
    · have h17' : 17 < p := not_le.mp h17
      exact Or.inr (Or.inr ⟨h17', by
        rw [scanIndex_zero_gt p h13', scanIndex_one_gt p h17', scanIndex_two p hp]⟩)

/-- From -3.8 dBm to 20 dBm the current that `CalcTxCurrent` returns is not negative. -/
theorem CalcTxCurrent_nonneg (p c : ℚ) (hlo : -19 / 5 ≤ p) (h : CalcTxCurrent p = .ok c) :
    0 ≤ c := by
  by_cases h13 : p ≤ 13
  · rw [CalcTxCurrent_low p h13] at h
    injection h with h
    rw [← h]
    have : (0 : ℚ) ≤ 18 + (28 - 18) / (13 - 7) * (p - 7) := by linarith
    positivity
  · have h13' : 13 < p := not_le.mp h13
    by_cases h17 : p ≤ 17
    · rw [CalcTxCurrent_mid p h13' h17] at h
      injection h with h
      rw [← h]
      have : (0 : ℚ) ≤ 28 + (90 - 28) / (17 - 13) * (p - 13) := by linarith
      positivity
    · have h17' : 17 < p := not_le.mp h17
      by_cases h20 : p ≤ 20
      · rw [CalcTxCurrent_high p h17' h20] at h
        injection h with h
        rw [← h]
        have : (0 : ℚ) ≤ 90 + (125 - 90) / (20 - 17) * (p - 17) := by linarith
        positivity
      · rw [CalcTxCurrent_above p (not_le.mp h20)] at h
        cases h

theorem testWorld_txStart_low :
    testWorld.NotifyTxStart 0 (-10) 0 false = .ok gainWorldAt0 := by
  have hc : CalcTxCurrent (-10) = .ok (-31 / 3000) := by
    rw [CalcTxCurrent_low (-10) (by norm_num)]
    norm_num
  have h1 : testWorld.CalcTxCurrentFromModel 0 (-10)
      = .ok { testWorld with models := [{ testModel with m_txCurrentA := -31 / 3000 }] } := by
    simp [World.CalcTxCurrentFromModel, LoraRadioEnergyModel.CalcTxCurrentFromModel,
      LoraConsumptionModel.CalcTxCurrent, hc, testWorld, install, testModel,
      LoraRadioEnergyModel.new]
  simp only [NotifyTxStart, h1]
  norm_num [testWorld, gainWorldAt0, install, testSource, testModel,
    ChangeState, closeInterval, UpdateEnergySource, CalculateRemaining, CalculateTotalCurrent,
    LoraEnergySource.new, LoraRadioEnergyModel.new,
    DoGetCurrentA, SLEEP, TX, RX, STANDBY, Time.IsPositive, Time.GetNanoSeconds,
    Time.GetSeconds, LoraEnergySource.GetSupplyVoltage, LoraEnergySource.deduct,
    LoraEnergySource.energyToDecreaseJ, NotifyEnergyChanged, Simulator.Cancel,
    Simulator.Schedule, HandleEnergyDepletion, HandleEnergyRecharged, HandleEnergyChanged,
    SetLoraPhyState]

theorem gainWorldAt0_refresh :
    gainWorldAt0.UpdateEnergySource 1000000000 false = .ok gainWorldAt1 := by
  norm_num [gainWorldAt0, gainWorldAt1, testSource, testModel,
    UpdateEnergySource, CalculateRemaining, CalculateTotalCurrent,
    LoraEnergySource.new, LoraRadioEnergyModel.new,
    DoGetCurrentA, SLEEP, TX, RX, STANDBY, Time.IsPositive, Time.GetNanoSeconds,
    Time.GetSeconds, LoraEnergySource.GetSupplyVoltage, LoraEnergySource.deduct,
    LoraEnergySource.energyToDecreaseJ, NotifyEnergyChanged, Simulator.Cancel,
    Simulator.Schedule, HandleEnergyDepletion, HandleEnergyRecharged, HandleEnergyChanged]

end SpanLemmas

/-! ## Lemmas on the refresh that `ChangeState` triggers -/

section PollLemmas

open World LoraRadioEnergyModel InterpolatedLoraConsumptionModel

/-- The current that `DoGetCurrentA` returns depends on the mode and the four currents
only. -/
theorem DoGetCurrentA_congr (m m2 : LoraRadioEnergyModel)
    (hs : m2.m_currentState = m.m_currentState) (htx : m2.m_txCurrentA = m.m_txCurrentA)
    (hrx : m2.m_rxCurrentA = m.m_rxCurrentA)
    (hsb : m2.m_standbyCurrentA = m.m_standbyCurrentA)
    (hsl : m2.m_sleepCurrentA = m.m_sleepCurrentA) : m2.DoGetCurrentA = m.DoGetCurrentA := by
  simp only [DoGetCurrentA, hs, htx, hrx, hsb, hsl]

/-- When the simulation is finished, `ChangeState` leaves the source, the scheduler and the
notifications as they were. -/
theorem ChangeState_finished (w w' : World) (i : Nat) (newState now : Int)
    (h : w.ChangeState i newState now true = .ok w') :
    w'.source = w.source ∧ w'.sim = w.sim ∧ w'.emitted = w.emitted := by
  obtain ⟨m, m2, c, w1, -, -, -, -, hu, hs, hsim, hem, -⟩ :=
    ChangeState_cases w w' i newState now true h
  rw [UpdateEnergySource_finished] at hu
  injection hu with hu
  subst hu
  exact ⟨hs, hsim, hem⟩

/-- The refresh that `ChangeState` triggers on a world with one model, while the simulation
is not finished, deducts the energy of the current of the mode that ends. -/
theorem ChangeState_single_source (w w' : World) (m : LoraRadioEnergyModel)
    (newState now : Int) (c : ℚ) (hsingle : w.models = [m]) (hc : m.DoGetCurrentA = .ok c)
    (h : w.ChangeState 0 newState now false = .ok w') :
    w'.source.m_remainingEnergyJ
      = (w.source.deduct (w.source.energyToDecreaseJ c
          (now - w.source.m_lastUpdateTime))).m_remainingEnergyJ ∧
    w'.source.m_lastUpdateTime = now ∧
    w'.source.m_initialEnergyJ = w.source.m_initialEnergyJ ∧
    w'.source.m_supplyVoltageV = w.source.m_supplyVoltageV := by
  obtain ⟨m0, m2, c0, w1, hm0, -, -, hacc, hu, hs, -, -, -⟩ :=
    ChangeState_cases w w' 0 newState now false h
  rw [hsingle] at hm0
  simp only [List.getElem?_cons_zero] at hm0
  injection hm0 with hm0
  subst hm0
  obtain ⟨tot, htot, hrem, -, hv, hinit, hlast, -, -⟩ := UpdateEnergySource_source _ w1 now hu
  have h2 : m2.DoGetCurrentA = .ok c := by
    rw [DoGetCurrentA_congr m m2 hacc.state hacc.tx hacc.rx hacc.standby hacc.sleep, hc]
  have htot' : tot = c := by
    simp only [hsingle, List.set_cons_zero, CalculateTotalCurrent, h2, zero_add] at htot
    injection htot with htot
    exact htot.symm
  subst htot'
  rw [hs]
  exact ⟨hrem, hlast, hinit, hv⟩

/-- The value left by `deduct` when the remaining energy exceeds the energy to deduct. -/
theorem deduct_of_lt (s : LoraEnergySource) (c : ℚ) (d : Int)
    (h : s.m_remainingEnergyJ > c * s.GetSupplyVoltage * Time.GetSeconds d) :
    (s.deduct (s.energyToDecreaseJ c d)).m_remainingEnergyJ
      = s.m_remainingEnergyJ - c * s.GetSupplyVoltage * Time.GetSeconds d := by
  have he : s.energyToDecreaseJ c d = c * s.GetSupplyVoltage * Time.GetSeconds d := by
    simp only [LoraEnergySource.energyToDecreaseJ, LoraEnergySource.GetSupplyVoltage,
      Time.GetSeconds, Time.GetNanoSeconds]
    ring
  rw [he]
  simp only [LoraEnergySource.deduct, if_neg (not_le.mpr h)]

theorem testWorldAt0_changeState_RX :
    testWorldAt0.ChangeState 0 RX 1000000000 false = .ok testWorldAt1 := testWorldAt0_rxStart

end PollLemmas

/-! ## The refresh inside a call -/

section StepLemmas

open World LoraRadioEnergyModel

/-- The refresh inside `ChangeState`: the world on which it runs has the scheduler, the
source and the notifications of the world of the call, and a property of the models that
the steps of `ChangeState` keep holds on it and on the result. -/
theorem ChangeState_refresh (Q : LoraRadioEnergyModel → Prop) (w w' : World) (i : Nat)
    (newState now : Int) (finished : Bool)
    (h : w.ChangeState i newState now finished = .ok w')
    (hAcc : ∀ (m m2 : LoraRadioEnergyModel) (t : Int) (v c : ℚ), Q m →
      Accounted m m2 t v c → Q m2)
    (hDep : ∀ m, Q m → Q (HandleEnergyDepletion m))
    (hSet : ∀ m, Q m → Q (m.SetLoraPhyState newState))
    (hQ : ∀ m ∈ w.models, Q m) :
    (∀ m ∈ w'.models, Q m) ∧
    ∃ w0 w1 : World, w0.sim = w.sim ∧ w0.source = w.source ∧ w0.emitted = w.emitted ∧
      (∀ m ∈ w0.models, Q m) ∧ w0.UpdateEnergySource now finished = .ok w1 ∧
      w'.sim = w1.sim ∧ w'.source = w1.source ∧ w'.emitted = w1.emitted := by
  refine ⟨ChangeState_forall Q Q w w' i newState now finished h (fun _ hm => hm)
    (fun m m2 c hm hacc => hAcc m m2 _ _ c hm hacc) hDep hSet hQ, ?_⟩
  obtain ⟨m, m2, c, w1, hm, -, -, hacc, hu, hs, hsim, hem, -⟩ :=
    ChangeState_cases w w' i newState now finished h
  refine ⟨{ w with models := w.models.set i m2 }, w1, rfl, rfl, rfl, ?_, hu, hsim, hs, hem⟩
  intro x hx
  rcases List.mem_or_eq_of_mem_set hx with hx | hx
  · exact hQ x hx
  · rw [hx]
    exact hAcc m m2 _ _ c (hQ m (mem_of_getElem? _ _ _ hm)) hacc

/-- Every call but `CalcTxCurrentFromModel` makes one refresh of the source, on a world with
the scheduler, the source and the notifications of the world of the call; the result has
the scheduler, the source and the notifications that the refresh leaves. A property of the
models that the steps of the call keep holds on the world of the refresh and on the
result. -/
theorem step_refresh (Q : LoraRadioEnergyModel → Prop) (w w' : World) (e : Event)
    (h : w.step e = .ok w')
    (hAcc : ∀ (m m2 : LoraRadioEnergyModel) (t : Int) (v c : ℚ), Q m →
      Accounted m m2 t v c → Q m2)
    (hDep : ∀ m, Q m → Q (HandleEnergyDepletion m))
    (hSet : ∀ (m : LoraRadioEnergyModel) (i : Nat) (t : Int) (ns : EndDeviceLoraPhy.State),
      e.transition? i = some (t, ns) → Q m → Q (m.SetLoraPhyState ns))
    (hTx : ∀ (m : LoraRadioEnergyModel) (i : Nat) (p c : ℚ) (cm : LoraConsumptionModel),
      (e.action = Action.CalcTxCurrentFromModel i p ∨ e.action = Action.NotifyTxStart i p) →
      m.m_consumptionModel = some cm → cm.CalcTxCurrent p = .ok c → Q m →
      Q { m with m_txCurrentA := c })
    (hQ : ∀ m ∈ w.models, Q m) :
    (∀ m ∈ w'.models, Q m) ∧
    ((w'.sim = w.sim ∧ w'.source = w.source ∧ w'.emitted = w.emitted ∧
        ∃ i p, e.action = Action.CalcTxCurrentFromModel i p) ∨
      ∃ w0 w1 : World, w0.sim = w.sim ∧ w0.source = w.source ∧ w0.emitted = w.emitted ∧
        (∀ m ∈ w0.models, Q m) ∧ w0.UpdateEnergySource e.now e.finished = .ok w1 ∧
        w'.sim = w1.sim ∧ w'.source = w1.source ∧ w'.emitted = w1.emitted ∧
        ∀ i p, e.action ≠ Action.CalcTxCurrentFromModel i p) := by
  rcases e with ⟨now, fin, act⟩
  have hCalc : ∀ (i : Nat) (p : ℚ) (w1 : World),
      (act = Action.CalcTxCurrentFromModel i p ∨ act = Action.NotifyTxStart i p) →
      w.CalcTxCurrentFromModel i p = .ok w1 →
      (∀ m ∈ w1.models, Q m) ∧ w1.sim = w.sim ∧ w1.source = w.source ∧
        w1.emitted = w.emitted := by
    intro i p w1 ha hc
    obtain ⟨m, cm, c, hm, hcm, hcur, hw1⟩ := CalcTxCurrentFromModel_cases w w1 i p hc
    subst hw1
    refine ⟨?_, rfl, rfl, rfl⟩
    intro x hx
    rcases List.mem_or_eq_of_mem_set hx with hx | hx
    · exact hQ x hx
    · rw [hx]
      exact hTx m i p c cm ha hcm hcur (hQ m (mem_of_getElem? _ _ _ hm))
  have hChange : ∀ (a : World) (i : Nat) (ns : Int), a.sim = w.sim → a.source = w.source →
      a.emitted = w.emitted → (∀ m ∈ a.models, Q m) →
      Event.transition? i ⟨now, fin, act⟩ = some (now, ns) →
      (∀ j p, act ≠ Action.CalcTxCurrentFromModel j p) →
      a.ChangeState i ns now fin = .ok w' →
      (∀ m ∈ w'.models, Q m) ∧
      ((w'.sim = w.sim ∧ w'.source = w.source ∧ w'.emitted = w.emitted ∧
          ∃ i p, act = Action.CalcTxCurrentFromModel i p) ∨
        ∃ w0 w1 : World, w0.sim = w.sim ∧ w0.source = w.source ∧ w0.emitted = w.emitted ∧
          (∀ m ∈ w0.models, Q m) ∧ w0.UpdateEnergySource now fin = .ok w1 ∧
          w'.sim = w1.sim ∧ w'.source = w1.source ∧ w'.emitted = w1.emitted ∧
          ∀ i p, act ≠ Action.CalcTxCurrentFromModel i p) := by
    intro a i ns hsim hsrc hem hQa htr hne ha
    obtain ⟨h1, w0, w1, g1, g2, g3, g4, g5, g6, g7, g8⟩ :=
      ChangeState_refresh Q a w' i ns now fin ha hAcc hDep
        (fun m hm => hSet m i now ns htr hm) hQa
    exact ⟨h1, Or.inr ⟨w0, w1, g1.trans hsim, g2.trans hsrc, g3.trans hem, g4, g5, g6, g7, g8,
      hne⟩⟩
  cases act with
  | UpdateEnergySource =>
    refine ⟨UpdateEnergySource_forall Q w w' _ _ h hDep hQ,
      Or.inr ⟨w, w', rfl, rfl, rfl, hQ, h, rfl, rfl, rfl, fun i p hx => by cases hx⟩⟩
  | GetRemainingEnergy =>
    simp only [step, GetRemainingEnergy] at h
    cases hu : w.UpdateEnergySource now fin with
    | error x => rw [hu] at h; cases h
    | ok w1 =>
      rw [hu] at h
      injection h with h
      subst h
      refine ⟨UpdateEnergySource_forall Q w w1 _ _ hu hDep hQ,
        Or.inr ⟨w, w1, rfl, rfl, rfl, hQ, hu, rfl, rfl, rfl, fun i p hx => by cases hx⟩⟩
  | ChangeState i newState =>
    exact hChange w i newState rfl rfl rfl hQ (by simp [Event.transition?])
      (fun j p hx => by cases hx) h
  | CalcTxCurrentFromModel i p =>
    obtain ⟨h1, h2, h3, h4⟩ := hCalc i p w' (Or.inl rfl) h
    exact ⟨h1, Or.inl ⟨h2, h3, h4, i, p, rfl⟩⟩
  | NotifyTxStart i p =>
    simp only [step, NotifyTxStart] at h
    cases hc : w.CalcTxCurrentFromModel i p with
    | error x => rw [hc] at h; cases h
    | ok w1 =>
      rw [hc] at h
      obtain ⟨h1, h2, h3, h4⟩ := hCalc i p w1 (Or.inr rfl) hc
      exact hChange w1 i TX h2 h3 h4 h1 (by simp [Event.transition?])
        (fun j p hx => by cases hx) h
  | NotifyRxStart i =>
    exact hChange w i RX rfl rfl rfl hQ (by simp [Event.transition?])
      (fun j p hx => by cases hx) h
  | NotifySleep i =>
    exact hChange w i SLEEP rfl rfl rfl hQ (by simp [Event.transition?])
      (fun j p hx => by cases hx) h
  | NotifyStandby i =>
    exact hChange w i STANDBY rfl rfl rfl hQ (by simp [Event.transition?])
      (fun j p hx => by cases hx) h

end StepLemmas

/-! ## Lemmas on the pending refresh events -/

section PendingLemmas

open World LoraRadioEnergyModel

theorem OneRefresh_install (source : LoraEnergySource) (models : List LoraRadioEnergyModel) :
    (install source models).OneRefresh := Or.inl rfl

theorem OneRefresh_congr (a b : World) (hsim : b.sim = a.sim) (hsrc : b.source = a.source)
    (h : a.OneRefresh) : b.OneRefresh := by
  simp only [OneRefresh, pendingRefreshes] at h ⊢
  rw [hsim, hsrc]
  exact h

theorem OneRefresh_length (w : World) (h : w.OneRefresh) : w.pendingRefreshes.length ≤ 1 := by
  rcases h with h | ⟨uid, due, h, -, -⟩ <;> rw [h] <;> simp

/-- A refresh made while the simulation is not finished, on a world with at most one pending
refresh event, leaves the event it schedules and no other. -/
theorem UpdateEnergySource_oneRefresh (w w' : World) (now : Int) (hinv : w.OneRefresh)
    (h : w.UpdateEnergySource now false = .ok w') :
    w'.pendingRefreshes = [(w.sim.nextUid, now + w.source.m_energyUpdateInterval)] ∧
    w'.source.m_energyUpdateEvent = some w.sim.nextUid ∧
    w'.sim.nextUid = w.sim.nextUid + 1 ∧ w'.OneRefresh := by
  obtain ⟨hp, hn⟩ := UpdateEnergySource_pending w w' now h
  obtain ⟨tot, -, -, -, -, -, -, -, hev⟩ := UpdateEnergySource_source w w' now h
  have hc : (w.sim.Cancel w.source.m_energyUpdateEvent).pending = [] := by
    rcases hinv with h0 | ⟨uid, due, h1, hh, -⟩
    · simp only [pendingRefreshes] at h0
      cases hx : w.source.m_energyUpdateEvent with
      | none => simp [Simulator.Cancel, h0]
      | some u => simp [Simulator.Cancel, h0]
    · simp only [pendingRefreshes] at h1
      simp [Simulator.Cancel, hh, h1]
  have hpend : w'.pendingRefreshes
      = [(w.sim.nextUid, now + w.source.m_energyUpdateInterval)] := by
    simp only [pendingRefreshes]
    rw [hp, hc, List.nil_append]
  refine ⟨hpend, hev, hn, Or.inr ⟨_, _, hpend, hev, ?_⟩⟩
  rw [hn]
  exact Nat.lt_succ_self _

/-- Every call keeps at most one refresh event pending and keeps the update interval; a call
that refreshes while the simulation is not finished leaves the event scheduled for the time
of the call plus the update interval. -/
theorem step_oneRefresh (w w' : World) (e : Event) (hinv : w.OneRefresh)
    (h : w.step e = .ok w') :
    w'.OneRefresh ∧
    w'.source.m_energyUpdateInterval = w.source.m_energyUpdateInterval ∧
    (e.finished = false → (∀ i p, e.action ≠ Action.CalcTxCurrentFromModel i p) →
      w'.pendingRefreshes = [(w.sim.nextUid, e.now + w.source.m_energyUpdateInterval)] ∧
      w'.source.m_energyUpdateEvent = some w.sim.nextUid) := by
  obtain ⟨-, hcase⟩ := step_refresh (fun _ => True) w w' e h (fun _ _ _ _ _ _ _ => trivial)
    (fun _ _ => trivial) (fun _ _ _ _ _ _ => trivial) (fun _ _ _ _ _ _ _ _ _ => trivial)
    (fun _ _ => trivial)
  rcases hcase with ⟨hsim, hsrc, -, i, p, ha⟩ | ⟨w0, w1, hsim0, hsrc0, -, -, hu, hsim, hsrc, -, -⟩
  · refine ⟨OneRefresh_congr w w' hsim hsrc hinv, by rw [hsrc], ?_⟩
    intro _ hne
    exact absurd ha (hne i p)
  · have hinv0 : w0.OneRefresh := OneRefresh_congr w w0 hsim0 hsrc0 hinv
    cases hf : e.finished with
    | true =>
      rw [hf, UpdateEnergySource_finished] at hu
      injection hu with hu
      subst hu
      refine ⟨OneRefresh_congr w w' (hsim.trans hsim0) (hsrc.trans hsrc0) hinv,
        by rw [hsrc, hsrc0], ?_⟩
      intro hx
      cases hx
    | false =>
      rw [hf] at hu
      obtain ⟨g1, g2, -, g4⟩ := UpdateEnergySource_oneRefresh w0 w1 e.now hinv0 hu
      obtain ⟨tot, -, -, -, -, -, -, hint, -⟩ := UpdateEnergySource_source w0 w1 e.now hu
      refine ⟨OneRefresh_congr w1 w' hsim hsrc g4, by rw [hsrc, hint, hsrc0], ?_⟩
      intro _ _
      simp only [pendingRefreshes] at g1 ⊢
      rw [hsim, hsrc, g1, g2, hsim0, hsrc0]
      exact ⟨rfl, rfl⟩

theorem run_oneRefresh (es : List Event) : ∀ (w w' : World), w.OneRefresh →
    w.run es = .ok w' →
    w'.OneRefresh ∧ w'.source.m_energyUpdateInterval = w.source.m_energyUpdateInterval := by
  induction es with
  | nil =>
    intro w w' hinv h
    simp only [run] at h
    injection h with h
    subst h
    exact ⟨hinv, rfl⟩
  | cons e es ih =>
    intro w w' hinv h
    simp only [run] at h
    cases hs : w.step e with
    | error x => rw [hs] at h; cases h
    | ok w1 =>
      rw [hs] at h
      obtain ⟨h1, h2, -⟩ := step_oneRefresh w w1 e hinv hs
      obtain ⟨k1, k2⟩ := ih w1 w' h1 h
      exact ⟨k1, k2.trans h2⟩

end PendingLemmas

/-! ## Lemmas on the validity of the modes -/

section ValidLemmas

open World LoraRadioEnergyModel InterpolatedLoraConsumptionModel

theorem UpdateEnergySource_not_fatal (w : World) (now : Int) (finished : Bool)
    (hvalid : ∀ m ∈ w.models, isMode m.m_currentState) :
    w.UpdateEnergySource now finished ≠ .error Error.fatalError := by
  intro hf
  cases finished with
  | true => rw [UpdateEnergySource_finished] at hf; cases hf
  | false =>
    have hlt := (UpdateEnergySource_error_iff w now hvalid).mp ⟨_, hf⟩
    rw [UpdateEnergySource_rejected w now hvalid hlt] at hf
    cases hf

theorem ChangeState_not_fatal (w : World) (i : Nat) (newState now : Int) (finished : Bool)
    (hvalid : ∀ m ∈ w.models, isMode m.m_currentState) :
    w.ChangeState i newState now finished ≠ .error Error.fatalError := by
  intro hf
  cases hm : w.models[i]? with
  | none => simp [ChangeState, hm] at hf
  | some m =>
    have hex := (ChangeState_error_iff w i newState now finished m hm hvalid).mp ⟨_, hf⟩
    by_cases hst : now < m.m_lastStampTime
    · rw [ChangeState_rejected_stamp w i newState now finished m hm hst] at hf
      cases hf
    · rcases hex with h1 | ⟨hfin, hlu⟩
      · exact hst h1
      · subst hfin
        rw [ChangeState_rejected_source w i newState now m hm hvalid (not_lt.mp hst) hlu] at hf
        cases hf

theorem CalcTxCurrentFromModel_not_fatal (w : World) (i : Nat) (p : ℚ) :
    w.CalcTxCurrentFromModel i p ≠ .error Error.fatalError := by
  intro hf
  cases hm : w.models[i]? with
  | none => simp [World.CalcTxCurrentFromModel, hm] at hf
  | some m =>
    cases hcm : m.m_consumptionModel with
    | none =>
      simp [World.CalcTxCurrentFromModel, hm, LoraRadioEnergyModel.CalcTxCurrentFromModel,
        hcm] at hf
    | some cm =>
      cases cm
      by_cases hp : p ≤ 20
      · obtain ⟨c, hc⟩ := InterpolatedLoraConsumptionModel.CalcTxCurrent_ok p hp
        simp [World.CalcTxCurrentFromModel, hm, LoraRadioEnergyModel.CalcTxCurrentFromModel,
          hcm, LoraConsumptionModel.CalcTxCurrent, hc] at hf
      · have hc := CalcTxCurrent_above p (not_le.mp hp)
        simp [World.CalcTxCurrentFromModel, hm, LoraRadioEnergyModel.CalcTxCurrentFromModel,
          hcm, LoraConsumptionModel.CalcTxCurrent, hc] at hf

/-- With every model in one of the four modes, no call ends in the fatal error of an invalid
state. -/
theorem step_not_fatal (w : World) (e : Event)
    (hvalid : ∀ m ∈ w.models, isMode m.m_currentState) :
    w.step e ≠ .error Error.fatalError := by
  rcases e with ⟨now, fin, act⟩
  cases act with
  | UpdateEnergySource => exact UpdateEnergySource_not_fatal w now fin hvalid
  | GetRemainingEnergy =>
    intro hf
    simp only [step, GetRemainingEnergy] at hf
    cases hu : w.UpdateEnergySource now fin with
    | error x =>
      rw [hu] at hf
      injection hf with hf
      subst hf
      exact UpdateEnergySource_not_fatal w now fin hvalid hu
    | ok w1 => rw [hu] at hf; cases hf
  | ChangeState i newState => exact ChangeState_not_fatal w i newState now fin hvalid
  | CalcTxCurrentFromModel i p => exact CalcTxCurrentFromModel_not_fatal w i p
  | NotifyTxStart i p =>
    intro hf
    simp only [step, NotifyTxStart] at hf
    cases hc : w.CalcTxCurrentFromModel i p with
    | error x =>
      rw [hc] at hf
      injection hf with hf
      subst hf
      exact CalcTxCurrentFromModel_not_fatal w i p hc
    | ok w1 =>
      rw [hc] at hf
      exact ChangeState_not_fatal w1 i TX now fin
        (CalcTxCurrentFromModel_forall (fun m => isMode m.m_currentState) w w1 i p hc
          (fun _ _ hm => hm) hvalid) hf
  | NotifyRxStart i => exact ChangeState_not_fatal w i RX now fin hvalid
  | NotifySleep i => exact ChangeState_not_fatal w i SLEEP now fin hvalid
  | NotifyStandby i => exact ChangeState_not_fatal w i STANDBY now fin hvalid

/-- A refresh, a read or a notification of a listener keeps every model in one of the four
modes. -/
theorem step_valid (w w' : World) (e : Event) (he : e.isNotification ∨ e.isRefresh)
    (hvalid : ∀ m ∈ w.models, isMode m.m_currentState) (h : w.step e = .ok w') :
    ∀ m ∈ w'.models, isMode m.m_currentState := by
  refine (step_refresh (fun m => isMode m.m_currentState) w w' e h
    (fun m m2 _ _ _ hm hacc => by
      show isMode m2.m_currentState
      rw [hacc.state]
      exact hm)
    (fun _ hm => hm) ?_ (fun _ _ _ _ _ _ _ _ hm => hm) hvalid).1
  intro m i t ns htr _
  show isMode ns
  rcases e with ⟨now, fin, act⟩
  rcases he with ⟨j, ⟨p, ha⟩ | ha | ha | ha⟩ | ha | ha <;>
    simp only at ha <;> subst ha <;> simp only [Event.transition?] at htr
  · split_ifs at htr
    injection htr with htr
    injection htr with _ htr
    rw [← htr]
    exact Or.inl rfl
  · split_ifs at htr
    injection htr with htr
    injection htr with _ htr
    rw [← htr]
    exact Or.inr (Or.inl rfl)
  · split_ifs at htr
    injection htr with htr
    injection htr with _ htr
    rw [← htr]
    exact Or.inr (Or.inr (Or.inr rfl))
  · split_ifs at htr
    injection htr with htr
    injection htr with _ htr
    rw [← htr]
    exact Or.inr (Or.inr (Or.inl rfl))
  · cases htr
  · cases htr

theorem run_valid (es : List Event) : ∀ (w : World),
    (∀ e ∈ es, e.isNotification ∨ e.isRefresh) →
    (∀ m ∈ w.models, isMode m.m_currentState) →
    w.run es ≠ .error Error.fatalError ∧
      ∀ w', w.run es = .ok w' → ∀ m ∈ w'.models, isMode m.m_currentState := by
  induction es with
  | nil =>
    intro w _ hvalid
    refine ⟨by simp [run], ?_⟩
    intro w' h
    simp only [run] at h
    injection h with h
    subst h
    exact hvalid
  | cons e es ih =>
    intro w hes hvalid
    simp only [run]
    cases hs : w.step e with
    | error x =>
      refine ⟨?_, fun w' h => by cases h⟩
      intro hf
      injection hf with hf
      subst hf
      exact step_not_fatal w e hvalid hs
    | ok w1 =>
      exact ih w1 (fun e' he' => hes e' (List.mem_cons_of_mem _ he'))
        (step_valid w w1 e (hes e (List.mem_cons_self _ _)) hvalid hs)

end ValidLemmas

/-! ## Lemmas on a depleted source -/

section DepletedSourceLemmas

open World LoraRadioEnergyModel InterpolatedLoraConsumptionModel

theorem DoGetCurrentA_nonneg (m : LoraRadioEnergyModel) (c : ℚ) (hm : m.currentsNonneg)
    (h : m.DoGetCurrentA = .ok c) : 0 ≤ c := by
  obtain ⟨h1, h2, h3, h4⟩ := hm
  unfold DoGetCurrentA at h
  split_ifs at h <;> injection h with h <;> rw [← h] <;> assumption

theorem CalculateTotalCurrent_nonneg (ms : List LoraRadioEnergyModel) : ∀ (acc tot : ℚ),
    0 ≤ acc → (∀ m ∈ ms, m.currentsNonneg) → CalculateTotalCurrent acc ms = .ok tot →
    0 ≤ tot := by
  induction ms with
  | nil =>
    intro acc tot hacc _ h
    simp only [CalculateTotalCurrent] at h
    injection h with h
    rw [← h]
    exact hacc
  | cons m ms ih =>
    intro acc tot hacc hms h
    simp only [CalculateTotalCurrent] at h
    cases hc : m.DoGetCurrentA with
    | error x => rw [hc] at h; cases h
    | ok c =>
      rw [hc] at h
      have hc0 := DoGetCurrentA_nonneg m c (hms m (List.mem_cons_self _ _)) hc
      exact ih (acc + c) tot (by linarith) (fun x hx => hms x (List.mem_cons_of_mem _ hx)) h

/-- The value left by `deduct` stays under a non-negative bound when the energy to deduct is
not negative. -/
theorem deduct_le (s : LoraEnergySource) (e B : ℚ) (he : 0 ≤ e) (hB : 0 ≤ B)
    (h : s.m_remainingEnergyJ ≤ B) : (s.deduct e).m_remainingEnergyJ ≤ B := by
  simp only [LoraEnergySource.deduct]
  split_ifs <;> linarith

theorem energyToDecreaseJ_nonneg (s : LoraEnergySource) (tot : ℚ) (d : Int) (ht : 0 ≤ tot)
    (hv : 0 ≤ s.m_supplyVoltageV) (hd : 0 ≤ d) : 0 ≤ s.energyToDecreaseJ tot d := by
  simp only [LoraEnergySource.energyToDecreaseJ, Time.GetNanoSeconds]
  have : (0 : ℚ) ≤ (d : ℚ) := by exact_mod_cast hd
  positivity

theorem NeverRecharged_congr (a b : World) (hsrc : b.source = a.source)
    (hem : b.emitted = a.emitted) (h : a.NeverRecharged) : b.NeverRecharged := by
  simp only [NeverRecharged] at h ⊢
  rw [hsrc, hem]
  exact h

/-- A refresh with no negative current keeps a depleted source depleted. -/
theorem UpdateEnergySource_neverRecharged (w w' : World) (now : Int) (finished : Bool)
    (hinv : w.NeverRecharged) (hcur : ∀ m ∈ w.models, m.currentsNonneg)
    (h : w.UpdateEnergySource now finished = .ok w') : w'.NeverRecharged := by
  cases finished with
  | true =>
    rw [UpdateEnergySource_finished] at h
    injection h with h
    subst h
    exact hinv
  | false =>
    obtain ⟨h0, hlo, hlh, hv, hbound, hdep, hnr⟩ := hinv
    obtain ⟨hi, hl, hh, hcase⟩ := UpdateEnergySource_emitted w w' now false h
    obtain ⟨tot, htot, hrem, -, hv', -, -, -, -⟩ := UpdateEnergySource_source w w' now h
    obtain ⟨-, -, -, hle, -⟩ := UpdateEnergySource_cases w w' now h
    have htot0 : 0 ≤ tot := CalculateTotalCurrent_nonneg w.models 0 tot le_rfl hcur htot
    have hB : 0 ≤ w.source.m_highBatteryTh * w.source.m_initialEnergyJ :=
      mul_nonneg (le_of_lt (lt_trans hlo hlh)) h0
    have hmono : w.source.m_lowBatteryTh * w.source.m_initialEnergyJ
        ≤ w.source.m_highBatteryTh * w.source.m_initialEnergyJ :=
      mul_le_mul_of_nonneg_right (le_of_lt hlh) h0
    have hkeep : w.source.m_depleted = true →
        w'.source.m_remainingEnergyJ
          ≤ w.source.m_highBatteryTh * w.source.m_initialEnergyJ := by
      intro hd
      rw [hrem]
      exact deduct_le _ _ _
        (energyToDecreaseJ_nonneg _ _ _ htot0 hv (by omega)) hB (hbound hd)
    refine ⟨by rw [hi]; exact h0, by rw [hl]; exact hlo, by rw [hl, hh]; exact hlh,
      by rw [hv']; exact hv, ?_, ?_, ?_⟩
    · intro hd'
      rw [hh, hi]
      rcases hcase with ⟨-, -, -, -, hle'⟩ | ⟨-, -, hd2, -, -⟩ | ⟨-, hd2, -, -, -⟩ | ⟨-, hd2, -⟩
      · exact le_trans hle' hmono
      · rw [hd'] at hd2; cases hd2
      · exact hkeep (by rw [← hd2]; exact hd')
      · exact hkeep (by rw [← hd2]; exact hd')
    · intro hmem
      rcases hcase with ⟨-, -, hd2, -, -⟩ | ⟨-, hd1, -, -, hgt⟩ | ⟨hem, hd2, -, -, -⟩ |
        ⟨hem, hd2, -⟩
      · exact hd2
      · exact absurd (hkeep hd1) (not_le.mpr hgt)
      · rw [hem, List.mem_append] at hmem
        rcases hmem with hmem | hmem
        · rw [hd2]; exact hdep hmem
        · simp at hmem
      · rw [hem] at hmem
        rw [hd2]; exact hdep hmem
    · rcases hcase with ⟨hem, -, -, -, -⟩ | ⟨-, hd1, -, -, hgt⟩ | ⟨hem, -, -, -, -⟩ |
        ⟨hem, -, -⟩
      · rw [hem, List.mem_append]
        intro hx
        rcases hx with hx | hx
        · exact hnr hx
        · simp at hx
      · exact absurd (hkeep hd1) (not_le.mpr hgt)
      · rw [hem, List.mem_append]
        intro hx
        rcases hx with hx | hx
        · exact hnr hx
        · simp at hx
      · rw [hem]; exact hnr

/-- Every call that stores no negative transmit current keeps the currents non-negative and
keeps a depleted source depleted. -/
theorem step_neverRecharged (w w' : World) (e : Event) (he : e.keepsCurrents)
    (hinv : w.NeverRecharged) (hcur : ∀ m ∈ w.models, m.currentsNonneg)
    (h : w.step e = .ok w') :
    w'.NeverRecharged ∧ ∀ m ∈ w'.models, m.currentsNonneg := by
  obtain ⟨hcur', hcase⟩ := step_refresh LoraRadioEnergyModel.currentsNonneg w w' e h
    (fun m m2 _ _ _ hm hacc => by
      obtain ⟨h1, h2, h3, h4⟩ := hm
      exact ⟨by rw [hacc.tx]; exact h1, by rw [hacc.rx]; exact h2,
        by rw [hacc.standby]; exact h3, by rw [hacc.sleep]; exact h4⟩)
    (fun _ hm => hm) (fun _ _ _ _ _ hm => hm)
    (fun m i p c cm ha _ hc hm => by
      cases cm
      exact ⟨CalcTxCurrent_nonneg p c (he i p ha) hc, hm.2.1, hm.2.2.1, hm.2.2.2⟩)
    hcur
  refine ⟨?_, hcur'⟩
  rcases hcase with ⟨-, hsrc, hem, -⟩ | ⟨w0, w1, -, hsrc0, hem0, hcur0, hu, -, hsrc, hem, -⟩
  · exact NeverRecharged_congr w w' hsrc hem hinv
  · exact NeverRecharged_congr w1 w' hsrc hem
      (UpdateEnergySource_neverRecharged w0 w1 e.now e.finished
        (NeverRecharged_congr w w0 hsrc0 hem0 hinv) hcur0 hu)

theorem run_neverRecharged (es : List Event) : ∀ (w w' : World),
    (∀ e ∈ es, e.keepsCurrents) → w.NeverRecharged → (∀ m ∈ w.models, m.currentsNonneg) →
    w.run es = .ok w' → w'.NeverRecharged ∧ ∀ m ∈ w'.models, m.currentsNonneg := by
  induction es with
  | nil =>
    intro w w' _ hinv hcur h
    simp only [run] at h
    injection h with h
    subst h
    exact ⟨hinv, hcur⟩
  | cons e es ih =>
    intro w w' hes hinv hcur h
    simp only [run] at h
    cases hs : w.step e with
    | error x => rw [hs] at h; cases h
    | ok w1 =>
      rw [hs] at h
      obtain ⟨h1, h2⟩ := step_neverRecharged w w1 e (hes e (List.mem_cons_self _ _)) hinv hcur hs
      exact ih w1 w' (fun e' he' => hes e' (List.mem_cons_of_mem _ he')) h1 h2 h

end DepletedSourceLemmas

/-! ## Lemmas on the energy drawn from the source -/

section ConservationLemmas

open World LoraRadioEnergyModel InterpolatedLoraConsumptionModel

theorem testWorldAt0_refresh :
    testWorldAt0.UpdateEnergySource 1000000000 false = .ok overlapWorldAt1 := by
  norm_num [testWorldAt0, overlapWorldAt1, testSource, testModel,
    UpdateEnergySource, CalculateRemaining, CalculateTotalCurrent,
    LoraEnergySource.new, LoraRadioEnergyModel.new,
    DoGetCurrentA, SLEEP, TX, RX, STANDBY, Time.IsPositive, Time.GetNanoSeconds,
    Time.GetSeconds, LoraEnergySource.GetSupplyVoltage, LoraEnergySource.deduct,
    LoraEnergySource.energyToDecreaseJ, NotifyEnergyChanged, Simulator.Cancel,
    Simulator.Schedule, HandleEnergyDepletion, HandleEnergyRecharged, HandleEnergyChanged]

theorem overlapWorldAt1_txStart :
    overlapWorldAt1.NotifyTxStart 0 20 2000000000 false = .ok overlapWorldAt2 := by
  have hc : CalcTxCurrent 20 = .ok (1 / 8) := by
    rw [CalcTxCurrent_high 20 (by norm_num) (by norm_num)]
    norm_num
  have h1 : overlapWorldAt1.CalcTxCurrentFromModel 0 20
      = .ok { overlapWorldAt1 with
                models := [{ testModel with m_currentState := TX, m_txCurrentA := 1 / 8 }] } := by
    simp [World.CalcTxCurrentFromModel, LoraRadioEnergyModel.CalcTxCurrentFromModel,
      LoraConsumptionModel.CalcTxCurrent, hc, overlapWorldAt1, testWorldAt0, testModel,
      LoraRadioEnergyModel.new]
  simp only [NotifyTxStart, h1]
  norm_num [overlapWorldAt1, overlapWorldAt2, testSource, testModel,
    ChangeState, closeInterval, UpdateEnergySource, CalculateRemaining, CalculateTotalCurrent,
    LoraEnergySource.new, LoraRadioEnergyModel.new,
    DoGetCurrentA, SLEEP, TX, RX, STANDBY, Time.IsPositive, Time.GetNanoSeconds,
    Time.GetSeconds, LoraEnergySource.GetSupplyVoltage, LoraEnergySource.deduct,
    LoraEnergySource.energyToDecreaseJ, NotifyEnergyChanged, Simulator.Cancel,
    Simulator.Schedule, HandleEnergyDepletion, HandleEnergyRecharged, HandleEnergyChanged,
    SetLoraPhyState]

theorem singleton_of_getElem? {α : Type} (l : List α) (a : α) (hlen : l.length = 1)
    (h : l[0]? = some a) : l = [a] := by
  match l, hlen, h with
  | [x], _, h =>
    simp only [List.getElem?_cons_zero] at h
    injection h with h
    rw [h]

/-- A refresh in the scope of the conservation statement keeps the conservation equation. -/
theorem UpdateEnergySource_conserved (w w' : World) (now : Int) (hinv : w.Conserved)
    (hgt : ∀ m c, w.models = [m] → m.DoGetCurrentA = .ok c →
      w.source.m_remainingEnergyJ
        > c * w.source.GetSupplyVoltage * Time.GetSeconds (now - w.source.m_lastUpdateTime))
    (h : w.UpdateEnergySource now false = .ok w') : w'.Conserved := by
  obtain ⟨m, hm, heq⟩ := hinv
  obtain ⟨tot, htot, hrem, -, hv, hinit, hlast, -, -⟩ := UpdateEnergySource_source w w' now h
  rw [hm] at htot
  simp only [CalculateTotalCurrent] at htot
  cases hc : m.DoGetCurrentA with
  | error x => rw [hc] at htot; cases htot
  | ok c =>
    rw [hc] at htot
    simp only [zero_add] at htot
    injection htot with htot
    subst htot
    rw [deduct_of_lt _ _ _ (hgt m c hm hc)] at hrem
    have key := heq c hc
    have hfin : ∀ m' : LoraRadioEnergyModel, m'.DoGetCurrentA = m.DoGetCurrentA →
        m'.GetTotalEnergyConsumption = m.GetTotalEnergyConsumption →
        m'.m_lastStampTime = m.m_lastStampTime → w'.models = [m'] → w'.Conserved := by
      intro m' h1 h2 h3 h4
      refine ⟨m', h4, ?_⟩
      intro c' hc'
      rw [h1, hc] at hc'
      injection hc' with hc'
      subst hc'
      rw [h2, h3, hrem, hinit, hlast]
      simp only [LoraEnergySource.GetSupplyVoltage, hv, Time.GetSeconds] at key ⊢
      push_cast at key ⊢
      linear_combination key
    rcases UpdateEnergySource_models w w' now false h with ⟨hmod, -⟩ | ⟨hmod, -⟩
    · exact hfin (HandleEnergyDepletion m) rfl rfl rfl (by rw [hmod, hm]; rfl)
    · exact hfin m rfl rfl rfl (by rw [hmod, hm])

/-- `ChangeState` in the scope of the conservation statement: afterwards the energy drawn
from the source is the total energy of the model. -/
theorem ChangeState_conserved (w w' : World) (newState now : Int) (hinv : w.Conserved)
    (hgt : ∀ m c, w.models = [m] → m.DoGetCurrentA = .ok c →
      w.source.m_remainingEnergyJ
        > c * w.source.GetSupplyVoltage * Time.GetSeconds (now - w.source.m_lastUpdateTime))
    (h : w.ChangeState 0 newState now false = .ok w') :
    w'.Conserved ∧ ∃ m', w'.models = [m'] ∧
      w'.source.m_initialEnergyJ - w'.source.m_remainingEnergyJ
        = m'.GetTotalEnergyConsumption := by
  obtain ⟨m, hm, heq⟩ := hinv
  have hm0 : w.models[0]? = some m := by rw [hm]; rfl
  obtain ⟨m', c, hm', hacc, -, -⟩ := ChangeState_model w w' 0 newState now false m hm0 h
  have hc := hacc.current
  obtain ⟨hrem, hlast, hinit, hv⟩ := ChangeState_single_source w w' m newState now c hm hc h
  rw [deduct_of_lt _ _ _ (hgt m c hm hc)] at hrem
  have hlen : w'.models.length = 1 := by
    rw [ChangeState_length w w' 0 newState now false h, hm]
    rfl
  have hmod : w'.models = [m'] := singleton_of_getElem? _ _ hlen hm'
  have key := heq c hc
  have htotal : m'.m_totalEnergyConsumption = m.m_totalEnergyConsumption
      + Time.GetSeconds (now - m.m_lastStampTime) * c * w.source.m_supplyVoltageV := hacc.total
  have hstamp : m'.m_lastStampTime = now := hacc.stamp
  have hE : w'.source.m_initialEnergyJ - w'.source.m_remainingEnergyJ
      = m'.GetTotalEnergyConsumption := by
    rw [hrem, hinit]
    simp only [GetTotalEnergyConsumption, htotal]
    simp only [GetTotalEnergyConsumption, LoraEnergySource.GetSupplyVoltage,
      Time.GetSeconds] at key ⊢
    push_cast at key ⊢
    linear_combination key
  refine ⟨⟨m', hmod, ?_⟩, m', hmod, hE⟩
  intro c' _
  rw [hE, hlast, hstamp]
  simp [Time.GetSeconds]

/-- `CalcTxCurrentFromModel` on a model that is not in TX keeps the conservation equation
and the current that the model draws. -/
theorem CalcTxCurrentFromModel_conserved (w w1 : World) (p : ℚ) (hinv : w.Conserved)
    (hst : ∀ m, w.models = [m] → m.GetCurrentState ≠ TX)
    (h : w.CalcTxCurrentFromModel 0 p = .ok w1) :
    w1.Conserved ∧ w1.source = w.source ∧
      ∀ m1 c, w1.models = [m1] → m1.DoGetCurrentA = .ok c →
        ∃ m, w.models = [m] ∧ m.DoGetCurrentA = .ok c := by
  obtain ⟨m, hm, heq⟩ := hinv
  obtain ⟨m0, cm, c0, hm0, -, -, hw1⟩ := CalcTxCurrentFromModel_cases w w1 0 p h
  rw [hm] at hm0
  simp only [List.getElem?_cons_zero] at hm0
  injection hm0 with hm0
  subst hm0
  subst hw1
  have hne : m.m_currentState ≠ TX := hst m hm
  have hcur : ({ m with m_txCurrentA := c0 } : LoraRadioEnergyModel).DoGetCurrentA
      = m.DoGetCurrentA := by
    simp only [DoGetCurrentA, if_neg hne]
  have hmod : w.models.set 0 { m with m_txCurrentA := c0 } = [{ m with m_txCurrentA := c0 }] := by
    rw [hm]
    rfl
  refine ⟨⟨{ m with m_txCurrentA := c0 }, hmod, ?_⟩, rfl, ?_⟩
  · intro c hc
    rw [hcur] at hc
    exact heq c hc
  · intro m1 c h1 hc
    have h1' : w.models.set 0 { m with m_txCurrentA := c0 } = [m1] := h1
    rw [hmod] at h1'
    injection h1' with h1'
    subst h1'
    rw [hcur] at hc
    exact ⟨m, hm, hc⟩

/-- A call in the scope of the conservation statement keeps the conservation equation and
the initial energy; after a notification the energy drawn from the source is the total
energy of the model. -/
theorem step_conserved (w w' : World) (e : Event) (hinv : w.Conserved) (hsc : w.inScope e)
    (h : w.step e = .ok w') :
    w'.Conserved ∧ (e.isNotificationOf 0 → ∃ m', w'.models = [m'] ∧
      w'.source.m_initialEnergyJ - w'.source.m_remainingEnergyJ
        = m'.GetTotalEnergyConsumption) := by
  obtain ⟨hfin, hkind, hgt, hst⟩ := hsc
  rcases e with ⟨now, fin, act⟩
  simp only at hfin
  subst hfin
  rcases hkind with (ha | ha) | ⟨p, ha⟩ | ha | ha | ha <;> simp only at ha <;> subst ha
  · refine ⟨UpdateEnergySource_conserved w w' now hinv hgt h, ?_⟩
    rintro (⟨p, hx⟩ | hx | hx | hx) <;> cases hx
  · simp only [step, GetRemainingEnergy] at h
    cases hu : w.UpdateEnergySource now false with
    | error x => rw [hu] at h; cases h
    | ok w1 =>
      rw [hu] at h
      injection h with h
      subst h
      refine ⟨UpdateEnergySource_conserved w w1 now hinv hgt hu, ?_⟩
      rintro (⟨p, hx⟩ | hx | hx | hx) <;> cases hx
  · simp only [step, NotifyTxStart] at h
    cases hc : w.CalcTxCurrentFromModel 0 p with
    | error x => rw [hc] at h; cases h
    | ok w1 =>
      rw [hc] at h
      obtain ⟨hinv1, hsrc, hcur⟩ := CalcTxCurrentFromModel_conserved w w1 p hinv
        (fun m hm => hst m p hm rfl) hc
      have hgt1 : ∀ m c, w1.models = [m] → m.DoGetCurrentA = .ok c →
          w1.source.m_remainingEnergyJ
            > c * w1.source.GetSupplyVoltage
              * Time.GetSeconds (now - w1.source.m_lastUpdateTime) := by
        intro m1 c h1 hc1
        obtain ⟨m, hm, hcm⟩ := hcur m1 c h1 hc1
        rw [hsrc]
        exact hgt m c hm hcm
      obtain ⟨g1, g2⟩ := ChangeState_conserved w1 w' TX now hinv1 hgt1 h
      exact ⟨g1, fun _ => g2⟩
  · obtain ⟨g1, g2⟩ := ChangeState_conserved w w' RX now hinv hgt h
    exact ⟨g1, fun _ => g2⟩
  · obtain ⟨g1, g2⟩ := ChangeState_conserved w w' SLEEP now hinv hgt h
    exact ⟨g1, fun _ => g2⟩
  · obtain ⟨g1, g2⟩ := ChangeState_conserved w w' STANDBY now hinv hgt h
    exact ⟨g1, fun _ => g2⟩

/-- Every call keeps the initial energy of the source. -/
theorem step_initialEnergy (w w' : World) (e : Event) (h : w.step e = .ok w') :
    w'.source.m_initialEnergyJ = w.source.m_initialEnergyJ := by
  obtain ⟨-, hcase⟩ := step_refresh (fun _ => True) w w' e h (fun _ _ _ _ _ _ _ => trivial)
    (fun _ _ => trivial) (fun _ _ _ _ _ _ => trivial) (fun _ _ _ _ _ _ _ _ _ => trivial)
    (fun _ _ => trivial)
  rcases hcase with ⟨-, hsrc, -, -⟩ | ⟨w0, w1, -, hsrc0, -, -, hu, -, hsrc, -, -⟩
  · rw [hsrc]
  · rw [hsrc, (UpdateEnergySource_emitted w0 w1 e.now e.finished hu).1, hsrc0]

theorem run_conserved (es : List Event) : ∀ (w w' : World), w.Conserved →
    w.runInScope es → w.run es = .ok w' →
    w'.Conserved ∧ w'.source.m_initialEnergyJ = w.source.m_initialEnergyJ ∧
      ∀ e, es.getLast? = some e → e.isNotificationOf 0 → ∃ m', w'.models = [m'] ∧
        w'.source.m_initialEnergyJ - w'.source.m_remainingEnergyJ
          = m'.GetTotalEnergyConsumption := by
  induction es with
  | nil =>
    intro w w' hinv _ h
    simp only [run] at h
    injection h with h
    subst h
    exact ⟨hinv, rfl, fun e he => by simp at he⟩
  | cons e es ih =>
    intro w w' hinv hsc h
    simp only [run] at h
    cases hs : w.step e with
    | error x => rw [hs] at h; cases h
    | ok w1 =>
      rw [hs] at h
      obtain ⟨hsc0, hsc1⟩ := hsc
      obtain ⟨g1, g2⟩ := step_conserved w w1 e hinv hsc0 hs
      have hi1 := step_initialEnergy w w1 e hs
      obtain ⟨k1, k2, k3⟩ := ih w1 w' g1 (hsc1 w1 hs) h
      refine ⟨k1, k2.trans hi1, ?_⟩
      intro e' he' hn
      cases es with
      | nil =>
        simp only [List.getLast?_singleton] at he'
        injection he' with he'
        subst he'
        simp only [run] at h
        injection h with h
        subst h
        exact g2 hn
      | cons e2 es2 =>
        rw [List.getLast?_cons_cons] at he'
        exact k3 e' he' hn

/-- The scope of the conservation statement on a world whose one model and its current are
known. -/
theorem inScope_of_single (w : World) (e : Event) (m : LoraRadioEnergyModel) (c : ℚ)
    (hm : w.models = [m]) (hc : m.DoGetCurrentA = .ok c) (hfin : e.finished = false)
    (hkind : e.isRefresh ∨ e.isNotificationOf 0)
    (hgt : w.source.m_remainingEnergyJ
      > c * w.source.GetSupplyVoltage * Time.GetSeconds (e.now - w.source.m_lastUpdateTime))
    (hst : ∀ p, e.action = Action.NotifyTxStart 0 p → m.GetCurrentState ≠ TX) :
    w.inScope e := by
  refine ⟨hfin, hkind, ?_, ?_⟩
  · intro m' c' hm' hc'
    rw [hm] at hm'
    injection hm' with hm'
    subst hm'
    rw [hc] at hc'
    injection hc' with hc'
    subst hc'
    exact hgt
  · intro m' p hm' ha
    rw [hm] at hm'
    injection hm' with hm'
    subst hm'
    exact hst p ha

/-- The four calls of the test suite are in the scope of the conservation statement. -/
theorem testCalls_inScope : testWorld.runInScope testCalls := by
  refine ⟨?_, fun w1 h1 => ?_⟩
  · refine inScope_of_single _ _ testModel (18 / 10000000) rfl ?_ rfl
      (Or.inr (Or.inl ⟨14, rfl⟩)) ?_ ?_
    · simp [DoGetCurrentA, testModel, LoraRadioEnergyModel.new, SLEEP, TX, RX, STANDBY]
    · norm_num [testWorld, install, testSource, LoraEnergySource.new,
        LoraEnergySource.GetSupplyVoltage, Time.GetSeconds]
    · intro p _
      simp [GetCurrentState, testModel, LoraRadioEnergyModel.new, SLEEP, TX]
  have s0 : testWorld.step ⟨0, false, Action.NotifyTxStart 0 14⟩
      = .ok testWorldAt0 := testWorld_txStart
  rw [s0] at h1
  injection h1 with h1
  subst h1
  refine ⟨?_, fun w2 h2 => ?_⟩
  · refine inScope_of_single _ _ { testModel with m_currentState := TX } (435 / 10000) rfl ?_
      rfl (Or.inr (Or.inr (Or.inl rfl))) ?_ ?_
    · simp [DoGetCurrentA, testModel, LoraRadioEnergyModel.new, SLEEP, TX, RX, STANDBY]
    · norm_num [testWorldAt0, testSource, LoraEnergySource.new,
        LoraEnergySource.GetSupplyVoltage, Time.GetSeconds]
    · intro p hp
      cases hp
  have s1 : testWorldAt0.step ⟨1000000000, false, Action.NotifyRxStart 0⟩
      = .ok testWorldAt1 := testWorldAt0_rxStart
  rw [s1] at h2
  injection h2 with h2
  subst h2
  refine ⟨?_, fun w3 h3 => ?_⟩
  · refine inScope_of_single _ _ _ (112 / 10000) rfl ?_
      rfl (Or.inr (Or.inr (Or.inr (Or.inr rfl)))) ?_ ?_
    · simp [DoGetCurrentA, testModel, LoraRadioEnergyModel.new, SLEEP, TX, RX, STANDBY]
    · norm_num [testWorldAt1, testSource, LoraEnergySource.new,
        LoraEnergySource.GetSupplyVoltage, Time.GetSeconds]
    · intro p hp
      cases hp
  have s2 : testWorldAt1.step ⟨2250000000, false, Action.NotifyStandby 0⟩
      = .ok testWorldAt2 := testWorldAt1_standby
  rw [s2] at h3
  injection h3 with h3
  subst h3
  refine ⟨?_, fun _ _ => trivial⟩
  refine inScope_of_single _ _ _ (14 / 10000) rfl ?_
    rfl (Or.inr (Or.inr (Or.inr (Or.inl rfl)))) ?_ ?_
  · simp [DoGetCurrentA, testModel, LoraRadioEnergyModel.new, SLEEP, TX, RX, STANDBY]
  · norm_num [testWorldAt2, testSource, LoraEnergySource.new,
      LoraEnergySource.GetSupplyVoltage, Time.GetSeconds]
  · intro p hp
    cases hp

end ConservationLemmas

/-! ## The claims -/

section Claims

open World LoraRadioEnergyModel InterpolatedLoraConsumptionModel

/-- C1 (evaluation at the failing input): a source with 10 J left at 1 V and one radio
drawing 9 A is refreshed 2 s after the last refresh; the energy to deduct is 18 J, at least
the remaining 10 J, and the refresh leaves the remaining energy at -18 J, not at 0. -/
theorem C1_refresh_leaves_negative_energy :
    drainWorld.source.m_remainingEnergyJ = 10 ∧
    drainWorld.source.energyToDecreaseJ 9 (2000000000 - drainWorld.source.m_lastUpdateTime) = 18 ∧
    ∃ w', drainWorld.UpdateEnergySource 2000000000 false = .ok w' ∧
      w'.source.m_remainingEnergyJ = -18 := by
  refine ⟨rfl, ?_, drainWorldAt2, drainWorld_refresh_at2, rfl⟩
  simp [drainWorld, install, tenJouleSource, LoraEnergySource.new,
    LoraEnergySource.energyToDecreaseJ, Time.GetNanoSeconds]
  norm_num

/-- C2: on freshly constructed models installed on a source that has not been refreshed
after time 0, every sequence of `ChangeState` calls with one of the four modes at
non-decreasing times returns, and after its last call, made at time `e.now` on the model at
position `i`, the four durations of that model add up to `e.now` minus the creation time 0
(the `finished` flag of each call is arbitrary, and so is the depletion of the source). -/
theorem C2_durations_sum_to_elapsed_time
    (source : LoraEnergySource) (models : List LoraRadioEnergyModel)
    (pre : List Event) (e : Event) (i : Nat) (newState : Int)
    (hsource : source.m_lastUpdateTime ≤ 0)
    (hfresh : ∀ m ∈ models, ∃ tx rx sb sl cm, m = LoraRadioEnergyModel.new tx rx sb sl cm)
    (hcalls : ∀ x ∈ pre ++ [e], x.isChangeStateCall models.length)
    (htimes : List.Chain (fun a b => a ≤ b) 0 ((pre ++ [e]).map (fun x => x.now)))
    (he : e.action = Action.ChangeState i newState) :
    ∃ w' m, (World.install source models).run (pre ++ [e]) = .ok w' ∧
      w'.models[i]? = some m ∧
      m.GetTotalTxTime + m.GetTotalRxTime + m.GetTotalStandbyTime + m.GetTotalSleepTime
        = e.now - 0 := by
  have hvalid : ∀ m ∈ (World.install source models).models,
      isMode m.m_currentState ∧ m.m_lastStampTime ≤ 0 := by
    intro m hm
    obtain ⟨tx, rx, sb, sl, cm, rfl⟩ := hfresh m hm
    exact ⟨Or.inr (Or.inr (Or.inr rfl)), le_refl _⟩
  obtain ⟨w', hrun, hlast⟩ := run_changeState_calls models.length (pre ++ [e])
    (World.install source models) 0 rfl hvalid hsource htimes hcalls
  obtain ⟨m, hm, hstamp⟩ := hlast e (by simp) i newState he
  have hbal : ∀ m ∈ (World.install source models).models, m.Balanced := by
    intro m hm
    obtain ⟨tx, rx, sb, sl, cm, rfl⟩ := hfresh m hm
    exact Balanced_new tx rx sb sl cm
  have hb := run_balanced _ _ _ hrun hbal m (mem_of_getElem? _ _ _ hm)
  refine ⟨w', m, hrun, hm, ?_⟩
  have h1 := hb.1
  unfold sumTimes at h1
  rw [h1, hstamp]
  omega

/-- Witness of C2: TX at 0 s, RX at 1 s and STANDBY at 2.25 s on the radio of the test
suite. -/
theorem C2_durations_sum_to_elapsed_time_witness :
    ∃ w' m, (World.install testSource [testModel]).run
        ([⟨0, false, Action.ChangeState 0 TX⟩, ⟨1000000000, false, Action.ChangeState 0 RX⟩]
          ++ [⟨2250000000, false, Action.ChangeState 0 STANDBY⟩]) = .ok w' ∧
      w'.models[0]? = some m ∧
      m.GetTotalTxTime + m.GetTotalRxTime + m.GetTotalStandbyTime + m.GetTotalSleepTime
        = 2250000000 - 0 :=
  C2_durations_sum_to_elapsed_time testSource [testModel]
    [⟨0, false, Action.ChangeState 0 TX⟩, ⟨1000000000, false, Action.ChangeState 0 RX⟩]
    ⟨2250000000, false, Action.ChangeState 0 STANDBY⟩ 0 STANDBY
    (by simp [testSource, LoraEnergySource.new])
    (by intro m hm
        simp only [List.mem_singleton] at hm
        exact ⟨_, _, _, _, _, hm⟩)
    (by intro x hx
        simp only [List.cons_append, List.nil_append, List.mem_cons, List.mem_singleton,
          List.not_mem_nil, or_false] at hx
        rcases hx with rfl | rfl | rfl
        · exact ⟨0, TX, rfl, by simp, Or.inl rfl⟩
        · exact ⟨0, RX, rfl, by simp, Or.inr (Or.inl rfl)⟩
        · exact ⟨0, STANDBY, rfl, by simp, Or.inr (Or.inr (Or.inl rfl))⟩)
    (by simp)
    rfl

/-- C3: on freshly constructed models, after every sequence of calls that returns
(`ChangeState` calls, changes of the transmit current by `CalcTxCurrentFromModel`, and any
other call of a run), the four per-mode energies of every model add up to its
`GetTotalEnergyConsumption`, in exact arithmetic. A sequence of `ChangeState` calls with
one of the four modes and of `CalcTxCurrentFromModel` calls with a power of at most 20 dBm,
at non-decreasing times, on models with the interpolated consumption model and a source not
refreshed after time 0, does return. -/
theorem C3_energies_sum_to_total
    (source : LoraEnergySource) (models : List LoraRadioEnergyModel) (calls : List Event)
    (hfresh : ∀ m ∈ models, ∃ tx rx sb sl cm, m = LoraRadioEnergyModel.new tx rx sb sl cm) :
    (∀ w', (World.install source models).run calls = .ok w' →
      ∀ m ∈ w'.models,
        m.GetTxEnergyConsumption + m.GetRxEnergyConsumption + m.GetStandbyEnergyConsumption
          + m.GetSleepEnergyConsumption = m.GetTotalEnergyConsumption) ∧
    (source.m_lastUpdateTime ≤ 0 →
      (∀ m ∈ models, m.m_consumptionModel = some LoraConsumptionModel.Interpolated) →
      (∀ e ∈ calls, e.isAccountingCall models.length) →
      List.Chain (fun a b => a ≤ b) 0 (calls.map (fun e => e.now)) →
      ∃ w', (World.install source models).run calls = .ok w') := by
  constructor
  · intro w' hrun
    have hbal : ∀ m ∈ (World.install source models).models, m.Balanced := by
      intro m hm
      obtain ⟨tx, rx, sb, sl, cm, rfl⟩ := hfresh m hm
      exact Balanced_new tx rx sb sl cm
    intro m hm
    exact (run_balanced _ _ _ hrun hbal m hm).2
  · intro hsource hcm hcalls htimes
    refine run_accounting_calls models.length calls (World.install source models) 0 rfl ?_
      hsource htimes hcalls
    intro m hm
    obtain ⟨tx, rx, sb, sl, cm, hnew⟩ := hfresh m hm
    refine ⟨?_, ?_, hcm m hm⟩
    · rw [hnew]; exact Or.inr (Or.inr (Or.inr rfl))
    · rw [hnew]; exact le_refl _

/-- Witness of C3: the transmit current for 14 dBm, then TX at 0 s and RX at 1 s, on the
radio of the test suite. -/
theorem C3_energies_sum_to_total_witness :
    ∃ w', (World.install testSource [testModel]).run
        [⟨0, false, Action.CalcTxCurrentFromModel 0 14⟩, ⟨0, false, Action.ChangeState 0 TX⟩,
         ⟨1000000000, false, Action.ChangeState 0 RX⟩] = .ok w' ∧
      ∀ m ∈ w'.models,
        m.GetTxEnergyConsumption + m.GetRxEnergyConsumption + m.GetStandbyEnergyConsumption
          + m.GetSleepEnergyConsumption = m.GetTotalEnergyConsumption := by
  obtain ⟨hsum, hreturns⟩ := C3_energies_sum_to_total testSource [testModel]
    [⟨0, false, Action.CalcTxCurrentFromModel 0 14⟩, ⟨0, false, Action.ChangeState 0 TX⟩,
     ⟨1000000000, false, Action.ChangeState 0 RX⟩]
    (by intro m hm
        simp only [List.mem_singleton] at hm
        exact ⟨_, _, _, _, _, hm⟩)
  obtain ⟨w', hrun⟩ := hreturns (by simp [testSource, LoraEnergySource.new])
    (by intro m hm
        simp only [List.mem_singleton] at hm
        subst hm
        rfl)
    (by intro x hx
        simp only [List.mem_cons, List.mem_singleton, List.not_mem_nil, or_false] at hx
        rcases hx with rfl | rfl | rfl
        · exact Or.inr ⟨0, 14, rfl, by simp, by norm_num⟩
        · exact Or.inl ⟨0, TX, rfl, by simp, Or.inl rfl⟩
        · exact Or.inl ⟨0, RX, rfl, by simp, Or.inr (Or.inl rfl)⟩)
    (by simp)
  exact ⟨w', hrun, hsum w' hrun⟩

/-- C4: a refresh made while the simulation is not finished, at a time not before the last
refresh and with every installed model in one of the four modes, returns, and with `R` the
remaining energy it leaves: if the source was not depleted and `R ≤ lowTh * initialEnergy`
it sets the flag, emits DEPLETED (every model receives `HandleEnergyDepletion`) and nothing
else; else if the source was depleted and `R > highTh * initialEnergy` it clears the flag
and emits RECHARGED only; else if `R` differs from the remaining energy before the call it
emits CHANGED only and keeps the flag; otherwise it emits nothing and keeps the flag. -/
theorem C4_refresh_emits_one_outcome_by_priority (w : World) (now : Int)
    (hvalid : ∀ m ∈ w.models, isMode m.m_currentState)
    (hnow : w.source.m_lastUpdateTime ≤ now) :
    ∃ w', w.UpdateEnergySource now false = .ok w' ∧
      w'.source.m_lowBatteryTh = w.source.m_lowBatteryTh ∧
      w'.source.m_highBatteryTh = w.source.m_highBatteryTh ∧
      w'.source.m_initialEnergyJ = w.source.m_initialEnergyJ ∧
      (if w.source.m_depleted = false ∧
            w'.source.m_remainingEnergyJ ≤ w.source.m_lowBatteryTh * w.source.m_initialEnergyJ
        then
          w'.source.m_depleted = true ∧ w'.emitted = w.emitted ++ [Notification.DEPLETED] ∧
            w'.models = w.models.map HandleEnergyDepletion
        else if w.source.m_depleted = true ∧
            w'.source.m_remainingEnergyJ > w.source.m_highBatteryTh * w.source.m_initialEnergyJ
        then
          w'.source.m_depleted = false ∧ w'.emitted = w.emitted ++ [Notification.RECHARGED] ∧
            w'.models = w.models
        else if w'.source.m_remainingEnergyJ ≠ w.source.m_remainingEnergyJ then
          w'.source.m_depleted = w.source.m_depleted ∧
            w'.emitted = w.emitted ++ [Notification.CHANGED] ∧ w'.models = w.models
        else
          w'.source.m_depleted = w.source.m_depleted ∧ w'.emitted = w.emitted ∧
            w'.models = w.models) := by
  obtain ⟨w', h⟩ := UpdateEnergySource_ok w now false hvalid (Or.inr hnow)
  refine ⟨w', h, ?_⟩
  obtain ⟨tot, s1, -, -, hs1, -, hc⟩ := UpdateEnergySource_cases w w' now h
  have hlow : s1.m_lowBatteryTh = w.source.m_lowBatteryTh := by rw [hs1]; rfl
  have hhigh : s1.m_highBatteryTh = w.source.m_highBatteryTh := by rw [hs1]; rfl
  have hinit : s1.m_initialEnergyJ = w.source.m_initialEnergyJ := by rw [hs1]; rfl
  have hdep : s1.m_depleted = w.source.m_depleted := by rw [hs1]; rfl
  rcases hc with ⟨c1a, c1b, hs, hm, he⟩ | ⟨c1, c2a, c2b, hs, hm, he⟩ | ⟨c1, c2, c3, hs, hm, he⟩ |
    ⟨c1, c2, c3, hs, hm, he⟩
  · have hR : w'.source.m_remainingEnergyJ = s1.m_remainingEnergyJ := by rw [hs]
    rw [hR, if_pos ⟨c1a, c1b⟩]
    exact ⟨by rw [hs]; exact hlow, by rw [hs]; exact hhigh, by rw [hs]; exact hinit,
      by rw [hs], he, hm⟩
  · have hR : w'.source.m_remainingEnergyJ = s1.m_remainingEnergyJ := by rw [hs]
    rw [hR, if_neg c1, if_pos ⟨c2a, c2b⟩]
    exact ⟨by rw [hs]; exact hlow, by rw [hs]; exact hhigh, by rw [hs]; exact hinit,
      by rw [hs], he, hm⟩
  · have hR : w'.source.m_remainingEnergyJ = s1.m_remainingEnergyJ := by rw [hs]
    rw [hR, if_neg c1, if_neg c2, if_pos c3]
    exact ⟨by rw [hs]; exact hlow, by rw [hs]; exact hhigh, by rw [hs]; exact hinit,
      by rw [hs]; exact hdep, he, hm⟩
  · have hR : w'.source.m_remainingEnergyJ = s1.m_remainingEnergyJ := by rw [hs]
    rw [hR, if_neg c1, if_neg c2, if_neg (not_not.mpr c3)]
    exact ⟨by rw [hs]; exact hlow, by rw [hs]; exact hhigh, by rw [hs]; exact hinit,
      by rw [hs]; exact hdep, he, hm⟩

/-- Witness of C4: the refresh of `drainWorld` at 1 s. -/
theorem C4_refresh_emits_one_outcome_by_priority_witness :
    ∃ w', drainWorld.UpdateEnergySource 1000000000 false = .ok w' ∧
      w'.source.m_lowBatteryTh = drainWorld.source.m_lowBatteryTh ∧
      w'.source.m_highBatteryTh = drainWorld.source.m_highBatteryTh ∧
      w'.source.m_initialEnergyJ = drainWorld.source.m_initialEnergyJ ∧
      (if drainWorld.source.m_depleted = false ∧
            w'.source.m_remainingEnergyJ
              ≤ drainWorld.source.m_lowBatteryTh * drainWorld.source.m_initialEnergyJ
        then
          w'.source.m_depleted = true ∧
            w'.emitted = drainWorld.emitted ++ [Notification.DEPLETED] ∧
            w'.models = drainWorld.models.map HandleEnergyDepletion
        else if drainWorld.source.m_depleted = true ∧
            w'.source.m_remainingEnergyJ
              > drainWorld.source.m_highBatteryTh * drainWorld.source.m_initialEnergyJ
        then
          w'.source.m_depleted = false ∧
            w'.emitted = drainWorld.emitted ++ [Notification.RECHARGED] ∧
            w'.models = drainWorld.models
        else if w'.source.m_remainingEnergyJ ≠ drainWorld.source.m_remainingEnergyJ then
          w'.source.m_depleted = drainWorld.source.m_depleted ∧
            w'.emitted = drainWorld.emitted ++ [Notification.CHANGED] ∧
            w'.models = drainWorld.models
        else
          w'.source.m_depleted = drainWorld.source.m_depleted ∧
            w'.emitted = drainWorld.emitted ∧ w'.models = drainWorld.models) :=
  C4_refresh_emits_one_outcome_by_priority drainWorld 1000000000
    (by intro m hm
        simp only [drainWorld, install, List.mem_singleton] at hm
        subst hm
        exact Or.inr (Or.inr (Or.inr rfl)))
    (by simp [drainWorld, install, tenJouleSource, LoraEnergySource.new])

/-- C5: in every run of calls on a world (refreshes, and the calls that trigger them), with
`tr` the notifications the source emits during the run: between any two DEPLETED
notifications of `tr` there is a RECHARGED one, and when the source is depleted at the start
a DEPLETED is preceded by a RECHARGED. For a single refresh: it emits no DEPLETED when the
source is already depleted; it emits RECHARGED only if the remaining energy it leaves is
strictly greater than `highTh * initialEnergy`; and with `initialEnergy = 10`,
`lowTh = 0.10`, `highTh = 0.15`, a refresh of a source that is not depleted and is left with
at most 1.0 J emits DEPLETED and sets the flag, while a refresh of a depleted source that is
left with at most 1.5 J emits neither DEPLETED nor RECHARGED and keeps the flag. -/
theorem C5_depleted_once_until_recharged (w : World) (es : List Event) (w' : World)
    (hrun : w.run es = .ok w') :
    (∃ tr, w'.emitted = w.emitted ++ tr ∧
      (∀ i j : Nat, i < j → tr[i]? = some Notification.DEPLETED →
        tr[j]? = some Notification.DEPLETED →
        ∃ k : Nat, i < k ∧ k < j ∧ tr[k]? = some Notification.RECHARGED) ∧
      (w.source.m_depleted = true → ∀ j : Nat, tr[j]? = some Notification.DEPLETED →
        ∃ k : Nat, k < j ∧ tr[k]? = some Notification.RECHARGED)) ∧
    (∀ (v v' : World) (now : Int) (finished : Bool),
      v.UpdateEnergySource now finished = .ok v' →
      (v.source.m_depleted = true →
        ∀ tr, v'.emitted = v.emitted ++ tr → Notification.DEPLETED ∉ tr) ∧
      (∀ tr, v'.emitted = v.emitted ++ tr → Notification.RECHARGED ∈ tr →
        v'.source.m_remainingEnergyJ
          > v'.source.m_highBatteryTh * v'.source.m_initialEnergyJ) ∧
      (v.source.m_initialEnergyJ = 10 → v.source.m_lowBatteryTh = 1 / 10 →
        v.source.m_highBatteryTh = 15 / 100 → finished = false →
        (v.source.m_depleted = false → v'.source.m_remainingEnergyJ ≤ 1 →
          v'.source.m_depleted = true ∧ v'.emitted = v.emitted ++ [Notification.DEPLETED]) ∧
        (v.source.m_depleted = true → v'.source.m_remainingEnergyJ ≤ 15 / 10 →
          v'.source.m_depleted = true ∧
          ∀ tr, v'.emitted = v.emitted ++ tr →
            Notification.DEPLETED ∉ tr ∧ Notification.RECHARGED ∉ tr))) := by
  constructor
  · obtain ⟨tr, he, hf⟩ := run_follows es w w' hrun
    refine ⟨tr, he, ?_, ?_⟩
    · intro i j hij hi hj
      exact follows_recharged_between tr _ _ i j hf hij hi hj
    · intro hd j hj
      rw [hd] at hf
      exact follows_depleted_after_recharged tr _ j hf hj
  · intro v v' now finished h
    obtain ⟨hinit, hlow, hhigh, hc⟩ := UpdateEnergySource_emitted v v' now finished h
    have cancel : ∀ (tr t0 : List Notification), v'.emitted = v.emitted ++ tr →
        v'.emitted = v.emitted ++ t0 → tr = t0 := by
      intro tr t0 h1 h2
      rw [h1] at h2
      exact List.append_cancel_left h2
    refine ⟨?_, ?_, ?_⟩
    · intro hd tr htr
      rcases hc with ⟨-, hf, -⟩ | ⟨he, -⟩ | ⟨he, -⟩ | ⟨he, -⟩
      · rw [hd] at hf; cases hf
      · rw [cancel tr _ htr he]; simp
      · rw [cancel tr _ htr he]; simp
      · rw [cancel tr [] htr (by simpa using he)]; simp
    · intro tr htr hmem
      rw [hhigh, hinit]
      rcases hc with ⟨he, -⟩ | ⟨-, -, -, -, hR⟩ | ⟨he, -⟩ | ⟨he, -⟩
      · rw [cancel tr _ htr he] at hmem; simp at hmem
      · exact hR
      · rw [cancel tr _ htr he] at hmem; simp at hmem
      · rw [cancel tr [] htr (by simpa using he)] at hmem; simp at hmem
    · intro h10 hl hh hfin
      rw [hl, hh, h10] at hc
      constructor
      · intro hd hR
        rcases hc with ⟨he, -, hd', -⟩ | ⟨-, hf, -⟩ | ⟨-, -, -, hn, -⟩ | ⟨-, -, hor⟩
        · exact ⟨hd', he⟩
        · rw [hd] at hf; cases hf
        · exact absurd ⟨hd, by linarith⟩ hn
        · rcases hor with hor | ⟨hn, -⟩
          · rw [hfin] at hor; cases hor
          · exact absurd ⟨hd, by linarith⟩ hn
      · intro hd hR
        rcases hc with ⟨-, hf, -⟩ | ⟨-, -, -, -, hgt⟩ | ⟨he, hd', -⟩ | ⟨he, hd', -⟩
        · rw [hd] at hf; cases hf
        · linarith
        · refine ⟨by rw [hd', hd], ?_⟩
          intro tr htr
          rw [cancel tr _ htr he]; simp
        · refine ⟨by rw [hd', hd], ?_⟩
          intro tr htr
          rw [cancel tr [] htr (by simpa using he)]; simp

/-- Witness of C5: RX at 1 s and TX at 2 s on `drainWorld`. -/
theorem C5_depleted_once_until_recharged_witness :
    ∃ w', drainWorld.run [⟨1000000000, false, Action.ChangeState 0 RX⟩,
        ⟨2000000000, false, Action.ChangeState 0 TX⟩] = .ok w' ∧
      ∃ tr, w'.emitted = drainWorld.emitted ++ tr ∧
        (∀ i j : Nat, i < j → tr[i]? = some Notification.DEPLETED →
          tr[j]? = some Notification.DEPLETED →
          ∃ k : Nat, i < k ∧ k < j ∧ tr[k]? = some Notification.RECHARGED) ∧
        (drainWorld.source.m_depleted = true → ∀ j : Nat,
          tr[j]? = some Notification.DEPLETED →
          ∃ k : Nat, k < j ∧ tr[k]? = some Notification.RECHARGED) := by
  obtain ⟨w', hrun, -⟩ := run_changeState_calls 1
    [⟨1000000000, false, Action.ChangeState 0 RX⟩, ⟨2000000000, false, Action.ChangeState 0 TX⟩]
    drainWorld 0 rfl
    (by intro m hm
        simp only [drainWorld, install, List.mem_singleton] at hm
        subst hm
        exact ⟨Or.inr (Or.inr (Or.inr rfl)), le_refl _⟩)
    (by simp [drainWorld, install, tenJouleSource, LoraEnergySource.new])
    (by simp)
    (by intro x hx
        simp only [List.mem_cons, List.mem_singleton, List.not_mem_nil, or_false] at hx
        rcases hx with rfl | rfl
        · exact ⟨0, RX, rfl, by simp [drainWorld, install], Or.inr (Or.inl rfl)⟩
        · exact ⟨0, TX, rfl, by simp [drainWorld, install], Or.inl rfl⟩)
  exact ⟨w', hrun, (C5_depleted_once_until_recharged drainWorld _ w' hrun).1⟩

/-- C6: `ChangeState (newState)` on a model in one of the four modes, at a time `now` not
before its last transition (every installed model being in one of the four modes and the
source not refreshed after `now`), returns and adds the elapsed time to the duration of the
mode the model is in, and `elapsed seconds * current of that mode * supply voltage` to the
energy of that mode and to the total, leaving the three other modes as they were. It leaves
`GetCurrentState` unchanged, for every `newState`, whenever `HandleEnergyDepletion` was
delivered to the model at some earlier point (any run of calls may lie in between), and also
when the refresh of this very call emits DEPLETED. -/
theorem C6_frozen_after_depletion (w1 : World) (i : Nat) (m : LoraRadioEnergyModel)
    (newState now : Int) (finished : Bool)
    (hm : w1.models[i]? = some m)
    (hvalid : ∀ y ∈ w1.models, isMode y.m_currentState)
    (hnow : m.m_lastStampTime ≤ now)
    (hsrc : finished = true ∨ w1.source.m_lastUpdateTime ≤ now) :
    ∃ w' m' c, w1.ChangeState i newState now finished = .ok w' ∧ w'.models[i]? = some m' ∧
      m.DoGetCurrentA = .ok c ∧
      (∀ s, m'.timeIn s
        = m.timeIn s + if s = m.GetCurrentState then now - m.m_lastStampTime else 0) ∧
      (∀ s, m'.energyIn s
        = m.energyIn s + if s = m.GetCurrentState
            then Time.GetSeconds (now - m.m_lastStampTime) * c * w1.source.GetSupplyVoltage
            else 0) ∧
      m'.GetTotalEnergyConsumption = m.GetTotalEnergyConsumption
        + Time.GetSeconds (now - m.m_lastStampTime) * c * w1.source.GetSupplyVoltage ∧
      (∀ (w : World) (x : LoraRadioEnergyModel) (es : List Event),
        w.models[i]? = some x →
        ({ w with models := w.models.set i x.HandleEnergyDepletion } : World).run es = .ok w1 →
        m'.GetCurrentState = m.GetCurrentState) ∧
      (w'.emitted = w1.emitted ++ [Notification.DEPLETED] →
        m'.GetCurrentState = m.GetCurrentState) := by
  obtain ⟨w', h⟩ := ChangeState_ok w1 i newState now finished m hm hnow hvalid hsrc
  obtain ⟨m', c, hm', hacc, hfrozen, -⟩ := ChangeState_model w1 w' i newState now finished m hm h
  refine ⟨w', m', c, h, hm', hacc.current, hacc.time, hacc.energy, hacc.total, ?_, ?_⟩
  · intro w x es hx hrun
    have hi := getElem?_lt _ _ _ hx
    obtain ⟨x', hx', hd'⟩ := run_depleted_persists es _ w1 i x.HandleEnergyDepletion hrun
      (by simp [hi]) rfl
    rw [hm] at hx'
    injection hx' with hx'
    subst hx'
    exact (hfrozen (Or.inl hd')).1
  · intro he
    exact (hfrozen (Or.inr he)).1

/-- Witness of C6: `ChangeState (RX)` at 1 s on the radio of `deliveredWorld`, which stays in
SLEEP with 1 s more of sleep time. -/
theorem C6_frozen_after_depletion_witness :
    ∃ w' m', deliveredWorld.ChangeState 0 RX 1000000000 false = .ok w' ∧
      w'.models[0]? = some m' ∧ m'.GetCurrentState = SLEEP ∧
      m'.timeIn SLEEP = 1000000000 := by
  obtain ⟨w', m', c, h, hm', -, ht, -, -, hf, -⟩ := C6_frozen_after_depletion
    deliveredWorld 0 nineAmpereModel.HandleEnergyDepletion RX 1000000000 false rfl
    (by intro y hy
        simp only [deliveredWorld, drainWorld, install, List.set_cons_zero,
          List.mem_singleton] at hy
        subst hy
        exact Or.inr (Or.inr (Or.inr rfl)))
    (by simp [nineAmpereModel, LoraRadioEnergyModel.new, HandleEnergyDepletion])
    (Or.inr (by simp [deliveredWorld, drainWorld, install, tenJouleSource,
      LoraEnergySource.new]))
  refine ⟨w', m', h, hm', ?_, ?_⟩
  · exact hf drainWorld nineAmpereModel [] rfl rfl
  · rw [ht SLEEP]
    simp [timeIn, GetCurrentState, GetTotalSleepTime, nineAmpereModel, LoraRadioEnergyModel.new,
      HandleEnergyDepletion, SLEEP, TX, RX, STANDBY]

/-- C7 (evaluation at the failing input): the radio receives `HandleEnergyDepletion` from
the refresh at 1 s; the source is refilled by `SetInitialEnergy (10)` and its next refresh
clears the depleted flag and delivers `HandleEnergyRecharged`; the following
`ChangeState (RX)` at 1.1 s leaves the source not depleted and the radio in SLEEP. -/
theorem C7_mode_not_switched_after_recharge :
    drainWorld.UpdateEnergySource 1000000000 false = .ok drainWorldAt1 ∧
    drainWorldAt1.models = drainWorld.models.map HandleEnergyDepletion ∧
    drainWorldAt1.source.SetInitialEnergy 10 = .ok refilledSource ∧
    ({ drainWorldAt1 with source := refilledSource } : World).UpdateEnergySource 1000000000 false
      = .ok rechargedWorld ∧
    rechargedWorld.source.m_depleted = false ∧
    rechargedWorld.models = drainWorldAt1.models.map HandleEnergyRecharged ∧
    ∃ w', rechargedWorld.ChangeState 0 RX 1100000000 false = .ok w' ∧
      w'.source.m_depleted = false ∧
      w'.models.map GetCurrentState = [SLEEP] := by
  refine ⟨drainWorld_refresh_at1, rfl, ?_, refilled_refresh, rfl, rfl,
    rechargedWorldAfterChangeState, recharged_changeState, rfl, rfl⟩
  simp [LoraEnergySource.SetInitialEnergy, refilledSource]

/-- C8 (evaluation at the failing input): two calls of `GetRemainingEnergy` at the same
simulated time 2 s, with nothing in between, return -18 J and then 0 J. -/
theorem C8_second_read_differs :
    ∃ w1 w2, drainWorld.GetRemainingEnergy 2000000000 false = .ok (w1, -18) ∧
      w1.GetRemainingEnergy 2000000000 false = .ok (w2, 0) := by
  refine ⟨drainWorldAt2, drainWorldAt2Again, ?_, ?_⟩
  · simp only [GetRemainingEnergy, drainWorld_refresh_at2]
    rfl
  · simp only [GetRemainingEnergy, drainWorldAt2_refresh]
    rfl

/-- C9: the calibration table is `[(7,18),(13,28),(17,90),(20,125)]`; for every power `p`
with `7 ≤ p ≤ 20`, `CalcTxCurrent p` returns
`(c_L + (c_R - c_L) / (p_R - p_L) * (p - p_L)) / 1000` for a segment `(p_L, c_L)`, `(p_R, c_R)`
of the table with `p_L ≤ p ≤ p_R`; at the four table powers it returns the table current
divided by 1000 (28 / 1000 at 13 dBm), and at 10 dBm it returns 23 / 1000. -/
theorem C9_CalcTxCurrent_interpolates (p : ℚ) (h7 : 7 ≤ p) (h20 : p ≤ 20) :
    calibrationTable = [(7, 18), (13, 28), (17, 90), (20, 125)] ∧
    (∃ seg ∈ segments, seg.1.1 ≤ p ∧ p ≤ seg.2.1 ∧
      CalcTxCurrent p = .ok ((seg.1.2 + (seg.2.2 - seg.1.2) / (seg.2.1 - seg.1.1)
        * (p - seg.1.1)) / 1000)) ∧
    CalcTxCurrent 7 = .ok (18 / 1000) ∧ CalcTxCurrent 13 = .ok (28 / 1000) ∧
    CalcTxCurrent 17 = .ok (90 / 1000) ∧ CalcTxCurrent 20 = .ok (125 / 1000) ∧
    CalcTxCurrent 10 = .ok (23 / 1000) := by
  refine ⟨rfl, ?_, ?_, ?_, ?_, ?_, ?_⟩
  · by_cases h13 : p ≤ 13
    · refine ⟨((7, 18), (13, 28)), by simp [segments, calibrationTable, power_dBm_lookup_table,
        curruent_ma_lookup_table], h7, h13, ?_⟩
      exact CalcTxCurrent_low p h13
    · by_cases h17 : p ≤ 17
      · refine ⟨((13, 28), (17, 90)), by simp [segments, calibrationTable,
          power_dBm_lookup_table, curruent_ma_lookup_table], le_of_lt (not_le.mp h13), h17, ?_⟩
        exact CalcTxCurrent_mid p (not_le.mp h13) h17
      · refine ⟨((17, 90), (20, 125)), by simp [segments, calibrationTable,
          power_dBm_lookup_table, curruent_ma_lookup_table], le_of_lt (not_le.mp h17), h20, ?_⟩
        exact CalcTxCurrent_high p (not_le.mp h17) h20
  · rw [CalcTxCurrent_low 7 (by norm_num)]; norm_num
  · rw [CalcTxCurrent_low 13 (by norm_num)]; norm_num
  · rw [CalcTxCurrent_mid 17 (by norm_num) (by norm_num)]; norm_num
  · rw [CalcTxCurrent_high 20 (by norm_num) (by norm_num)]; norm_num
  · rw [CalcTxCurrent_low 10 (by norm_num)]; norm_num

/-- Witness of C9: the power 10 dBm. -/
theorem C9_CalcTxCurrent_interpolates_witness :
    (7 : ℚ) ≤ 10 ∧ (10 : ℚ) ≤ 20 ∧
    ∃ seg ∈ segments, seg.1.1 ≤ 10 ∧ 10 ≤ seg.2.1 ∧
      CalcTxCurrent 10 = .ok ((seg.1.2 + (seg.2.2 - seg.1.2) / (seg.2.1 - seg.1.1)
        * (10 - seg.1.1)) / 1000) :=
  ⟨by norm_num, by norm_num,
    (C9_CalcTxCurrent_interpolates 10 (by norm_num) (by norm_num)).2.1⟩

/-- C10 (evaluation at failing inputs): the range assertion of `CalcTxCurrent` holds for
every power, so it never fails; at 5 dBm, below the span of the table, `CalcTxCurrent`
returns the current 11 / 750 A extrapolated from the first segment, and at 25 dBm, above the
span, the scan loop reads past the end of the table. -/
theorem C10_out_of_span_not_rejected :
    (∀ p : ℚ, rangeAssertion p = true) ∧ CalcTxCurrent 5 = .ok (11 / 750) ∧
    CalcTxCurrent 25 = .error Error.outOfBounds := by
  refine ⟨rangeAssertion_true, ?_, CalcTxCurrent_above 25 (by norm_num)⟩
  rw [CalcTxCurrent_low 5 (by norm_num)]; norm_num

/-- C11: a refresh made while the simulation is not finished (at a time not before the last
refresh, every installed model being in one of the four modes) returns, keeps the supply
voltage, and stores as remaining charge `remainingEnergyJ / supplyVoltageV * 1000`, for
every supply voltage other than 0; `GetRemainingEnergy`, `GetRemainingCharge` and
`GetEnergyFraction` make that same refresh and return the remaining energy, that charge,
and the remaining energy over the initial energy. -/
theorem C11_charge_follows_energy (w : World) (now : Int)
    (hvalid : ∀ m ∈ w.models, isMode m.m_currentState)
    (hnow : w.source.m_lastUpdateTime ≤ now)
    (hV : w.source.m_supplyVoltageV ≠ 0) :
    ∃ w', w.UpdateEnergySource now false = .ok w' ∧
      w'.source.m_supplyVoltageV = w.source.m_supplyVoltageV ∧
      w'.source.m_remainingChargemAh
        = w'.source.m_remainingEnergyJ / w'.source.m_supplyVoltageV * 1000 ∧
      w'.source.m_remainingChargemAh * w'.source.m_supplyVoltageV
        = w'.source.m_remainingEnergyJ * 1000 ∧
      w.GetRemainingEnergy now false = .ok (w', w'.source.m_remainingEnergyJ) ∧
      w.GetRemainingCharge now false
        = .ok (w', w'.source.m_remainingEnergyJ / w'.source.m_supplyVoltageV * 1000) ∧
      w.GetEnergyFraction now false
        = .ok (w', w'.source.m_remainingEnergyJ / w'.source.m_initialEnergyJ) := by
  obtain ⟨w', h⟩ := UpdateEnergySource_ok w now false hvalid (Or.inr hnow)
  obtain ⟨tot, -, -, hch, hv, -, -, -, -⟩ := UpdateEnergySource_source w w' now h
  have hch' : w'.source.m_remainingChargemAh
      = w'.source.m_remainingEnergyJ / w'.source.m_supplyVoltageV * 1000 := by
    rw [hch, hv]
  refine ⟨w', h, hv, hch', ?_, ?_, ?_, ?_⟩
  · rw [hch']
    have hV' : w'.source.m_supplyVoltageV ≠ 0 := by rw [hv]; exact hV
    field_simp
  · simp only [GetRemainingEnergy, h]
  · simp only [GetRemainingCharge, h, hch']
  · simp only [GetEnergyFraction, h]

/-- Witness of C11: the refresh of `drainWorld` at 1 s. -/
theorem C11_charge_follows_energy_witness :
    ∃ w', drainWorld.UpdateEnergySource 1000000000 false = .ok w' ∧
      w'.source.m_remainingChargemAh
        = w'.source.m_remainingEnergyJ / w'.source.m_supplyVoltageV * 1000 := by
  obtain ⟨w', h, -, hch, -⟩ := C11_charge_follows_energy drainWorld 1000000000
    drainWorld_valid
    (by simp [drainWorld, install, tenJouleSource, LoraEnergySource.new])
    (by simp [drainWorld, install, tenJouleSource, LoraEnergySource.new])
  exact ⟨w', h, hch⟩

/-- C12 (the claim fails as stated): the test set-up is refreshed at 5 s, which leaves the
radio in SLEEP with its last transition at 0 s; `ChangeState (TX)` at 3 s, not before the
last transition, is rejected all the same, by the assertion of the refresh it triggers. -/
theorem C12_rejected_after_last_transition :
    ∃ w1 m, testWorld.UpdateEnergySource 5000000000 false = .ok w1 ∧
      w1.models[0]? = some m ∧ isMode m.m_currentState ∧
      ¬ ((3000000000 : Int) < m.m_lastStampTime) ∧
      w1.ChangeState 0 TX 3000000000 false = .error Error.assertFailed := by
  obtain ⟨w1, h⟩ := UpdateEnergySource_ok testWorld 5000000000 false testWorld_valid
    (Or.inr (by simp [testWorld, install, testSource, LoraEnergySource.new]))
  obtain ⟨tot, -, -, -, -, -, hlast, -, -⟩ := UpdateEnergySource_source testWorld w1 _ h
  have hvalid1 : ∀ x ∈ w1.models, isMode x.m_currentState :=
    UpdateEnergySource_forall (fun x => isMode x.m_currentState) testWorld w1 _ _ h
      (fun x hx => hx) testWorld_valid
  have hstamp1 : ∀ x ∈ w1.models, x.m_lastStampTime = 0 :=
    UpdateEnergySource_forall (fun x => x.m_lastStampTime = 0) testWorld w1 _ _ h
      (fun x hx => hx)
      (by intro x hx
          simp only [testWorld, install, List.mem_singleton] at hx
          subst hx
          rfl)
  have hlen : 0 < w1.models.length := by
    rcases UpdateEnergySource_models _ _ _ _ h with ⟨h1, -⟩ | ⟨h1, -⟩ <;> rw [h1] <;>
      simp [testWorld, install]
  obtain ⟨m, hm⟩ : ∃ m, w1.models[0]? = some m := ⟨_, List.getElem?_eq_getElem hlen⟩
  have hmem := mem_of_getElem? _ _ _ hm
  have hs := hstamp1 m hmem
  refine ⟨w1, m, h, hm, hvalid1 m hmem, by rw [hs]; norm_num, ?_⟩
  exact ChangeState_rejected_source w1 0 TX 3000000000 m hm hvalid1 (by rw [hs]; norm_num)
    (by rw [hlast]; norm_num)

/-- C12 (amended): with every installed model in one of the four modes, `ChangeState` at
time `now` fails if and only if `now` is before the last transition of the model, or the
simulation is not finished and `now` is before the last refresh of the source; before the
last transition it is the assertion of `ChangeState` that fails. With zero elapsed time, and
a source that accepts the refresh, the call returns and adds zero duration and zero energy.
A refresh of the source (simulation not finished) fails if and only if `now` is before the
last refresh, by its assertion; with zero elapsed time it returns and leaves a remaining
energy that is not negative as it was. -/
theorem C12_rejected_iff_before_a_timestamp (w : World) (i : Nat) (m : LoraRadioEnergyModel)
    (newState now : Int) (finished : Bool)
    (hm : w.models[i]? = some m)
    (hvalid : ∀ x ∈ w.models, isMode x.m_currentState) :
    ((∃ e, w.ChangeState i newState now finished = .error e) ↔
      (now < m.m_lastStampTime ∨ (finished = false ∧ now < w.source.m_lastUpdateTime))) ∧
    (now < m.m_lastStampTime →
      w.ChangeState i newState now finished = .error Error.assertFailed) ∧
    (now = m.m_lastStampTime → (finished = true ∨ w.source.m_lastUpdateTime ≤ now) →
      ∃ w' m', w.ChangeState i newState now finished = .ok w' ∧ w'.models[i]? = some m' ∧
        (∀ s, m'.timeIn s = m.timeIn s) ∧ (∀ s, m'.energyIn s = m.energyIn s) ∧
        m'.GetTotalEnergyConsumption = m.GetTotalEnergyConsumption) ∧
    ((∃ e, w.UpdateEnergySource now false = .error e) ↔ now < w.source.m_lastUpdateTime) ∧
    (now < w.source.m_lastUpdateTime →
      w.UpdateEnergySource now false = .error Error.assertFailed) ∧
    (now = w.source.m_lastUpdateTime → 0 ≤ w.source.m_remainingEnergyJ →
      ∃ w', w.UpdateEnergySource now false = .ok w' ∧
        w'.source.m_remainingEnergyJ = w.source.m_remainingEnergyJ) := by
  refine ⟨ChangeState_error_iff w i newState now finished m hm hvalid,
    ChangeState_rejected_stamp w i newState now finished m hm, ?_,
    UpdateEnergySource_error_iff w now hvalid, UpdateEnergySource_rejected w now hvalid, ?_⟩
  · intro heq hsrc
    obtain ⟨w', h⟩ := ChangeState_ok w i newState now finished m hm (by omega) hvalid hsrc
    obtain ⟨m', c, hm', hacc, -, -⟩ := ChangeState_model w w' i newState now finished m hm h
    have hz : now - m.m_lastStampTime = 0 := by omega
    refine ⟨w', m', h, hm', ?_, ?_, ?_⟩
    · intro s
      have := hacc.time s
      rw [hz] at this
      simpa [timeIn, GetTotalTxTime, GetTotalRxTime, GetTotalStandbyTime,
        GetTotalSleepTime] using this
    · intro s
      have := hacc.energy s
      rw [hz] at this
      simpa [energyIn, GetTxEnergyConsumption, GetRxEnergyConsumption,
        GetStandbyEnergyConsumption, GetSleepEnergyConsumption, Time.GetSeconds] using this
    · have := hacc.total
      rw [hz] at this
      simpa [GetTotalEnergyConsumption, Time.GetSeconds] using this
  · intro heq hpos
    obtain ⟨w', h⟩ := UpdateEnergySource_ok w now false hvalid (Or.inr (by omega))
    obtain ⟨tot, -, hrem, -⟩ := UpdateEnergySource_source w w' now h
    refine ⟨w', h, ?_⟩
    have hz : now - w.source.m_lastUpdateTime = 0 := by omega
    rw [hrem, hz]
    simp only [LoraEnergySource.deduct, LoraEnergySource.energyToDecreaseJ, Time.GetNanoSeconds]
    simp only [Int.cast_zero, mul_zero, zero_div, sub_zero]
    split_ifs with hle
    · exact le_antisymm hpos hle
    · rfl

/-- Witness of C12 (amended): `ChangeState (TX)` on the test set-up at 0 s, the time of the
last transition of its radio. -/
theorem C12_rejected_iff_before_a_timestamp_witness :
    ∃ w' m', testWorld.ChangeState 0 TX 0 false = .ok w' ∧ w'.models[0]? = some m' ∧
      (∀ s, m'.timeIn s = testModel.timeIn s) := by
  obtain ⟨-, -, hzero, -⟩ := C12_rejected_iff_before_a_timestamp testWorld 0 testModel TX 0
    false rfl testWorld_valid
  obtain ⟨w', m', h, hm', ht, -⟩ := hzero rfl
    (Or.inr (by simp [testWorld, install, testSource, LoraEnergySource.new]))
  exact ⟨w', m', h, hm', ht⟩

/-- C13: for every run of calls that are all accepted, and every model that is not depleted
at the end of the run, each of the four cumulative durations has grown by the total length
of the closed intervals that the model has spent in that mode: the interval from the last
time stamp to the first transition in the mode the model was in, and the intervals between
consecutive transitions in the mode the earlier one has switched to. -/
theorem C13_durations_are_closed_interval_lengths (w w' : World) (es : List Event) (i : Nat)
    (m m' : LoraRadioEnergyModel) (hrun : w.run es = .ok w') (hm : w.models[i]? = some m)
    (hm' : w'.models[i]? = some m') (hd : m'.m_energyDepleted = false) :
    m'.GetTotalTxTime = m.GetTotalTxTime
      + spentIn TX m.GetCurrentState m.m_lastStampTime (transitionsOf i es) ∧
    m'.GetTotalRxTime = m.GetTotalRxTime
      + spentIn RX m.GetCurrentState m.m_lastStampTime (transitionsOf i es) ∧
    m'.GetTotalStandbyTime = m.GetTotalStandbyTime
      + spentIn STANDBY m.GetCurrentState m.m_lastStampTime (transitionsOf i es) ∧
    m'.GetTotalSleepTime = m.GetTotalSleepTime
      + spentIn SLEEP m.GetCurrentState m.m_lastStampTime (transitionsOf i es) := by
  have key := run_tracks i es w w' m m' hrun hm hm' hd
  refine ⟨?_, ?_, ?_, ?_⟩
  · simpa [timeIn, GetCurrentState] using key TX
  · simpa [timeIn, GetCurrentState, TX, RX] using key RX
  · simpa [timeIn, GetCurrentState, TX, RX, STANDBY] using key STANDBY
  · simpa [timeIn, GetCurrentState, TX, RX, STANDBY, SLEEP] using key SLEEP

/-- Witness of C13: the sequence of the test suite on the fresh radio of the test set-up
(3.7 V, 5.55 J): `NotifyTxStart (14.0)` at 0 s, `NotifyRxStart` at 1 s, `NotifyStandby` at
2.25 s, `NotifySleep` at 3.75 s and the closing `NotifyStandby` at 5.5 s are accepted and
give 1 s, 1.25 s, 1.5 s and 1.75 s. -/
theorem C13_durations_are_closed_interval_lengths_witness :
    ∃ w' m', testWorld.run (testCalls ++ [closingCall]) = .ok w' ∧
      w'.models[0]? = some m' ∧ m'.m_energyDepleted = false ∧
      m'.GetTotalTxTime = 1000000000 ∧ m'.GetTotalRxTime = 1250000000 ∧
      m'.GetTotalStandbyTime = 1500000000 ∧ m'.GetTotalSleepTime = 1750000000 := by
  obtain ⟨h1, h2, h3, h4⟩ := C13_durations_are_closed_interval_lengths testWorld
    testWorldAtStop (testCalls ++ [closingCall]) 0 testModel testModelAtStop
    testWorld_run_closed rfl rfl rfl
  refine ⟨testWorldAtStop, testModelAtStop, testWorld_run_closed, rfl, rfl, ?_, ?_, ?_, ?_⟩
  · rw [h1]; decide
  · rw [h2]; decide
  · rw [h3]; decide
  · rw [h4]; decide

/-- C14 (the claim fails as stated): after the transitions of the scenario at 0 s, 1 s,
2.25 s and 3.75 s and no further transition, the radio is in SLEEP and `GetTotalSleepTime`
is 0, not 1.75 s. -/
theorem C14_open_sleep_interval_not_counted :
    ∃ w' m', testWorld.run testCalls = .ok w' ∧ w'.models[0]? = some m' ∧
      m'.GetCurrentState = SLEEP ∧ m'.m_lastStampTime = 3750000000 ∧
      m'.GetTotalSleepTime = 0 ∧ m'.GetTotalSleepTime ≠ 1750000000 :=
  ⟨testWorldAt3, testModelAt3, testWorld_run_testCalls, rfl, rfl, rfl, rfl, by decide⟩

/-- C14 (amended): the four duration accessors return the accumulators, which hold the
closed intervals only: a refresh of the source, at any time, leaves them as they were. In the
scenario (transitions at 0 s, 1 s, 2.25 s and 3.75 s) they read 1 s, 1.25 s, 1.5 s and, for
the sleep interval that is open since 3.75 s, 0 s; `GetTotalSleepTime` is 1.75 s after the
closing transition at 5.5 s. -/
theorem C14_accessors_read_closed_intervals (w w' : World) (now : Int) (finished : Bool)
    (i : Nat) (m m' : LoraRadioEnergyModel)
    (h : w.UpdateEnergySource now finished = .ok w')
    (hm : w.models[i]? = some m) (hm' : w'.models[i]? = some m') :
    (m'.GetTotalTxTime = m.GetTotalTxTime ∧ m'.GetTotalRxTime = m.GetTotalRxTime ∧
      m'.GetTotalStandbyTime = m.GetTotalStandbyTime ∧
      m'.GetTotalSleepTime = m.GetTotalSleepTime) ∧
    (testWorld.run testCalls = .ok testWorldAt3 ∧
      testWorldAt3.models[0]? = some testModelAt3 ∧
      testModelAt3.GetTotalTxTime = 1000000000 ∧ testModelAt3.GetTotalRxTime = 1250000000 ∧
      testModelAt3.GetTotalStandbyTime = 1500000000 ∧ testModelAt3.GetTotalSleepTime = 0) ∧
    (testWorldAt3.step closingCall = .ok testWorldAtStop ∧
      testWorldAtStop.models[0]? = some testModelAtStop ∧
      testModelAtStop.GetTotalSleepTime = 1750000000) := by
  obtain ⟨key, -, -, -⟩ := UpdateEnergySource_timeIn w w' now finished i m m' h hm hm'
  refine ⟨⟨?_, ?_, ?_, ?_⟩, ⟨testWorld_run_testCalls, rfl, rfl, rfl, rfl, rfl⟩,
    ⟨testWorldAt3_closing, rfl, rfl⟩⟩
  · simpa [timeIn] using key TX
  · simpa [timeIn, TX, RX] using key RX
  · simpa [timeIn, TX, RX, STANDBY] using key STANDBY
  · simpa [timeIn, TX, RX, STANDBY, SLEEP] using key SLEEP

/-- Witness of C14 (amended): the refresh of the source at 5.5 s after the four transitions
of the scenario returns, and the radio still reads 0 s of sleep. -/
theorem C14_accessors_read_closed_intervals_witness :
    ∃ w' m', testWorldAt3.UpdateEnergySource 5500000000 false = .ok w' ∧
      w'.models[0]? = some m' ∧ m'.GetTotalSleepTime = 0 := by
  obtain ⟨w', h⟩ := UpdateEnergySource_ok testWorldAt3 5500000000 false testWorldAt3_valid
    (Or.inr (by simp [testWorldAt3]))
  have hlt : 0 < w'.models.length := by
    rcases UpdateEnergySource_models _ _ _ _ h with ⟨hmod, -⟩ | ⟨hmod, -⟩
    · rw [hmod]; simp [testWorldAt3]
    · rw [hmod]; simp [testWorldAt3]
  have hm' : w'.models[0]? = some (w'.models.get ⟨0, hlt⟩) := List.getElem?_eq_getElem hlt
  refine ⟨w', _, h, hm', ?_⟩
  rw [(C14_accessors_read_closed_intervals testWorldAt3 w' 5500000000 false 0 testModelAt3 _
    h rfl hm').1.2.2.2]
  rfl

/-- C15 (the claim fails as stated): `CalcTxCurrent (14.0)` returns 0.0435 A, which does not
round to 0.053 at three decimal places (it is not in the interval from 0.0525 to 0.0535). -/
theorem C15_current_at_14_is_not_0053 :
    ∃ c, CalcTxCurrent 14 = .ok c ∧ ¬ (525 / 10000 ≤ c ∧ c < 535 / 10000) := by
  refine ⟨435 / 10000, CalcTxCurrent_14, ?_⟩
  norm_num

/-- C15 (amended): `CalcTxCurrent (14.0)` returns exactly 0.0435 A (28 mA plus a quarter of
the 62 mA between 13 dBm and 17 dBm), the value of the default transmit current, and
`NotifyTxStart (14.0)` at 0 s on the test set-up returns and stores it in `m_txCurrentA`. -/
theorem C15_current_at_14_is_00435 :
    CalcTxCurrent 14 = .ok (435 / 10000) ∧
    testModel.GetTxCurrentA = 435 / 10000 ∧
    ∃ w' m', testWorld.NotifyTxStart 0 14 0 false = .ok w' ∧ w'.models[0]? = some m' ∧
      m'.GetTxCurrentA = 435 / 10000 := by
  refine ⟨CalcTxCurrent_14, rfl, ?_⟩
  have h1 : testWorld.CalcTxCurrentFromModel 0 14 = .ok testWorld := by
    simp [World.CalcTxCurrentFromModel, LoraRadioEnergyModel.CalcTxCurrentFromModel,
      LoraConsumptionModel.CalcTxCurrent, CalcTxCurrent_14, testWorld, install, testModel,
      LoraRadioEnergyModel.new]
  obtain ⟨w', h⟩ := ChangeState_ok testWorld 0 TX 0 false testModel rfl
    (by simp [testModel, LoraRadioEnergyModel.new]) testWorld_valid
    (Or.inr (by simp [testWorld, install, testSource, LoraEnergySource.new]))
  have hn : testWorld.NotifyTxStart 0 14 0 false = .ok w' := by
    simp only [NotifyTxStart, h1]
    exact h
  obtain ⟨m, cm, c, m', hm, hcm, hcur, hm', htx⟩ := NotifyTxStart_txCurrent _ _ _ _ _ _ hn
  refine ⟨w', m', hn, hm', ?_⟩
  have hm0 : testWorld.models[0]? = some testModel := rfl
  rw [hm0] at hm
  injection hm with hm
  subst hm
  cases cm
  simp only [LoraConsumptionModel.CalcTxCurrent, CalcTxCurrent_14] at hcur
  injection hcur with hcur
  rw [GetTxCurrentA, htx, ← hcur]

/-- C16 (the claim fails as stated): the radio of `drainWorld` has no consumption model, and
`NotifyTxStart (14.0)` at 0 s is rejected by an assertion. -/
theorem C16_notifyTxStart_rejected_without_model :
    nineAmpereModel.m_consumptionModel = none ∧
    drainWorld.NotifyTxStart 0 14 0 false = .error Error.assertFailed :=
  ⟨rfl, NotifyTxStart_without_model drainWorld 0 nineAmpereModel 14 0 false rfl rfl⟩

/-- C16 (amended): for a model with no consumption model attached, `NotifyTxStart` is
rejected for every power, at every time: `CalcTxCurrentFromModel` fails its assertion
`m_consumptionModel != NULL` before any accounting is done. -/
theorem C16_notifyTxStart_needs_a_consumption_model (w : World) (i : Nat)
    (m : LoraRadioEnergyModel) (p : ℚ) (now : Int) (finished : Bool)
    (hm : w.models[i]? = some m) (hc : m.m_consumptionModel = none) :
    m.CalcTxCurrentFromModel p = .error Error.assertFailed ∧
    w.CalcTxCurrentFromModel i p = .error Error.assertFailed ∧
    w.NotifyTxStart i p now finished = .error Error.assertFailed := by
  refine ⟨?_, ?_, NotifyTxStart_without_model w i m p now finished hm hc⟩
  · simp [LoraRadioEnergyModel.CalcTxCurrentFromModel, hc]
  · simp [World.CalcTxCurrentFromModel, hm, LoraRadioEnergyModel.CalcTxCurrentFromModel, hc]

/-- Witness of C16 (amended): 10 dBm at 1 s on the radio of `drainWorld`. -/
theorem C16_notifyTxStart_needs_a_consumption_model_witness :
    drainWorld.NotifyTxStart 0 10 1000000000 false = .error Error.assertFailed :=
  (C16_notifyTxStart_needs_a_consumption_model drainWorld 0 nineAmpereModel 10 1000000000
    false rfl rfl).2.2

/-- C17 (the claim fails as stated): a supply voltage of -1 V, a low threshold of 2 with a
high threshold of 0, and a transmit current of -1 A are all accepted and stored. -/
theorem C17_out_of_range_values_accepted :
    tenJouleSource.SetSupplyVoltage (-1)
      = .ok { tenJouleSource with m_supplyVoltageV := -1 } ∧
    tenJouleSource.SetLowBatteryThreshold 2
      = .ok { tenJouleSource with m_lowBatteryTh := 2 } ∧
    tenJouleSource.SetHighBatteryThreshold 0
      = .ok { tenJouleSource with m_highBatteryTh := 0 } ∧
    nineAmpereModel.SetTxCurrentA (-1) = .ok { nineAmpereModel with m_txCurrentA := -1 } :=
  ⟨rfl, rfl, rfl, rfl⟩

/-- C17 (amended): configuration validates the initial energy and the initial charge only:
`SetInitialEnergy` and `SetInitialCharge` fail their assertion exactly for the negative
values and store the others; the two thresholds, the supply voltage, the update interval
and the four per-mode currents are stored as given, for every value. -/
theorem C17_only_energy_and_charge_are_validated (s : LoraEnergySource)
    (m : LoraRadioEnergyModel) (v : ℚ) (t : Int) :
    (s.SetInitialEnergy v = if v < 0 then .error Error.assertFailed
      else .ok { s with m_initialEnergyJ := v, m_remainingEnergyJ := v }) ∧
    (s.SetInitialCharge v = if v < 0 then .error Error.assertFailed
      else .ok { s with m_initialChargemAh := v, m_remainingChargemAh := v }) ∧
    s.SetLowBatteryThreshold v = .ok { s with m_lowBatteryTh := v } ∧
    s.SetHighBatteryThreshold v = .ok { s with m_highBatteryTh := v } ∧
    s.SetSupplyVoltage v = .ok { s with m_supplyVoltageV := v } ∧
    s.SetEnergyUpdateInterval t = .ok { s with m_energyUpdateInterval := t } ∧
    m.SetTxCurrentA v = .ok { m with m_txCurrentA := v } ∧
    m.SetRxCurrentA v = .ok { m with m_rxCurrentA := v } ∧
    m.SetStandbyCurrentA v = .ok { m with m_standbyCurrentA := v } ∧
    m.SetSleepCurrentA v = .ok { m with m_sleepCurrentA := v } := by
  refine ⟨?_, ?_, rfl, rfl, rfl, rfl, rfl, rfl, rfl, rfl⟩
  · by_cases hv : v < 0
    · simp [LoraEnergySource.SetInitialEnergy, hv]
    · simp [LoraEnergySource.SetInitialEnergy, hv, not_lt.mp hv]
  · by_cases hv : v < 0
    · simp [LoraEnergySource.SetInitialCharge, hv]
    · simp [LoraEnergySource.SetInitialCharge, hv, not_lt.mp hv]

/-- C18: when the simulation is finished, `UpdateEnergySource` returns without an error and
leaves the whole world as it was: remaining energy and charge, depleted flag, time of the
last refresh, pending events and event handle, models and notifications; and
`GetRemainingEnergy` then returns the stored remaining energy. -/
theorem C18_refresh_after_finish_is_a_no_op (w : World) (now : Int) :
    w.UpdateEnergySource now true = .ok w ∧
    w.GetRemainingEnergy now true = .ok (w, w.source.m_remainingEnergyJ) := by
  have h := UpdateEnergySource_finished w now
  exact ⟨h, by simp only [GetRemainingEnergy, h]⟩

/-- C19 (the claim fails as stated): the refresh of `drainWorld` at 1 s schedules the next
refresh for 2 s, and that event is still pending after `DoDispose`. -/
theorem C19_refresh_pending_after_dispose :
    drainWorld.UpdateEnergySource 1000000000 false = .ok drainWorldAt1 ∧
    drainWorldAt1.DoDispose.pendingRefreshes = [(0, 2000000000)] :=
  ⟨drainWorld_refresh_at1, rfl⟩

/-- C19 (amended): `DoDispose` only drops the references of the source to the installed
models; it cancels nothing: the pending refresh events and the event handle of the source are
as before, so the event that a refresh at time `now` has scheduled for
`now + updateInterval` is still pending after `DoDispose`. -/
theorem C19_dispose_cancels_nothing (w w' : World) (now : Int)
    (h : w.UpdateEnergySource now false = .ok w') :
    w'.DoDispose.pendingRefreshes = w'.pendingRefreshes ∧
    w'.DoDispose.source = w'.source ∧
    w'.DoDispose.models = [] ∧
    w'.DoDispose.source.m_energyUpdateEvent = some w.sim.nextUid ∧
    (w.sim.nextUid, now + w.source.m_energyUpdateInterval) ∈ w'.DoDispose.pendingRefreshes := by
  obtain ⟨hp, -⟩ := UpdateEnergySource_pending w w' now h
  obtain ⟨tot, -, -, -, -, -, -, -, hev⟩ := UpdateEnergySource_source w w' now h
  refine ⟨rfl, rfl, rfl, hev, ?_⟩
  show _ ∈ w'.sim.pending
  rw [hp]
  simp

/-- Witness of C19 (amended): the refresh of the test set-up at 1 s. -/
theorem C19_dispose_cancels_nothing_witness :
    ∃ w', testWorld.UpdateEnergySource 1000000000 false = .ok w' ∧
      (testWorld.sim.nextUid, 1000000000 + testWorld.source.m_energyUpdateInterval)
        ∈ w'.DoDispose.pendingRefreshes := by
  obtain ⟨w', h⟩ := UpdateEnergySource_ok testWorld 1000000000 false testWorld_valid
    (Or.inr (by simp [testWorld, install, testSource, LoraEnergySource.new]))
  exact ⟨w', h, (C19_dispose_cancels_nothing testWorld w' 1000000000 h).2.2.2.2⟩

/-- C20: for every `ChangeState` call at time `now` that returns, on a model whose current
mode is `m.GetCurrentState`, with `elapsed = now - m_lastStampTime`: the current `c` of that
mode is defined, the duration of that mode grows by `elapsed`, its energy and the total
energy grow by `c * supplyVoltage * elapsed in seconds`, the time stamp becomes `now`, and
the durations and energies of the other modes are as before. -/
theorem C20_changeState_accounting (w w' : World) (i : Nat) (m : LoraRadioEnergyModel)
    (newState now : Int) (finished : Bool)
    (hm : w.models[i]? = some m)
    (h : w.ChangeState i newState now finished = .ok w') :
    ∃ m' c, w'.models[i]? = some m' ∧ m.DoGetCurrentA = .ok c ∧
      m.m_lastStampTime ≤ now ∧
      (∀ s, m'.timeIn s
        = m.timeIn s + if s = m.GetCurrentState then now - m.m_lastStampTime else 0) ∧
      (∀ s, m'.energyIn s
        = m.energyIn s + if s = m.GetCurrentState
            then c * w.source.GetSupplyVoltage * Time.GetSeconds (now - m.m_lastStampTime)
            else 0) ∧
      m'.GetTotalEnergyConsumption = m.GetTotalEnergyConsumption
        + c * w.source.GetSupplyVoltage * Time.GetSeconds (now - m.m_lastStampTime) ∧
      m'.m_lastStampTime = now := by
  obtain ⟨m', c, hm', hacc, -, -⟩ := ChangeState_model w w' i newState now finished m hm h
  obtain ⟨m0, -, -, -, hm0, hle, -⟩ := ChangeState_cases w w' i newState now finished h
  rw [hm] at hm0
  injection hm0 with hm0
  subst hm0
  refine ⟨m', c, hm', hacc.current, hle, hacc.time, ?_, ?_, hacc.stamp⟩
  · intro s
    have := hacc.energy s
    rw [show c * w.source.GetSupplyVoltage * Time.GetSeconds (now - m.m_lastStampTime)
      = Time.GetSeconds (now - m.m_lastStampTime) * c * w.source.m_supplyVoltageV by
        simp only [LoraEnergySource.GetSupplyVoltage]; ring]
    exact this
  · have := hacc.total
    rw [show c * w.source.GetSupplyVoltage * Time.GetSeconds (now - m.m_lastStampTime)
      = Time.GetSeconds (now - m.m_lastStampTime) * c * w.source.m_supplyVoltageV by
        simp only [LoraEnergySource.GetSupplyVoltage]; ring]
    exact this

/-- Witness of C20: `ChangeState (TX)` at 1 s on the test set-up. -/
theorem C20_changeState_accounting_witness :
    ∃ w' m', testWorld.ChangeState 0 TX 1000000000 false = .ok w' ∧
      w'.models[0]? = some m' ∧ m'.timeIn SLEEP = 1000000000 ∧
      m'.m_lastStampTime = 1000000000 := by
  obtain ⟨w', h⟩ := ChangeState_ok testWorld 0 TX 1000000000 false testModel rfl
    (by simp [testModel, LoraRadioEnergyModel.new]) testWorld_valid
    (Or.inr (by simp [testWorld, install, testSource, LoraEnergySource.new]))
  obtain ⟨m', c, hm', -, -, ht, -, -, hs⟩ := C20_changeState_accounting testWorld w' 0
    testModel TX 1000000000 false rfl h
  refine ⟨w', m', h, hm', ?_, hs⟩
  rw [ht SLEEP]
  simp [timeIn, GetCurrentState, GetTotalSleepTime, testModel, LoraRadioEnergyModel.new,
    SLEEP, TX, RX, STANDBY]

/-- C21 (the claim fails as stated): `ChangeState (RX)` at 1 s on the test set-up, whose
radio transmits since 0 s at 0.0435 A, called when the simulation is finished: the refresh it
triggers returns at once, and the 5.55 J of the source are not lowered by
`0.0435 * 3.7 * 1` J. -/
theorem C21_no_deduction_when_finished :
    ∃ w' m c, testWorldAt0.models = [m] ∧ m.DoGetCurrentA = .ok c ∧
      testWorldAt0.ChangeState 0 RX 1000000000 true = .ok w' ∧
      testWorldAt0.source.m_remainingEnergyJ
        > c * testWorldAt0.source.GetSupplyVoltage
            * Time.GetSeconds (1000000000 - testWorldAt0.source.m_lastUpdateTime) ∧
      w'.source.m_remainingEnergyJ = testWorldAt0.source.m_remainingEnergyJ ∧
      w'.source.m_remainingEnergyJ ≠ testWorldAt0.source.m_remainingEnergyJ
        - c * testWorldAt0.source.GetSupplyVoltage
            * Time.GetSeconds (1000000000 - testWorldAt0.source.m_lastUpdateTime) := by
  obtain ⟨w', h⟩ := ChangeState_ok testWorldAt0 0 RX 1000000000 true _ rfl
    (by simp [testWorldAt0, testModel, LoraRadioEnergyModel.new])
    (by
      intro x hx
      simp only [testWorldAt0, List.mem_singleton] at hx
      subst hx
      exact Or.inl rfl)
    (Or.inl rfl)
  obtain ⟨hs, -, -⟩ := ChangeState_finished _ _ _ _ _ h
  refine ⟨w', _, 435 / 10000, rfl, ?_, h, ?_, by rw [hs], ?_⟩
  · simp [DoGetCurrentA, TX, testModel, LoraRadioEnergyModel.new]
  · norm_num [testWorldAt0, testSource, LoraEnergySource.new,
      LoraEnergySource.GetSupplyVoltage, Time.GetSeconds]
  · rw [hs]
    norm_num [testWorldAt0, testSource, LoraEnergySource.new,
      LoraEnergySource.GetSupplyVoltage, Time.GetSeconds]

/-- C21 (amended): in a `ChangeState` call on the one model of a source, `c` being the
current of the mode that ends: when the simulation is not finished, the refresh that the
call triggers sets the time of the last refresh to `now` and, if the remaining energy
exceeds `c * supplyVoltage * (now - lastUpdateTime)`, leaves exactly that much less, and
not the amount that any other current would give (the current of the new mode, if it
differs, included). When the simulation is finished the source is left as it was. -/
theorem C21_refresh_polls_outgoing_current (w w' : World) (m : LoraRadioEnergyModel)
    (newState now : Int) (finished : Bool) (c : ℚ)
    (hsingle : w.models = [m]) (hc : m.DoGetCurrentA = .ok c)
    (h : w.ChangeState 0 newState now finished = .ok w') :
    (finished = false → w'.source.m_lastUpdateTime = now) ∧
    (finished = false →
      w.source.m_remainingEnergyJ
        > c * w.source.GetSupplyVoltage * Time.GetSeconds (now - w.source.m_lastUpdateTime) →
      w'.source.m_remainingEnergyJ = w.source.m_remainingEnergyJ
        - c * w.source.GetSupplyVoltage * Time.GetSeconds (now - w.source.m_lastUpdateTime) ∧
      ∀ c2 : ℚ,
        c2 * w.source.GetSupplyVoltage * Time.GetSeconds (now - w.source.m_lastUpdateTime)
          ≠ c * w.source.GetSupplyVoltage
              * Time.GetSeconds (now - w.source.m_lastUpdateTime) →
        w'.source.m_remainingEnergyJ ≠ w.source.m_remainingEnergyJ
          - c2 * w.source.GetSupplyVoltage
              * Time.GetSeconds (now - w.source.m_lastUpdateTime)) ∧
    (finished = true → w'.source = w.source) := by
  refine ⟨?_, ?_, ?_⟩
  · intro hf
    subst hf
    exact (ChangeState_single_source w w' m newState now c hsingle hc h).2.1
  · intro hf hgt
    subst hf
    have hrem := (ChangeState_single_source w w' m newState now c hsingle hc h).1
    rw [deduct_of_lt _ _ _ hgt] at hrem
    refine ⟨hrem, ?_⟩
    intro c2 hne heq
    rw [hrem] at heq
    exact hne (by linarith)
  · intro hf
    subst hf
    exact (ChangeState_finished w w' 0 newState now h).1

/-- Witness of C21 (amended): `ChangeState (RX)` at 1 s on the test set-up, whose radio
transmits since 0 s, while the simulation runs. -/
theorem C21_refresh_polls_outgoing_current_witness :
    testWorldAt0.ChangeState 0 RX 1000000000 false = .ok testWorldAt1 ∧
    testWorldAt1.source.m_remainingEnergyJ = testWorldAt0.source.m_remainingEnergyJ
      - 435 / 10000 * testWorldAt0.source.GetSupplyVoltage
          * Time.GetSeconds (1000000000 - testWorldAt0.source.m_lastUpdateTime) :=
  ⟨testWorldAt0_changeState_RX,
    ((C21_refresh_polls_outgoing_current testWorldAt0 testWorldAt1 _ RX 1000000000 false
      (435 / 10000) rfl (by simp [DoGetCurrentA, TX, testModel, LoraRadioEnergyModel.new])
      testWorldAt0_changeState_RX).2.1 rfl
      (by norm_num [testWorldAt0, testSource, LoraEnergySource.new,
        LoraEnergySource.GetSupplyVoltage, Time.GetSeconds])).1⟩

/-- C22: for a model with the interpolated consumption model attached and every power of at
most 20 dBm (the span of the table, 7 dBm to 20 dBm, included), `NotifyTxStart` is, on every
world, the result of `ChangeState (TX)` on the world in which `m_txCurrentA` of the model has
been set to `CalcTxCurrent` of the power, which is also what the spec words; `NotifyRxStart`,
`NotifySleep` and `NotifyStandby` are the results of `ChangeState (RX)`,
`ChangeState (SLEEP)` and `ChangeState (STANDBY)`, and leave `m_txCurrentA` as it was. -/
theorem C22_listener_refines_changeState (w : World) (i : Nat) (m : LoraRadioEnergyModel)
    (p : ℚ) (now : Int) (finished : Bool) (hm : w.models[i]? = some m)
    (hcm : m.m_consumptionModel = some LoraConsumptionModel.Interpolated)
    (h20 : p ≤ 20) :
    (∃ c, CalcTxCurrent p = .ok c ∧
      w.NotifyTxStart i p now finished
        = ChangeState { w with models := w.models.set i { m with m_txCurrentA := c } } i TX now
            finished ∧
      ∀ w' m', w.NotifyTxStart i p now finished = .ok w' → w'.models[i]? = some m' →
        m'.m_txCurrentA = c) ∧
    w.NotifyTxStart i p now finished = w.specNotifyTransmitStart i p now finished ∧
    w.NotifyRxStart i now finished = w.ChangeState i RX now finished ∧
    w.NotifySleep i now finished = w.ChangeState i SLEEP now finished ∧
    w.NotifyStandby i now finished = w.ChangeState i STANDBY now finished ∧
    (∀ w' m', w.NotifyRxStart i now finished = .ok w' → w'.models[i]? = some m' →
      m'.m_txCurrentA = m.m_txCurrentA) ∧
    (∀ w' m', w.NotifySleep i now finished = .ok w' → w'.models[i]? = some m' →
      m'.m_txCurrentA = m.m_txCurrentA) ∧
    (∀ w' m', w.NotifyStandby i now finished = .ok w' → w'.models[i]? = some m' →
      m'.m_txCurrentA = m.m_txCurrentA) := by
  have hkeep : ∀ (ns : Int) (w' : World) (m' : LoraRadioEnergyModel),
      w.ChangeState i ns now finished = .ok w' → w'.models[i]? = some m' →
      m'.m_txCurrentA = m.m_txCurrentA := by
    intro ns w' m' h hm'
    obtain ⟨m'', c, hm'', hacc, -, -⟩ := ChangeState_model w w' i ns now finished m hm h
    rw [hm'] at hm''
    injection hm'' with hm''
    subst hm''
    exact hacc.tx
  obtain ⟨c, hc⟩ := InterpolatedLoraConsumptionModel.CalcTxCurrent_ok p h20
  have hcalc : w.CalcTxCurrentFromModel i p
      = .ok { w with models := w.models.set i { m with m_txCurrentA := c } } := by
    simp [World.CalcTxCurrentFromModel, hm, LoraRadioEnergyModel.CalcTxCurrentFromModel, hcm,
      LoraConsumptionModel.CalcTxCurrent, hc]
  have htx : w.NotifyTxStart i p now finished
      = ChangeState { w with models := w.models.set i { m with m_txCurrentA := c } } i TX now
          finished := by
    simp only [NotifyTxStart, hcalc]
  refine ⟨⟨c, hc, htx, ?_⟩, ?_, rfl, rfl, rfl, hkeep RX, hkeep SLEEP, hkeep STANDBY⟩
  · intro w' m' h hm'
    obtain ⟨m0, cm, c0, m'', hm0, hcm0, hc0, hm'', htx0⟩ :=
      NotifyTxStart_txCurrent w w' i p now finished h
    rw [hm] at hm0
    injection hm0 with hm0
    subst hm0
    rw [hm'] at hm''
    injection hm'' with hm''
    subst hm''
    cases cm
    simp only [LoraConsumptionModel.CalcTxCurrent, hc] at hc0
    injection hc0 with hc0
    rw [htx0, hc0]
  · rw [htx]
    simp only [specNotifyTransmitStart, hm, hcm, LoraConsumptionModel.CalcTxCurrent, hc]

/-- Witness of C22: `NotifyTxStart (14.0)` at 0 s on the test set-up. -/
theorem C22_listener_refines_changeState_witness :
    testWorld.NotifyTxStart 0 14 0 false = testWorld.specNotifyTransmitStart 0 14 0 false :=
  (C22_listener_refines_changeState testWorld 0 testModel 14 0 false rfl rfl
    (by norm_num)).2.1

/-- C23: in every world reached by a run from the installation of a source, at most one
refresh event is pending. After every call made there while the simulation is not finished
that refreshes the source (the refresh itself, a read of the remaining energy, `ChangeState`
or a notification of a listener), exactly one refresh event is pending: the one that the call
has scheduled, due at the time of the call plus the update interval, which the handle of the
source names; no event that was pending before the call is pending after it. -/
theorem C23_one_refresh_pending (source : LoraEnergySource)
    (models : List LoraRadioEnergyModel) (es : List Event) (w w' : World) (e : Event)
    (hrun : (install source models).run es = .ok w)
    (hfin : e.finished = false)
    (hact : ∀ i p, e.action ≠ Action.CalcTxCurrentFromModel i p)
    (h : w.step e = .ok w') :
    w.pendingRefreshes.length ≤ 1 ∧
    w.source.m_energyUpdateInterval = source.m_energyUpdateInterval ∧
    w'.pendingRefreshes = [(w.sim.nextUid, e.now + w.source.m_energyUpdateInterval)] ∧
    w'.source.m_energyUpdateEvent = some w.sim.nextUid ∧
    (∀ ev ∈ w.pendingRefreshes, ev ∉ w'.pendingRefreshes) := by
  obtain ⟨hinv, hint⟩ := run_oneRefresh es _ w (OneRefresh_install source models) hrun
  obtain ⟨-, -, hp⟩ := step_oneRefresh w w' e hinv h
  obtain ⟨hp1, hp2⟩ := hp hfin hact
  refine ⟨OneRefresh_length w hinv, hint, hp1, hp2, ?_⟩
  intro ev hev hev'
  rw [hp1, List.mem_singleton] at hev'
  rcases hinv with h0 | ⟨uid, due, h1, -, hlt⟩
  · rw [h0] at hev
    cases hev
  · rw [h1, List.mem_singleton] at hev
    rw [hev] at hev'
    have : uid = w.sim.nextUid := congrArg Prod.fst hev'
    omega

/-- Witness of C23: after the four calls of the test suite, the closing `NotifyStandby` at
5.5 s leaves one pending refresh, due at 6.5 s. -/
theorem C23_one_refresh_pending_witness :
    testWorldAt3.step closingCall = .ok testWorldAtStop ∧
    testWorldAtStop.pendingRefreshes = [(4, 6500000000)] :=
  ⟨testWorldAt3_closing,
    (C23_one_refresh_pending testSource [testModel] testCalls testWorldAt3 testWorldAtStop
      closingCall testWorld_run_testCalls rfl (fun i p hx => by cases hx)
      testWorldAt3_closing).2.2.1⟩

/-- C24 (the claim fails as stated): on the test set-up, `NotifyTxStart (14.0)` at 0 s, the
periodic refresh at 1 s and `NotifyTxStart (20.0)` at 2 s are accepted, with at least 4.9 J
left throughout. After the last notification the source has given 12469 / 20000 J
(`0.0435 * 3.7 * 1 + 0.125 * 3.7 * 1`), and the model has accounted 37 / 40 J
(`0.125 * 3.7 * 2`): the two seconds in TX are closed at the current of the new power. -/
theorem C24_tx_power_changed_while_transmitting :
    testWorld.run [⟨0, false, Action.NotifyTxStart 0 14⟩,
      ⟨1000000000, false, Action.UpdateEnergySource⟩,
      ⟨2000000000, false, Action.NotifyTxStart 0 20⟩] = .ok overlapWorldAt2 ∧
    testWorldAt0.source.m_remainingEnergyJ = 111 / 20 ∧
    overlapWorldAt1.source.m_remainingEnergyJ = 107781 / 20000 ∧
    overlapWorldAt2.source.m_remainingEnergyJ = 98531 / 20000 ∧
    ∃ m, overlapWorldAt2.models = [m] ∧
      overlapWorldAt2.source.m_initialEnergyJ - overlapWorldAt2.source.m_remainingEnergyJ
        = 12469 / 20000 ∧
      m.GetTotalEnergyConsumption = 37 / 40 ∧
      overlapWorldAt2.source.m_initialEnergyJ - overlapWorldAt2.source.m_remainingEnergyJ
        ≠ m.GetTotalEnergyConsumption := by
  refine ⟨?_, ?_, rfl, rfl, _, rfl, ?_, rfl, ?_⟩
  · simp only [run, step, testWorld_txStart, testWorldAt0_refresh, overlapWorldAt1_txStart]
  · norm_num [testWorldAt0, testSource, LoraEnergySource.new]
  · norm_num [overlapWorldAt2, testSource, LoraEnergySource.new]
  · norm_num [overlapWorldAt2, testSource, LoraEnergySource.new, GetTotalEnergyConsumption]

/-- C24 (amended): a fresh model installed alone on a fresh source, and a run of calls made
while the simulation is not finished: refreshes, reads of the remaining energy and
notifications of the listener of the model, each made with more energy left than the
refresh of the call deducts, the transmit-start notifications arriving while the model is
not in TX. If the run returns and its last call is a notification, the initial energy of the
source is as configured, and the initial energy less the remaining energy is the total
energy consumption of the model. -/
theorem C24_energy_drawn_is_energy_accounted (initialEnergyJ initialChargemAh supplyVoltageV
    lowBatteryTh highBatteryTh : ℚ) (interval : Int)
    (txCurrentA rxCurrentA standbyCurrentA sleepCurrentA : ℚ)
    (consumptionModel : Option LoraConsumptionModel) (es : List Event) (e : Event) (w' : World)
    (hscope : (install (LoraEnergySource.new initialEnergyJ initialChargemAh supplyVoltageV
        lowBatteryTh highBatteryTh interval)
      [LoraRadioEnergyModel.new txCurrentA rxCurrentA standbyCurrentA sleepCurrentA
        consumptionModel]).runInScope es)
    (hrun : (install (LoraEnergySource.new initialEnergyJ initialChargemAh supplyVoltageV
        lowBatteryTh highBatteryTh interval)
      [LoraRadioEnergyModel.new txCurrentA rxCurrentA standbyCurrentA sleepCurrentA
        consumptionModel]).run es = .ok w')
    (hlast : es.getLast? = some e) (hnot : e.isNotificationOf 0) :
    ∃ m', w'.models = [m'] ∧ w'.source.GetInitialEnergy = initialEnergyJ ∧
      initialEnergyJ - w'.source.m_remainingEnergyJ = m'.GetTotalEnergyConsumption := by
  have h0 : (install (LoraEnergySource.new initialEnergyJ initialChargemAh supplyVoltageV
        lowBatteryTh highBatteryTh interval)
      [LoraRadioEnergyModel.new txCurrentA rxCurrentA standbyCurrentA sleepCurrentA
        consumptionModel]).Conserved := by
    refine ⟨_, rfl, ?_⟩
    intro c _
    simp [install, LoraEnergySource.new, LoraRadioEnergyModel.new, GetTotalEnergyConsumption,
      Time.GetSeconds]
  obtain ⟨-, hi, hk⟩ := run_conserved es _ w' h0 hscope hrun
  obtain ⟨m', hm', heq⟩ := hk e hlast hnot
  have hi' : w'.source.m_initialEnergyJ = initialEnergyJ := hi
  refine ⟨m', hm', hi', ?_⟩
  rw [← hi']
  exact heq

/-- Witness of C24 (amended): after the four notifications of the test suite the source has
given 5513 / 25000 J, the total energy consumption of the radio. -/
theorem C24_energy_drawn_is_energy_accounted_witness :
    testWorld.run testCalls = .ok testWorldAt3 ∧
    ∃ m', testWorldAt3.models = [m'] ∧
      555 / 100 - testWorldAt3.source.m_remainingEnergyJ = m'.GetTotalEnergyConsumption := by
  obtain ⟨m', h1, -, h3⟩ := C24_energy_drawn_is_energy_accounted (555 / 100) 1500 (37 / 10)
    (1 / 10) (15 / 100) 1000000000 (435 / 10000) (112 / 10000) (14 / 10000) (18 / 10000000)
    (some LoraConsumptionModel.Interpolated) testCalls
    ⟨3750000000, false, Action.NotifySleep 0⟩ testWorldAt3
    testCalls_inScope testWorld_run_testCalls rfl (Or.inr (Or.inr (Or.inl rfl)))
  exact ⟨testWorld_run_testCalls, m', h1, h3⟩

/-- C25: a fresh source with a non-negative initial energy, thresholds `0 < low < high` and
a non-negative supply voltage, with models whose four currents are not negative, and calls
that store no negative transmit current (powers of at least -3.8 dBm). Once a run has
emitted DEPLETED, the source is depleted, and after every further run it is still depleted
and the notifications that were added hold no RECHARGED. -/
theorem C25_no_recharge_after_depletion (initialEnergyJ initialChargemAh supplyVoltageV
    lowBatteryTh highBatteryTh : ℚ) (interval : Int) (models : List LoraRadioEnergyModel)
    (es1 es2 : List Event) (w1 w2 : World)
    (hinit : 0 ≤ initialEnergyJ) (hlow : 0 < lowBatteryTh) (hth : lowBatteryTh < highBatteryTh)
    (hvolt : 0 ≤ supplyVoltageV) (hcur : ∀ m ∈ models, m.currentsNonneg)
    (hes1 : ∀ e ∈ es1, e.keepsCurrents) (hes2 : ∀ e ∈ es2, e.keepsCurrents)
    (h1 : (install (LoraEnergySource.new initialEnergyJ initialChargemAh supplyVoltageV
      lowBatteryTh highBatteryTh interval) models).run es1 = .ok w1)
    (h2 : w1.run es2 = .ok w2)
    (hdep : Notification.DEPLETED ∈ w1.emitted) :
    w1.source.m_depleted = true ∧ w2.source.m_depleted = true ∧
    ∃ tr, w2.emitted = w1.emitted ++ tr ∧ Notification.RECHARGED ∉ tr := by
  have h0 : (install (LoraEnergySource.new initialEnergyJ initialChargemAh supplyVoltageV
      lowBatteryTh highBatteryTh interval) models).NeverRecharged :=
    ⟨hinit, hlow, hth, hvolt, fun hx => (by cases hx), fun hx => (by cases hx),
      fun hx => (by cases hx)⟩
  obtain ⟨g1, c1⟩ := run_neverRecharged es1 _ w1 hes1 h0 hcur h1
  obtain ⟨g2, -⟩ := run_neverRecharged es2 w1 w2 hes2 g1 c1 h2
  obtain ⟨tr, htr, -⟩ := run_follows es2 w1 w2 h2
  refine ⟨g1.2.2.2.2.2.1 hdep, g2.2.2.2.2.2.1 ?_, tr, htr, ?_⟩
  · rw [htr]
    exact List.mem_append_left _ hdep
  · intro hx
    exact g2.2.2.2.2.2.2 (by rw [htr]; exact List.mem_append_right _ hx)

/-- Witness of C25: the refresh of `drainWorld` at 1 s emits DEPLETED, and the source is
still depleted after the refresh at 2 s. -/
theorem C25_no_recharge_after_depletion_witness :
    ∃ w2, drainWorldAt1.run [⟨2000000000, false, Action.UpdateEnergySource⟩] = .ok w2 ∧
      w2.source.m_depleted = true := by
  have h1 : drainWorld.run [⟨1000000000, false, Action.UpdateEnergySource⟩] = .ok drainWorldAt1 := by
    simp only [run, step, drainWorld_refresh_at1]
  have hv : ∀ m ∈ drainWorldAt1.models, isMode m.m_currentState := by
    intro m hm
    simp only [drainWorldAt1, List.mem_singleton] at hm
    subst hm
    exact Or.inr (Or.inr (Or.inr rfl))
  obtain ⟨w2, hu⟩ := UpdateEnergySource_ok drainWorldAt1 2000000000 false hv
    (Or.inr (by simp [drainWorldAt1]))
  have h2 : drainWorldAt1.run [⟨2000000000, false, Action.UpdateEnergySource⟩] = .ok w2 := by
    simp only [run, step, hu]
  refine ⟨w2, h2, ?_⟩
  exact (C25_no_recharge_after_depletion 10 1500 1 (1 / 10) (15 / 100) 1000000000
    [nineAmpereModel] _ _ drainWorldAt1 w2 (by norm_num) (by norm_num) (by norm_num)
    (by norm_num)
    (fun m hm => by
      rw [List.mem_singleton] at hm
      subst hm
      simp [LoraRadioEnergyModel.currentsNonneg, nineAmpereModel, LoraRadioEnergyModel.new])
    (fun e he i p ha => by
      rw [List.mem_singleton] at he
      subst he
      rcases ha with ha | ha <;> cases ha)
    (fun e he i p ha => by
      rw [List.mem_singleton] at he
      subst he
      rcases ha with ha | ha <;> cases ha)
    h1 h2 (by simp [drainWorldAt1])).2.1

/-- C26: after every refresh made while the simulation is not finished, on a source with a
non-negative initial energy and a low threshold that is at most the high one: the initial
energy and the thresholds are as before; if the depleted flag is set the remaining energy is
at most `high * initialEnergy`, and if it is clear the remaining energy is more than
`low * initialEnergy`. -/
theorem C26_flag_agrees_with_thresholds (w w' : World) (now : Int)
    (hinit : 0 ≤ w.source.m_initialEnergyJ)
    (hth : w.source.m_lowBatteryTh ≤ w.source.m_highBatteryTh)
    (h : w.UpdateEnergySource now false = .ok w') :
    w'.source.m_initialEnergyJ = w.source.m_initialEnergyJ ∧
    w'.source.m_lowBatteryTh = w.source.m_lowBatteryTh ∧
    w'.source.m_highBatteryTh = w.source.m_highBatteryTh ∧
    (w'.source.m_depleted = true →
      w'.source.m_remainingEnergyJ ≤ w'.source.m_highBatteryTh * w'.source.m_initialEnergyJ) ∧
    (w'.source.m_depleted = false →
      w'.source.m_remainingEnergyJ > w'.source.m_lowBatteryTh * w'.source.m_initialEnergyJ) := by
  obtain ⟨hi, hl, hh, hcase⟩ := UpdateEnergySource_emitted w w' now false h
  have hmono : w.source.m_lowBatteryTh * w.source.m_initialEnergyJ
      ≤ w.source.m_highBatteryTh * w.source.m_initialEnergyJ :=
    mul_le_mul_of_nonneg_right hth hinit
  refine ⟨hi, hl, hh, ?_, ?_⟩
  · intro hd
    rw [hh, hi]
    rcases hcase with ⟨-, -, -, -, hle⟩ | ⟨-, -, hd', -, -⟩ | ⟨-, hd', -, -, hn⟩ |
      ⟨-, hd', hor⟩
    · exact le_trans hle hmono
    · rw [hd] at hd'; cases hd'
    · rw [hd] at hd'
      by_contra hx
      exact hn ⟨hd'.symm, not_le.mp hx⟩
    · rcases hor with hf | ⟨-, hn⟩
      · cases hf
      · rw [hd] at hd'
        by_contra hx
        exact hn ⟨hd'.symm, not_le.mp hx⟩
  · intro hd
    rw [hl, hi]
    rcases hcase with ⟨-, -, hd', -, -⟩ | ⟨-, -, -, -, hgt⟩ | ⟨-, hd', -, hn, -⟩ |
      ⟨-, hd', hor⟩
    · rw [hd] at hd'; cases hd'
    · exact lt_of_le_of_lt hmono hgt
    · rw [hd] at hd'
      by_contra hx
      exact hn ⟨hd'.symm, not_lt.mp hx⟩
    · rcases hor with hf | ⟨hn, -⟩
      · cases hf
      · rw [hd] at hd'
        by_contra hx
        exact hn ⟨hd'.symm, not_lt.mp hx⟩

/-- Witness of C26: the refresh of `drainWorld` at 1 s leaves 1 J in a depleted source, at
most `0.15 * 10` J. -/
theorem C26_flag_agrees_with_thresholds_witness :
    drainWorld.UpdateEnergySource 1000000000 false = .ok drainWorldAt1 ∧
    drainWorldAt1.source.m_depleted = true ∧
    drainWorldAt1.source.m_remainingEnergyJ
      ≤ drainWorldAt1.source.m_highBatteryTh * drainWorldAt1.source.m_initialEnergyJ :=
  ⟨drainWorld_refresh_at1, rfl,
    (C26_flag_agrees_with_thresholds drainWorld drainWorldAt1 1000000000
      (by norm_num [drainWorld, install, tenJouleSource, LoraEnergySource.new])
      (by norm_num [drainWorld, install, tenJouleSource, LoraEnergySource.new])
      drainWorld_refresh_at1).2.2.2.1 rfl⟩

/-- C27 (evaluation at the failing input): `CalcTxCurrent (-10.0)` returns the negative
current -31 / 3000 A, extrapolated from the first segment of the table; `NotifyTxStart
(-10.0)` at 0 s on the test set-up stores it, and the refresh at 1 s then leaves more energy
in the source than its initial energy. -/
theorem C27_negative_current_below_span :
    CalcTxCurrent (-10) = .ok (-31 / 3000) ∧ (-31 / 3000 : ℚ) < 0 ∧
    testWorld.NotifyTxStart 0 (-10) 0 false = .ok gainWorldAt0 ∧
    gainWorldAt0.UpdateEnergySource 1000000000 false = .ok gainWorldAt1 ∧
    gainWorldAt1.source.m_remainingEnergyJ > gainWorldAt1.source.m_initialEnergyJ := by
  refine ⟨?_, by norm_num, testWorld_txStart_low, gainWorldAt0_refresh, ?_⟩
  · rw [CalcTxCurrent_low (-10) (by norm_num)]
    norm_num
  · norm_num [gainWorldAt1, testSource, LoraEnergySource.new]

/-- C28: for every power of at most 20 dBm the scan loop of `CalcTxCurrent` returns an index
of at most 2, the four table reads at `index` and `index + 1` succeed, the two powers read
differ (the left one is the smaller), and `CalcTxCurrent` returns a value. -/
theorem C28_scan_stays_in_table (p : ℚ) (hp : p ≤ 20) :
    ∃ index, scanIndex p 0 = .ok index ∧ index ≤ 2 ∧
      index + 1 < power_dBm_lookup_table.length ∧
      index + 1 < curruent_ma_lookup_table.length ∧
      (∃ cL pL cR pR, vectorAt curruent_ma_lookup_table index = .ok cL ∧
        vectorAt power_dBm_lookup_table index = .ok pL ∧
        vectorAt curruent_ma_lookup_table (index + 1) = .ok cR ∧
        vectorAt power_dBm_lookup_table (index + 1) = .ok pR ∧
        pL < pR ∧ pR - pL ≠ 0 ∧
        CalcTxCurrent p = .ok ((cL + (cR - cL) / (pR - pL) * (p - pL)) / 1000)) := by
  rcases scanIndex_le_two p hp with ⟨h13, hs⟩ | ⟨h13, h17, hs⟩ | ⟨h17, hs⟩
  · refine ⟨0, hs, by norm_num, by decide, by decide, 18, 7, 28, 13, rfl, rfl, rfl, rfl,
      by norm_num, by norm_num, CalcTxCurrent_low p h13⟩
  · refine ⟨1, hs, by norm_num, by decide, by decide, 28, 13, 90, 17, rfl, rfl, rfl, rfl,
      by norm_num, by norm_num, CalcTxCurrent_mid p h13 h17⟩
  · refine ⟨2, hs, by norm_num, by decide, by decide, 90, 17, 125, 20, rfl, rfl, rfl, rfl,
      by norm_num, by norm_num, CalcTxCurrent_high p h17 hp⟩

/-- Witness of C28: the power 14 dBm ends the scan at index 1. -/
theorem C28_scan_stays_in_table_witness :
    ∃ index, scanIndex 14 0 = .ok index ∧ index ≤ 2 := by
  obtain ⟨index, h, hle, -⟩ := C28_scan_stays_in_table 14 (by norm_num)
  exact ⟨index, h, hle⟩

/-- C29: for all powers `7 ≤ p ≤ q ≤ 20`, `CalcTxCurrent` returns a value at `p` and at `q`,
and `0.018 ≤ CalcTxCurrent p ≤ CalcTxCurrent q ≤ 0.125`. -/
theorem C29_CalcTxCurrent_monotone (p q : ℚ) (h7 : 7 ≤ p) (hpq : p ≤ q) (hq : q ≤ 20) :
    ∃ a b, CalcTxCurrent p = .ok a ∧ CalcTxCurrent q = .ok b ∧
      18 / 1000 ≤ a ∧ a ≤ b ∧ b ≤ 125 / 1000 := by
  have hp : p ≤ 20 := le_trans hpq hq
  by_cases hp13 : p ≤ 13
  · by_cases hq13 : q ≤ 13
    · refine ⟨_, _, CalcTxCurrent_low p hp13, CalcTxCurrent_low q hq13, ?_, ?_, ?_⟩ <;>
        norm_num <;> linarith
    · have hq13' : 13 < q := not_le.mp hq13
      by_cases hq17 : q ≤ 17
      · refine ⟨_, _, CalcTxCurrent_low p hp13, CalcTxCurrent_mid q hq13' hq17, ?_, ?_, ?_⟩ <;>
          norm_num <;> linarith
      · refine ⟨_, _, CalcTxCurrent_low p hp13, CalcTxCurrent_high q (not_le.mp hq17) hq,
          ?_, ?_, ?_⟩ <;> norm_num <;> linarith [not_le.mp hq17]
  · have hp13' : 13 < p := not_le.mp hp13
    have hq13' : 13 < q := lt_of_lt_of_le hp13' hpq
    by_cases hp17 : p ≤ 17
    · by_cases hq17 : q ≤ 17
      · refine ⟨_, _, CalcTxCurrent_mid p hp13' hp17, CalcTxCurrent_mid q hq13' hq17,
          ?_, ?_, ?_⟩ <;> norm_num <;> linarith
      · refine ⟨_, _, CalcTxCurrent_mid p hp13' hp17, CalcTxCurrent_high q (not_le.mp hq17) hq,
          ?_, ?_, ?_⟩ <;> norm_num <;> linarith [not_le.mp hq17]
    · have hp17' : 17 < p := not_le.mp hp17
      have hq17' : 17 < q := lt_of_lt_of_le hp17' hpq
      refine ⟨_, _, CalcTxCurrent_high p hp17' hp, CalcTxCurrent_high q hq17' hq,
        ?_, ?_, ?_⟩ <;> norm_num <;> linarith

/-- Witness of C29: the powers 10 dBm and 15 dBm. -/
theorem C29_CalcTxCurrent_monotone_witness :
    ∃ a b, CalcTxCurrent 10 = .ok a ∧ CalcTxCurrent 15 = .ok b ∧ a ≤ b := by
  obtain ⟨a, b, ha, hb, -, hab, -⟩ :=
    C29_CalcTxCurrent_monotone 10 15 (by norm_num) (by norm_num) (by norm_num)
  exact ⟨a, b, ha, hb, hab⟩

/-- C30: freshly constructed models are in SLEEP. From the installation of such models on a
source, no sequence of notifications of the listeners (refreshes of the source and reads
in between included) ends in the fatal error of an invalid state, and in every world that
such a sequence reaches every model is in one of the modes TX, RX, STANDBY and SLEEP, so that
`DoGetCurrentA` and the `switch` of `ChangeState` return. -/
theorem C30_modes_stay_valid (source : LoraEnergySource) (models : List LoraRadioEnergyModel)
    (es : List Event)
    (hfresh : ∀ m ∈ models, ∃ tx rx sb sl cm, m = LoraRadioEnergyModel.new tx rx sb sl cm)
    (hes : ∀ e ∈ es, e.isNotification ∨ e.isRefresh) :
    (∀ m ∈ models, m.GetCurrentState = SLEEP) ∧
    (install source models).run es ≠ .error Error.fatalError ∧
    ∀ w', (install source models).run es = .ok w' →
      ∀ m ∈ w'.models, isMode m.GetCurrentState ∧ (∃ c, m.DoGetCurrentA = .ok c) ∧
        ∀ d v, ∃ r, m.closeInterval d v = .ok r := by
  have hsleep : ∀ m ∈ models, m.GetCurrentState = SLEEP := by
    intro m hm
    obtain ⟨tx, rx, sb, sl, cm, rfl⟩ := hfresh m hm
    rfl
  have hvalid : ∀ m ∈ (install source models).models, isMode m.m_currentState := by
    intro m hm
    exact Or.inr (Or.inr (Or.inr (hsleep m hm)))
  obtain ⟨h1, h2⟩ := run_valid es (install source models) hes hvalid
  refine ⟨hsleep, h1, ?_⟩
  intro w' h m hm
  have hmode := h2 w' h m hm
  exact ⟨hmode, DoGetCurrentA_ok m hmode, fun d v => closeInterval_ok m d v hmode⟩

/-- Witness of C30: the four notifications of the test suite on the fresh radio of the test
set-up. -/
theorem C30_modes_stay_valid_witness :
    testWorld.run testCalls = .ok testWorldAt3 ∧
    ∀ m ∈ testWorldAt3.models, isMode m.GetCurrentState :=
  ⟨testWorld_run_testCalls, fun m hm =>
    ((C30_modes_stay_valid testSource [testModel] testCalls
      (fun x hx => by
        rw [List.mem_singleton] at hx
        exact ⟨_, _, _, _, _, hx⟩)
      (fun e he => by
        simp only [testCalls, List.mem_cons, List.mem_singleton, List.not_mem_nil,
          or_false] at he
        rcases he with rfl | rfl | rfl | rfl
        · exact Or.inl ⟨0, Or.inl ⟨14, rfl⟩⟩
        · exact Or.inl ⟨0, Or.inr (Or.inl rfl)⟩
        · exact Or.inl ⟨0, Or.inr (Or.inr (Or.inr rfl))⟩
        · exact Or.inl ⟨0, Or.inr (Or.inr (Or.inl rfl))⟩)).2.2
      testWorldAt3 testWorld_run_testCalls m hm).1⟩

end Claims

end ns3
